import Mathlib

/-! ISL79987 analog video decoder / MIPI-CSI2 bridge driver.

A shallow embedding of `drivers/media/i2c/isl79987.c`. The driver talks to the chip
through single-byte register reads and writes on a page-banked I2C register space.
The I2C adapter and the chip are the environment: they are a parameter of every
driver function (`I2cBus`), and every register access the driver makes is appended
to a transaction log, so that statements about order and about "no bus traffic" are
statements about that log.

Machine integers: `u8` values are `Nat` reduced `% 256` where the C code converts to
`u8`; `int` values are `Int`.
-/

namespace Isl79987

/-! ## The bus -/

/-- One register access made by the driver: `wr reg val` is a `WriteTW88`, and
`rd reg val` is a `ReadTW88` after which the destination byte holds `val`. -/
inductive Txn where
  | wr (reg val : Nat)
  | rd (reg val : Nat)
deriving DecidableEq, Repr

/-- The I2C adapter with the chip behind it, as a deterministic machine over its own
state `σ`.
* `send s bytes` is `i2c_master_send(client, bytes, len)`: the number of bytes sent or
  a negative errno, and the next state;
* `recv s` is `i2c_master_recv(client, buf, 1)`: its return value, the byte received,
  and the next state;
* `indet s` is the indeterminate content of an uninitialised `u8` automatic variable
  (the driver passes the address of such a variable to `ReadTW88` and never checks
  whether the read succeeded). -/
structure I2cBus (σ : Type) where
  send : σ → List Nat → Int × σ
  recv : σ → Int × Nat × σ
  indet : σ → Nat

/-- The environment state together with the log of accesses made so far, oldest first. -/
structure World (σ : Type) where
  dev : σ
  log : List Txn

/-- Value of errno `EIO`. -/
def EIO : Int := 5

/-- Value of errno `EINVAL`. -/
def EINVAL : Int := 22

/-- Conversion of an `int` to `u8`. -/
def toU8 (x : Int) : Nat := (x % 256).toNat

/-- Entry of a register table: `struct reg_value`. -/
structure reg_value where
  reg : Nat
  value : Nat
deriving DecidableEq, Repr

/-- Model of `WriteTW88(client, reg, val)`: one two-byte send; fewer than two bytes sent is an
error, the transport's own negative code or `-EIO`. -/
def WriteTW88 {σ : Type} (d : I2cBus σ) (w : World σ) (reg val : Nat) : Int × World σ :=
  let r := d.send w.dev [reg % 256, val % 256]
  let w1 : World σ := ⟨r.2, w.log ++ [Txn.wr (reg % 256) (val % 256)]⟩
  if r.1 < 2 then (if r.1 < 0 then r.1 else - EIO, w1) else (0, w1)

/-- Model of `WriteTW88S(client, config, size)` with `size = ARRAY_SIZE(config)`: the pairs in
index order, stopping at the first write that reports an error. -/
def WriteTW88S {σ : Type} (d : I2cBus σ) (w : World σ) : List reg_value → Int × World σ
  | [] => (0, w)
  | c :: cs =>
    let r := WriteTW88 d w c.reg c.value
    if r.1 ≠ 0 then r else WriteTW88S d r.2 cs

/-- Model of `ReadTW88(client, reg, &val)`: a one-byte send of the register address, then a
one-byte receive. `old` is the content of `*val` before the call; it is left as it
was when either transfer fails. Result: return code, content of `*val` afterwards,
world. -/
def ReadTW88 {σ : Type} (d : I2cBus σ) (w : World σ) (reg old : Nat) : Int × Nat × World σ :=
  let s := d.send w.dev [reg % 256]
  if s.1 < 1 then
    (if s.1 < 0 then s.1 else - EIO, old, ⟨s.2, w.log ++ [Txn.rd (reg % 256) old]⟩)
  else
    let r := d.recv s.2
    if r.1 < 1 then
      (if r.1 < 0 then r.1 else - EIO, old, ⟨r.2.2, w.log ++ [Txn.rd (reg % 256) old]⟩)
    else
      (0, r.2.1 % 256, ⟨r.2.2, w.log ++ [Txn.rd (reg % 256) (r.2.1 % 256)]⟩)

/-! ## Register tables -/

/-- Bank-reset/default table. -/
def isl79987_regs_default : List reg_value :=
  [ ⟨0xFF, 0x00⟩, ⟨0x03, 0x00⟩, ⟨0x0D, 0xC9⟩, ⟨0x0E, 0xC9⟩, ⟨0x10, 0x01⟩, ⟨0x11, 0x03⟩,
    ⟨0x12, 0x00⟩, ⟨0x13, 0x00⟩, ⟨0x14, 0x00⟩,
    ⟨0xFF, 0x05⟩, ⟨0x00, 0x02⟩, ⟨0x01, 0x85⟩, ⟨0x02, 0xa0⟩, ⟨0x03, 0x18⟩, ⟨0x04, 0xE4⟩,
    ⟨0x05, 0x40⟩, ⟨0x06, 0x40⟩, ⟨0x10, 0x05⟩, ⟨0x11, 0xa0⟩, ⟨0x20, 0x00⟩, ⟨0x21, 0x0C⟩,
    ⟨0x22, 0x00⟩, ⟨0x23, 0x00⟩, ⟨0x24, 0x00⟩, ⟨0x25, 0xF0⟩, ⟨0x26, 0x00⟩, ⟨0x27, 0x00⟩,
    ⟨0x2A, 0x00⟩, ⟨0x2B, 0x19⟩, ⟨0x2C, 0x18⟩, ⟨0x2D, 0xF1⟩, ⟨0x2E, 0x00⟩, ⟨0x2F, 0xF1⟩,
    ⟨0x30, 0x00⟩, ⟨0x31, 0x00⟩, ⟨0x32, 0x00⟩, ⟨0x33, 0xC0⟩, ⟨0x34, 0x18⟩, ⟨0x35, 0x00⟩,
    ⟨0x36, 0x00⟩ ]

/-- Decoder-calibration table, for all channels (page 0x0F). -/
def isl79987_decoder : List reg_value :=
  [ ⟨0xff, 0x0F⟩, ⟨0x2F, 0xE6⟩, ⟨0x33, 0x85⟩, ⟨0x3d, 0x08⟩, ⟨0xE7, 0x00⟩ ]

/-- Decoder table for 525/60 standards. -/
def isl79987_regs_decoder_ntsc : List reg_value :=
  [ ⟨0xFF, 0x0F⟩, ⟨0x07, 0x02⟩, ⟨0x08, 0x14⟩, ⟨0x09, 0xf0⟩, ⟨0x0a, 0x13⟩, ⟨0x0b, 0xd0⟩,
    ⟨0x2F, 0xE6⟩, ⟨0x33, 0x85⟩, ⟨0x3d, 0x08⟩, ⟨0xE7, 0x00⟩ ]

/-- MIPI bridge timing for 525/60 standards. -/
def isl79987_regs_mipi_ntsc : List reg_value :=
  [ ⟨0xFF, 0x05⟩, ⟨0x0F, 0x80⟩, ⟨0x2C, 0x18⟩, ⟨0x2D, 0xF1⟩, ⟨0x2E, 0x00⟩, ⟨0x2F, 0xF1⟩,
    ⟨0x3C, 0x00⟩, ⟨0x3D, 0x1F⟩ ]

/-- Decoder table for the other (625/50) standards. -/
def isl79987_regs_decoder_pal : List reg_value :=
  [ ⟨0xFF, 0x0F⟩, ⟨0x07, 0x12⟩, ⟨0x08, 0x16⟩, ⟨0x09, 0x20⟩, ⟨0x0a, 0x0D⟩, ⟨0x0b, 0xd0⟩,
    ⟨0x2F, 0xE6⟩, ⟨0x33, 0x85⟩, ⟨0x3d, 0x08⟩, ⟨0xE7, 0x00⟩ ]

/-- MIPI bridge timing for the other (625/50) standards. -/
def isl79987_regs_mipi_pal : List reg_value :=
  [ ⟨0xFF, 0x05⟩, ⟨0x0F, 0x84⟩, ⟨0x2C, 0x19⟩, ⟨0x2D, 0x21⟩, ⟨0x2E, 0x01⟩, ⟨0x2F, 0x21⟩,
    ⟨0x3C, 0x01⟩, ⟨0x3D, 0x21⟩ ]

/-- Channel/lane table: four channels on two lanes. -/
def isl79987_4Ch2Lane : List reg_value :=
  [ ⟨0xFF, 0x00⟩, ⟨0x07, 0x12⟩, ⟨0x08, 0x1f⟩, ⟨0x09, 0x43⟩, ⟨0x0A, 0x4f⟩, ⟨0x0B, 0x41⟩,
    ⟨0xFF, 0x05⟩, ⟨0x00, 0x02⟩, ⟨0x01, 0x05⟩, ⟨0x02, 0xA0⟩, ⟨0x03, 0x10⟩, ⟨0x04, 0xE4⟩,
    ⟨0x05, 0x00⟩, ⟨0x06, 0x00⟩, ⟨0x07, 0x2B⟩, ⟨0x08, 0x02⟩, ⟨0x09, 0x00⟩, ⟨0x0A, 0x62⟩,
    ⟨0x0B, 0x02⟩, ⟨0x0C, 0x36⟩, ⟨0x0D, 0x00⟩, ⟨0x0E, 0x6C⟩, ⟨0x0F, 0x80⟩, ⟨0x10, 0x05⟩,
    ⟨0x11, 0xA0⟩, ⟨0x12, 0x77⟩, ⟨0x13, 0x17⟩, ⟨0x14, 0x08⟩, ⟨0x15, 0x38⟩, ⟨0x16, 0x14⟩,
    ⟨0x17, 0xF6⟩, ⟨0x18, 0x00⟩, ⟨0x19, 0x17⟩, ⟨0x1A, 0x0A⟩, ⟨0x1B, 0x71⟩, ⟨0x1C, 0x7A⟩,
    ⟨0x1D, 0x0F⟩, ⟨0x1E, 0x8C⟩, ⟨0x23, 0x0A⟩, ⟨0x26, 0x08⟩, ⟨0x28, 0x01⟩, ⟨0x29, 0x0E⟩,
    ⟨0x2A, 0x00⟩, ⟨0x2B, 0x00⟩, ⟨0x38, 0x03⟩, ⟨0x39, 0xC0⟩, ⟨0x3A, 0x06⟩, ⟨0x3B, 0xB3⟩,
    ⟨0x3C, 0x00⟩, ⟨0x3D, 0xF1⟩ ]

/-- Channel/lane table: four channels on one lane. -/
def isl79987_4Ch1Lane : List reg_value :=
  [ ⟨0xFF, 0x0⟩, ⟨0x07, 0x12⟩, ⟨0x08, 0x1f⟩, ⟨0x09, 0x43⟩, ⟨0x0A, 0x4f⟩, ⟨0x0B, 0x40⟩,
    ⟨0xFF, 0x5⟩, ⟨0x00, 0x01⟩, ⟨0x01, 0x05⟩, ⟨0x02, 0xA0⟩, ⟨0x03, 0x10⟩, ⟨0x04, 0xE4⟩,
    ⟨0x05, 0x00⟩, ⟨0x06, 0x00⟩, ⟨0x07, 0x2B⟩, ⟨0x08, 0x00⟩, ⟨0x09, 0x00⟩, ⟨0x0A, 0x62⟩,
    ⟨0x0B, 0x02⟩, ⟨0x0C, 0x36⟩, ⟨0x0D, 0x00⟩, ⟨0x0E, 0x6C⟩, ⟨0x0F, 0x80⟩, ⟨0x10, 0x05⟩,
    ⟨0x11, 0xA0⟩, ⟨0x12, 0x78⟩, ⟨0x13, 0x17⟩, ⟨0x14, 0x07⟩, ⟨0x15, 0x36⟩, ⟨0x16, 0x10⟩,
    ⟨0x17, 0xF6⟩, ⟨0x18, 0x00⟩, ⟨0x19, 0x17⟩, ⟨0x1A, 0x0A⟩, ⟨0x1B, 0x71⟩, ⟨0x1C, 0x7A⟩,
    ⟨0x1D, 0x0F⟩, ⟨0x1E, 0x8C⟩, ⟨0x23, 0x0A⟩, ⟨0x26, 0x07⟩, ⟨0x28, 0x01⟩, ⟨0x29, 0x0E⟩,
    ⟨0x2A, 0x00⟩, ⟨0x2B, 0x00⟩, ⟨0x38, 0x03⟩, ⟨0x39, 0xC0⟩, ⟨0x3A, 0x06⟩, ⟨0x3B, 0xB3⟩,
    ⟨0x3C, 0x00⟩, ⟨0x3D, 0xF1⟩ ]

/-- Channel/lane table: two channels on two lanes. -/
def isl79987_2Ch2Lane : List reg_value :=
  [ ⟨0xFF, 0x0⟩, ⟨0x07, 0x11⟩, ⟨0x08, 0x1f⟩, ⟨0x09, 0x47⟩, ⟨0x0A, 0x4f⟩, ⟨0x0B, 0x42⟩,
    ⟨0xFF, 0x5⟩, ⟨0x00, 0x02⟩, ⟨0x01, 0x05⟩, ⟨0x02, 0xA0⟩, ⟨0x03, 0x10⟩, ⟨0x04, 0xE4⟩,
    ⟨0x05, 0x00⟩, ⟨0x06, 0x00⟩, ⟨0x07, 0x24⟩, ⟨0x08, 0x02⟩, ⟨0x09, 0x00⟩, ⟨0x0A, 0x62⟩,
    ⟨0x0B, 0x02⟩, ⟨0x0C, 0x36⟩, ⟨0x0D, 0x00⟩, ⟨0x0E, 0x36⟩, ⟨0x0F, 0x80⟩, ⟨0x10, 0x05⟩,
    ⟨0x11, 0xA0⟩, ⟨0x12, 0x34⟩, ⟨0x13, 0x0F⟩, ⟨0x14, 0x06⟩, ⟨0x15, 0x24⟩, ⟨0x16, 0x11⟩,
    ⟨0x17, 0x70⟩, ⟨0x18, 0x00⟩, ⟨0x19, 0x17⟩, ⟨0x1A, 0x06⟩, ⟨0x1B, 0x31⟩, ⟨0x1C, 0x46⟩,
    ⟨0x1D, 0x08⟩, ⟨0x1E, 0x57⟩, ⟨0x23, 0x06⟩, ⟨0x26, 0x06⟩, ⟨0x28, 0x01⟩, ⟨0x29, 0x69⟩,
    ⟨0x2A, 0x00⟩, ⟨0x2B, 0x00⟩, ⟨0x38, 0x01⟩, ⟨0x39, 0xE0⟩, ⟨0x3A, 0x06⟩, ⟨0x3B, 0xB3⟩,
    ⟨0x3C, 0x00⟩, ⟨0x3D, 0xF1⟩ ]

/-- Channel/lane table: two channels on one lane. -/
def isl79987_2Ch1Lane : List reg_value :=
  [ ⟨0xFF, 0x0⟩, ⟨0x07, 0x11⟩, ⟨0x08, 0x1f⟩, ⟨0x09, 0x47⟩, ⟨0x0A, 0x4f⟩, ⟨0x0B, 0x41⟩,
    ⟨0xFF, 0x5⟩, ⟨0x00, 0x01⟩, ⟨0x01, 0x05⟩, ⟨0x02, 0xA0⟩, ⟨0x03, 0x10⟩, ⟨0x04, 0xE4⟩,
    ⟨0x05, 0x00⟩, ⟨0x06, 0x00⟩, ⟨0x07, 0x1B⟩, ⟨0x08, 0x02⟩, ⟨0x09, 0x00⟩, ⟨0x0A, 0x62⟩,
    ⟨0x0B, 0x02⟩, ⟨0x0C, 0x36⟩, ⟨0x0D, 0x00⟩, ⟨0x0E, 0x36⟩, ⟨0x0F, 0x80⟩, ⟨0x10, 0x05⟩,
    ⟨0x11, 0xA0⟩, ⟨0x12, 0x34⟩, ⟨0x13, 0x07⟩, ⟨0x14, 0x02⟩, ⟨0x15, 0x1E⟩, ⟨0x16, 0x0A⟩,
    ⟨0x17, 0x70⟩, ⟨0x18, 0x00⟩, ⟨0x19, 0x17⟩, ⟨0x1A, 0x06⟩, ⟨0x1B, 0x31⟩, ⟨0x1C, 0x43⟩,
    ⟨0x1D, 0x08⟩, ⟨0x1E, 0x77⟩, ⟨0x23, 0x03⟩, ⟨0x26, 0x02⟩, ⟨0x28, 0x00⟩, ⟨0x29, 0xB4⟩,
    ⟨0x2A, 0x00⟩, ⟨0x2B, 0x00⟩, ⟨0x38, 0x01⟩, ⟨0x39, 0xE0⟩, ⟨0x3A, 0x06⟩, ⟨0x3B, 0xB3⟩,
    ⟨0x3C, 0x00⟩, ⟨0x3D, 0xF1⟩ ]

/-- Channel/lane table: one channel on one lane. -/
def isl79987_1Ch1Lane : List reg_value :=
  [ ⟨0xFF, 0x0⟩, ⟨0x07, 0x00⟩, ⟨0x08, 0x1f⟩, ⟨0x09, 0x4f⟩, ⟨0x0A, 0x4f⟩, ⟨0x0B, 0x42⟩,
    ⟨0xFF, 0x5⟩, ⟨0x00, 0x01⟩, ⟨0x01, 0x05⟩, ⟨0x02, 0xA0⟩, ⟨0x03, 0x10⟩, ⟨0x04, 0xE4⟩,
    ⟨0x05, 0x00⟩, ⟨0x06, 0x00⟩, ⟨0x07, 0x17⟩, ⟨0x08, 0x00⟩, ⟨0x09, 0x00⟩, ⟨0x0A, 0x62⟩,
    ⟨0x0B, 0x02⟩, ⟨0x0C, 0x36⟩, ⟨0x0D, 0x00⟩, ⟨0x0E, 0x1B⟩, ⟨0x0F, 0x80⟩, ⟨0x10, 0x05⟩,
    ⟨0x11, 0xA0⟩, ⟨0x12, 0x12⟩, ⟨0x13, 0x05⟩, ⟨0x14, 0x02⟩, ⟨0x15, 0x0E⟩, ⟨0x16, 0x08⟩,
    ⟨0x17, 0x37⟩, ⟨0x18, 0x00⟩, ⟨0x19, 0x00⟩, ⟨0x1A, 0x02⟩, ⟨0x1B, 0x11⟩, ⟨0x1C, 0x22⟩,
    ⟨0x1D, 0x03⟩, ⟨0x1E, 0x22⟩, ⟨0x23, 0x02⟩, ⟨0x26, 0x02⟩, ⟨0x28, 0x01⟩, ⟨0x29, 0x0E⟩,
    ⟨0x2A, 0x00⟩, ⟨0x2B, 0x00⟩, ⟨0x38, 0x00⟩, ⟨0x39, 0xF0⟩, ⟨0x3A, 0x06⟩, ⟨0x3B, 0xB3⟩,
    ⟨0x3C, 0x00⟩, ⟨0x3D, 0xF1⟩ ]

/-! ## Constants of the V4L2 headers -/

/-- Modelled from the spec: `V4L2_STD_PAL` of `include/uapi/linux/videodev2.h` (not
among the embedded files), the mask of PAL B, B1, G, H, I, D, D1 and K. -/
def V4L2_STD_PAL : Nat := 0x000000FF

/-- Modelled from the spec: `V4L2_STD_PAL_M` of videodev2.h. -/
def V4L2_STD_PAL_M : Nat := 0x00000100

/-- Modelled from the spec: `V4L2_STD_PAL_N` of videodev2.h. -/
def V4L2_STD_PAL_N : Nat := 0x00000200

/-- Modelled from the spec: `V4L2_STD_PAL_Nc` of videodev2.h. -/
def V4L2_STD_PAL_Nc : Nat := 0x00000400

/-- Modelled from the spec: `V4L2_STD_PAL_60` of videodev2.h. -/
def V4L2_STD_PAL_60 : Nat := 0x00000800

/-- Modelled from the spec: `V4L2_STD_NTSC` of videodev2.h, the mask of NTSC M, M-JP
and M-KR. -/
def V4L2_STD_NTSC : Nat := 0x0000B000

/-- Modelled from the spec: `V4L2_STD_NTSC_443` of videodev2.h. -/
def V4L2_STD_NTSC_443 : Nat := 0x00004000

/-- Modelled from the spec: `V4L2_STD_SECAM` of videodev2.h, the mask of all SECAM
variants. -/
def V4L2_STD_SECAM : Nat := 0x00FF0000

/-- Modelled from the spec: `V4L2_STD_525_60` of videodev2.h, which is
`PAL_M | PAL_60 | NTSC | NTSC_443`. -/
def V4L2_STD_525_60 : Nat := 0x0000F900

/-- Modelled from the spec: `V4L2_STD_UNKNOWN` of videodev2.h. -/
def V4L2_STD_UNKNOWN : Nat := 0

/-- Modelled from the spec: `V4L2_IN_ST_NO_SIGNAL` of videodev2.h, the input-status flag
"no signal"; an input status without it reports a signal. -/
def V4L2_IN_ST_NO_SIGNAL : Nat := 0x00000002

/-- Modelled from the spec: `V4L2_CID_BRIGHTNESS` of
`include/uapi/linux/v4l2-controls.h` (not among the embedded files). -/
def V4L2_CID_BRIGHTNESS : Nat := 0x00980900

/-- Modelled from the spec: `V4L2_CID_CONTRAST` of v4l2-controls.h. -/
def V4L2_CID_CONTRAST : Nat := 0x00980901

/-- Modelled from the spec: `V4L2_CID_SATURATION` of v4l2-controls.h. -/
def V4L2_CID_SATURATION : Nat := 0x00980902

/-- Modelled from the spec: `V4L2_CID_HUE` of v4l2-controls.h. -/
def V4L2_CID_HUE : Nat := 0x00980903

/-- Modelled from the spec: `V4L2_CID_BLACK_LEVEL` of v4l2-controls.h. -/
def V4L2_CID_BLACK_LEVEL : Nat := 0x0098090B

/-- Modelled from the spec: `V4L2_CID_AUTO_WHITE_BALANCE` of v4l2-controls.h. -/
def V4L2_CID_AUTO_WHITE_BALANCE : Nat := 0x0098090C

/-- Modelled from the spec: `V4L2_CID_SHARPNESS` of v4l2-controls.h. -/
def V4L2_CID_SHARPNESS : Nat := 0x0098091B

/-- Modelled from the spec: `V4L2_CID_PIXEL_RATE` of v4l2-controls.h. -/
def V4L2_CID_PIXEL_RATE : Nat := 0x009F0902

/-- Modelled from the spec: `V4L2_CID_TEST_PATTERN` of v4l2-controls.h. -/
def V4L2_CID_TEST_PATTERN : Nat := 0x009F0903

/-! ## Driver state and constants -/

/-- Expected content of the chip identity register R000. -/
def ISL79987_CHIP_ID : Nat := 0x87

/-- Fields of `struct isl79987_state` that the register-level code reads or writes. -/
structure isl79987_state where
  streaming : Bool
  curr_norm : Nat
  vc : Nat
  lanes : Int
  chs : Int
  is_dummy : Int
  pseudo : Int
  histo : Int
deriving DecidableEq, Repr

def MIPI_RESET_CLEAR : Int := 0
def MIPI_RESET_SET : Int := 1
def MIPI_RESET_CH_CLEAR : Int := 2
def MIPI_RESET_ALL_CLEAR : Int := 3
def MIPI_RESET_ALL_SET : Int := 4

def ISL79987_AFE_STATUS_REG : Nat := 0x03
def ISL79987_AFE_STATUS_VDLOSS : Nat := 0x80
def ISL79987_AFE_STATUS_FIELD : Nat := 0x10
def ISL79987_AFE_STATUS_LOCK : Nat := 0x68
def ISL79987_AFE_STATUS_NOSIGNAL_MASK : Nat :=
  ISL79987_AFE_STATUS_VDLOSS ||| ISL79987_AFE_STATUS_LOCK

def ISL79987_DEC_STD_REG : Nat := 0x1C
def ISL79987_AFE_STD_PAL : Nat := 0x10
def ISL79987_AFE_STD_SECAM : Nat := 0x20
def ISL79987_AFE_STD_PAL_CN : Nat := 0x50

def ISL79987_IA_CONTRAST_Y : Nat := 0x11
def ISL79987_IA_CONTRAST_CB : Nat := 0x13
def ISL79987_IA_CONTRAST_CR : Nat := 0x14
def ISL79987_IA_BRIGHTNESS_Y : Nat := 0x10
def ISL79987_IA_HUE : Nat := 0x15

/-- The control passed to `s_ctrl`: `ctrl->id` and `ctrl->val`. -/
structure v4l2_ctrl where
  id : Nat
  val : Int
deriving DecidableEq, Repr

/-! ## Driver functions -/

/-- A `ReadTW88` whose destination is an automatic `u8` that was not initialised. -/
def ReadTW88_uninit {σ : Type} (d : I2cBus σ) (w : World σ) (reg : Nat) : Int × Nat × World σ :=
  ReadTW88 d w reg (d.indet w.dev % 256)

/-- Model of `isl79987_check_chip_id`: result code, state (with `is_dummy` possibly set),
world. -/
def isl79987_check_chip_id {σ : Type} (d : I2cBus σ) (w : World σ) (st : isl79987_state) :
    Int × isl79987_state × World σ :=
  if st.is_dummy ≠ 0 then (0, st, w)
  else
    let w1 := (WriteTW88 d w 0xFF 0).2
    let r := ReadTW88_uninit d w1 0x00
    let id := r.2.1
    if id ≠ ISL79987_CHIP_ID then
      (0, { st with is_dummy := 1 }, r.2.2)
    else
      let r1 := ReadTW88_uninit d r.2.2 0x01
      (0, st, r1.2.2)

/-- Model of `isl79987_SW_reset`. -/
def isl79987_SW_reset {σ : Type} (d : I2cBus σ) (w : World σ) (st : isl79987_state) :
    Int × World σ :=
  if st.is_dummy ≠ 0 then (0, w)
  else
    let w1 := (WriteTW88 d w 0xff 0).2
    let r := ReadTW88_uninit d w1 0x02
    let val := r.2.1
    let w2 := (WriteTW88 d r.2.2 0x02 (val ||| 0x80)).2
    (0, w2)

/-- The `switch(flag_set)` of `isl79987_mipi_reset`, on the byte read from R002.
`bTemp &= ~m` on a `u8` is `bTemp &&& (0xFF - m)`. -/
def mipi_reset_bits (flag_set : Int) (bTemp : Nat) : Nat :=
  if flag_set = MIPI_RESET_CLEAR then bTemp &&& 0xEF
  else if flag_set = MIPI_RESET_SET then bTemp ||| 0x10
  else if flag_set = MIPI_RESET_CH_CLEAR then bTemp &&& 0xF0
  else if flag_set = MIPI_RESET_ALL_CLEAR then bTemp &&& 0xE0
  else if flag_set = MIPI_RESET_ALL_SET then bTemp ||| 0x1F
  else bTemp

/-- Model of `isl79987_mipi_reset`. -/
def isl79987_mipi_reset {σ : Type} (d : I2cBus σ) (w : World σ) (st : isl79987_state)
    (flag_set : Int) : Int × World σ :=
  if st.is_dummy ≠ 0 then (0, w)
  else
    let w1 := (WriteTW88 d w 0xff 0).2
    let r := ReadTW88_uninit d w1 0x02
    let bTemp := mipi_reset_bits flag_set r.2.1
    let w2 := (WriteTW88 d r.2.2 0x02 bTemp).2
    (0, w2)

/-- Model of `isl79987_afe_status`. `signal` and `std` are `none` for a NULL pointer and
otherwise hold what the pointer points to; the result gives them after the call. -/
def isl79987_afe_status {σ : Type} (d : I2cBus σ) (w : World σ) (st : isl79987_state)
    (pad : Int) (signal std : Option Nat) : Int × Option Nat × Option Nat × World σ :=
  if st.is_dummy ≠ 0 then
    (0, signal.map (fun _ => 0), std.map (fun _ => V4L2_STD_NTSC), w)
  else
    let page : Nat :=
      if pad = 0 then 0x01 else if pad = 1 then 0x02 else if pad = 2 then 0x03
      else if pad = 3 then 0x04 else 0x0F
    let w1 := (WriteTW88 d w 0xFF page).2
    let r := ReadTW88_uninit d w1 ISL79987_AFE_STATUS_REG
    let tmp := r.2.1
    let nosignal : Bool :=
      decide (tmp &&& ISL79987_AFE_STATUS_NOSIGNAL_MASK ≠ ISL79987_AFE_STATUS_LOCK)
    let signal1 := signal.map (fun _ => if nosignal then V4L2_IN_ST_NO_SIGNAL else 0)
    if nosignal && std.isSome then
      (0, signal1, some V4L2_STD_UNKNOWN, r.2.2)
    else if std.isNone then
      (0, signal1, none, r.2.2)
    else
      let r1 := ReadTW88 d r.2.2 ISL79987_DEC_STD_REG tmp
      let tmp1 := r1.2.1 &&& 0x70
      if tmp1 = ISL79987_AFE_STD_PAL ∨ tmp1 = ISL79987_AFE_STD_SECAM
          ∨ tmp1 = ISL79987_AFE_STD_PAL_CN then
        (0, signal1, some V4L2_STD_PAL, r1.2.2)
      else if tmp1 = 0x70 then
        (0, signal1, some V4L2_STD_UNKNOWN, r1.2.2)
      else
        (0, signal1, some V4L2_STD_NTSC, r1.2.2)

/-- One `while(1)` loop of `isl79987_wait_field`. Each round reads the status register
into `tmp`; with the video-loss bit set the function returns (`true`), and when the
field bit is set exactly if `want` the loop is left (`false`). The C loop has no
bound: `none` means the rounds allowed were used up without leaving it. -/
def wait_loop {σ : Type} (d : I2cBus σ) (want : Bool) :
    Nat → World σ → Nat → Option (Bool × Nat × World σ)
  | 0, _, _ => none
  | fuel + 1, w, tmp =>
    let r := ReadTW88 d w ISL79987_AFE_STATUS_REG tmp
    if r.2.1 &&& ISL79987_AFE_STATUS_VDLOSS ≠ 0 then some (true, r.2.1, r.2.2)
    else if decide (r.2.1 &&& ISL79987_AFE_STATUS_FIELD ≠ 0) = want then
      some (false, r.2.1, r.2.2)
    else wait_loop d want fuel r.2.2 r.2.1

/-- Model of `isl79987_wait_field(state, f)`. The C function returns `void` and does not
write to the session state: all its caller is handed is `()`, next to the world the
call leaves behind. Each of its two loops may run `fuel` rounds; `none` means a loop
did not end within them. -/
def isl79987_wait_field {σ : Type} (d : I2cBus σ) (fuel : Nat) (w : World σ)
    (st : isl79987_state) (f : Int) : Option (Unit × World σ) :=
  if st.is_dummy ≠ 0 then some ((), w)
  else
    let w1 := (WriteTW88 d w 0xFF 1).2
    let tmp := d.indet w1.dev % 256
    match wait_loop d (decide (f = 0)) fuel w1 tmp with
    | none => none
    | some (true, _, w2) => some ((), w2)
    | some (false, tmp1, w2) =>
      match wait_loop d (decide (f ≠ 0)) fuel w2 tmp1 with
      | none => none
      | some (_, _, w3) => some ((), w3)

/-- Model of `isl79987_mipi_power`. -/
def isl79987_mipi_power {σ : Type} (d : I2cBus σ) (w : World σ) (st : isl79987_state)
    (on_ : Bool) : Int × World σ :=
  if st.is_dummy ≠ 0 then (0, w)
  else
    let w1 := (WriteTW88 d w 0xff 5).2
    let r := ReadTW88_uninit d w1 0x00
    let reg := if on_ then r.2.1 &&& 0x7F else r.2.1 ||| 0x80
    let w2 := (WriteTW88 d r.2.2 0x00 reg).2
    (0, w2)

/-- Model of `isl79987_csi2_set_virtual_channel`. -/
def isl79987_csi2_set_virtual_channel {σ : Type} (d : I2cBus σ) (w : World σ)
    (st : isl79987_state) (vc : Nat) : Int × World σ :=
  if st.is_dummy ≠ 0 then (0, w)
  else
    let w1 := (WriteTW88 d w 0xff 5).2
    let w2 := (WriteTW88 d w1 0x04 (vc % 256)).2
    (0, w2)

/-- Model of `isl79987_csi2_enable_TestPattern(state, pad, fOn)`, a function returning
`void`. -/
def isl79987_csi2_enable_TestPattern {σ : Type} (d : I2cBus σ) (w : World σ)
    (pad : Nat) (fOn : Int) : World σ :=
  let channel : Nat :=
    if pad = 0 then 0x80 else if pad = 1 then 0x40 else if pad = 2 then 0x20
    else if pad = 3 then 0x10 else 0xF0
  let w1 := (WriteTW88 d w 0xFF 5).2
  let r := ReadTW88_uninit d w1 0x0D
  let tmp := if fOn ≠ 0 then r.2.1 ||| channel else r.2.1 &&& (0xFF ^^^ channel)
  (WriteTW88 d r.2.2 0x0D tmp).2

/-- The body of `if(state->pseudo) { ... }` in `isl79987_download_chip_registers`: frame
mode off, histogram on if asked for, pseudo-frame mode, virtual-channel spreading, and
the line count. `lines` is an `int`; the two bytes written are `lines >> 8` and `lines`
converted to `u8`. -/
def download_pseudo_frame {σ : Type} (d : I2cBus σ) (w : World σ) (st : isl79987_state) :
    World σ :=
  let w := (WriteTW88 d w 0xFF 5).2
  let r := ReadTW88_uninit d w 0x01
  let w := (WriteTW88 d r.2.2 0x01 (r.2.1 &&& 0xDF)).2
  let lines : Int := st.pseudo
  let lines : Int := if st.curr_norm = V4L2_STD_PAL then lines * 288 else lines * 240
  let lw : Int × World σ :=
    if st.histo ≠ 0 then
      let w := (WriteTW88 d w 0xff 0xf).2
      let w := (WriteTW88 d w 0xE7 0x01).2
      (lines + st.pseudo, w)
    else (lines, w)
  let lines := lw.1
  let w := lw.2
  let w := (WriteTW88 d w 0xFF 5).2
  let w := (WriteTW88 d w 0x06 0x61).2
  let w :=
    if st.vc &&& 0x03 = 0 then (WriteTW88 d w 0x04 0x00).2
    else if st.vc &&& 0x03 = 1 then (WriteTW88 d w 0x04 0x55).2
    else if st.vc &&& 0x03 = 2 then (WriteTW88 d w 0x04 0xAA).2
    else if st.vc &&& 0x03 = 3 then (WriteTW88 d w 0x04 0xFF).2
    else (WriteTW88 d w 0x04 0x00).2
  let w := (WriteTW88 d w 0x38 (toU8 (lines >>> 8))).2
  (WriteTW88 d w 0x39 (toU8 lines)).2

/-- Model of `isl79987_download_chip_registers`. The C code does not look at the return
value of any register access or helper it calls, and returns 0 on every path. The
message printed for `chs == 1 && lanes == 2` changes nothing and is left out. -/
def isl79987_download_chip_registers {σ : Type} (d : I2cBus σ) (w : World σ)
    (st : isl79987_state) : Int × World σ :=
  if st.is_dummy ≠ 0 then (0, w)
  else
    let w := (isl79987_mipi_reset d w st MIPI_RESET_ALL_SET).2
    let w := (WriteTW88S d w isl79987_regs_default).2
    let w := (isl79987_mipi_reset d w st MIPI_RESET_CH_CLEAR).2
    let w := (WriteTW88S d w isl79987_decoder).2
    let w :=
      if st.curr_norm &&& V4L2_STD_525_60 ≠ 0 then
        (WriteTW88S d w isl79987_regs_decoder_ntsc).2
      else
        (WriteTW88S d w isl79987_regs_decoder_pal).2
    let w :=
      if st.chs = 1 then
        (WriteTW88S d w isl79987_1Ch1Lane).2
      else if st.chs = 2 then
        if st.lanes = 1 then (WriteTW88S d w isl79987_2Ch1Lane).2
        else (WriteTW88S d w isl79987_2Ch2Lane).2
      else
        if st.lanes = 1 then (WriteTW88S d w isl79987_4Ch1Lane).2
        else (WriteTW88S d w isl79987_4Ch2Lane).2
    let w :=
      if st.vc ≠ 0 then (isl79987_csi2_set_virtual_channel d w st st.vc).2 else w
    let w :=
      if st.curr_norm &&& V4L2_STD_525_60 ≠ 0 then
        (WriteTW88S d w isl79987_regs_mipi_ntsc).2
      else
        (WriteTW88S d w isl79987_regs_mipi_pal).2
    let w := if st.pseudo ≠ 0 then download_pseudo_frame d w st else w
    let w := (isl79987_mipi_reset d w st MIPI_RESET_CLEAR).2
    (0, w)

/-- The hue conversion "SW to HW" that `isl79987_s_ctrl` performs on its `u8`
temporary before writing it to the hue register. -/
def hue_sw_to_hw (tmp : Nat) : Nat :=
  if tmp = 32 then 32
  else if tmp < 32 then (tmp + 33) % 256
  else (tmp + 256 - 33) % 256

/-- Model of `isl79987_s_ctrl`. -/
def isl79987_s_ctrl {σ : Type} (d : I2cBus σ) (w : World σ) (st : isl79987_state)
    (ctrl : v4l2_ctrl) : Int × World σ :=
  if ctrl.id = V4L2_CID_PIXEL_RATE then (0, w)
  else if st.is_dummy ≠ 0 then (0, w)
  else if ctrl.id = V4L2_CID_BRIGHTNESS then
    let w := (WriteTW88 d w 0xFF 0x0F).2
    let w := (WriteTW88 d w ISL79987_IA_BRIGHTNESS_Y (toU8 ctrl.val)).2
    (0, w)
  else if ctrl.id = V4L2_CID_CONTRAST then
    let w := (WriteTW88 d w 0xFF 0x0F).2
    let w := (WriteTW88 d w ISL79987_IA_CONTRAST_Y (toU8 ctrl.val)).2
    (0, w)
  else if ctrl.id = V4L2_CID_SATURATION then
    let w := (WriteTW88 d w 0xFF 0x0F).2
    let w := (WriteTW88 d w ISL79987_IA_CONTRAST_CB (toU8 ctrl.val)).2
    let w := (WriteTW88 d w ISL79987_IA_CONTRAST_CR (toU8 ctrl.val)).2
    (0, w)
  else if ctrl.id = V4L2_CID_HUE then
    let tmp := hue_sw_to_hw (toU8 ctrl.val)
    let w := (WriteTW88 d w 0xFF 1).2
    let w := (WriteTW88 d w ISL79987_IA_HUE tmp).2
    (0, w)
  else if ctrl.id = V4L2_CID_BLACK_LEVEL then
    let w := (WriteTW88 d w 0xFF 0x0F).2
    let r := ReadTW88_uninit d w 0x0C
    let tmp := if ctrl.val ≠ 0 then r.2.1 ||| 0x10 else r.2.1 &&& 0xEF
    let w := (WriteTW88 d r.2.2 0x0C tmp).2
    (0, w)
  else if ctrl.id = V4L2_CID_AUTO_WHITE_BALANCE then
    let w := (WriteTW88 d w 0xFF 0x0F).2
    let r := ReadTW88_uninit d w 0x80
    let tmp := if ctrl.val ≠ 0 then r.2.1 ||| 0x81 else r.2.1 &&& 0x7E
    let w := (WriteTW88 d r.2.2 0x80 tmp).2
    (0, w)
  else if ctrl.id = V4L2_CID_SHARPNESS then
    let w := (WriteTW88 d w 0xFF 0x0F).2
    let r := ReadTW88_uninit d w 0x12
    let tmp := r.2.1 &&& 0xF0
    let tmp := (tmp ||| toU8 ctrl.val) % 256
    let w := (WriteTW88 d r.2.2 0x12 tmp).2
    (0, w)
  else if ctrl.id = V4L2_CID_TEST_PATTERN then
    let w := isl79987_csi2_enable_TestPattern d w 0 ctrl.val
    let w := isl79987_csi2_enable_TestPattern d w 1 ctrl.val
    let w := isl79987_csi2_enable_TestPattern d w 2 ctrl.val
    let w := isl79987_csi2_enable_TestPattern d w 3 ctrl.val
    (0, w)
  else (-EINVAL, w)

/-! ## A register-file chip

The simplest chip behind the bus: every transfer succeeds, a write to address 0xFF
selects the bank, any other write stores the byte in the selected bank, and a read
returns the byte stored at the address last sent. -/

/-- State of the register-file chip: selected bank, address pointer, and the content
of every register of every bank. -/
structure RegFile where
  page : Nat
  ptr : Nat
  mem : Nat → Nat → Nat

/-- A two-byte send to the register-file chip. -/
def RegFile.write (s : RegFile) (reg val : Nat) : RegFile :=
  if reg = 0xFF then { s with page := val }
  else { s with mem := fun p a => if p = s.page ∧ a = reg then val else s.mem p a }

/-- The register-file chip as a bus. -/
def regFileBus : I2cBus RegFile where
  send := fun s bytes =>
    match bytes with
    | [reg] => (1, { s with ptr := reg })
    | [reg, val] => (2, s.write reg val)
    | _ => (-EINVAL, s)
  recv := fun s => (1, if s.ptr = 0xFF then s.page else s.mem s.page s.ptr, s)
  indet := fun _ => 0

/-- A register file with bank 0 selected and every register holding `v`. -/
def RegFile.const (v : Nat) : RegFile := ⟨0, 0, fun _ _ => v⟩

/-! ## A scripted chip

A chip that answers successive reads with the bytes of a list, whatever is written to
it; once the list is used up, reads fail. It stands for a status register that changes
on its own between polls. -/

/-- The scripted chip as a bus; its state is the list of bytes still to come. -/
def pollBus : I2cBus (List Nat) where
  send := fun s bytes => ((bytes.length : Int), s)
  recv := fun s =>
    match s with
    | [] => (- EIO, 0, [])
    | b :: bs => (1, b, bs)
  indet := fun _ => 0

/-! ## Streaming -/

/-- Model of `isl79987_s_stream(sd, enable)`: result code, state, world. The field wait
inside has no bound, so the model takes the rounds allowed to each of its loops and
gives `none` when they do not suffice. The two sleeps change nothing and are left
out; the last two accesses are the status read that the C code makes for its debug
message. -/
def isl79987_s_stream {σ : Type} (d : I2cBus σ) (fuel : Nat) (w : World σ)
    (st : isl79987_state) (enable : Int) : Option (Int × isl79987_state × World σ) :=
  let st1 : isl79987_state :=
    if enable ≠ 0 then { st with streaming := true }
    else if st.streaming then { st with streaming := false }
    else st
  if enable ≠ 0 ∧ st1.streaming = true then
    let r1 := isl79987_mipi_reset d w st1 MIPI_RESET_SET
    match isl79987_wait_field d fuel r1.2 st1 1 with
    | none => none
    | some (_, w2) =>
      let r2 := isl79987_mipi_reset d w2 st1 MIPI_RESET_CLEAR
      let w3 := (WriteTW88 d r2.2 0xFF 1).2
      let r3 := ReadTW88_uninit d w3 ISL79987_AFE_STATUS_REG
      some (r2.1, st1, r3.2.2)
  else some (0, st1, w)

/-! ## Attach -/

/-- Value of errno `ENODEV`. -/
def ENODEV : Int := 19

/-- Number of pads, `ISL79987_NR_PADS`, which is also `ISL79987_PORT_MAX`. -/
def ISL79987_PORT_MAX : Nat := 5

/-- Pad index of the CSI-2 source, `ISL79987_CSI2_SOURCE`. -/
def ISL79987_CSI2_SOURCE : Nat := 4

/-- Modelled from the spec: one endpoint of the device-tree node as
`of_graph_parse_endpoint` and `v4l2_fwnode_endpoint_parse` (kernel code outside the
embedded files) report it: its port number and its number of data lanes. -/
structure dt_endpoint where
  port : Nat
  num_data_lanes : Nat
deriving DecidableEq, Repr

/-- Modelled from the spec: the device-tree node of the chip, the external
configuration the topology is created from at attach time. A property read with
`of_property_read_u32` (kernel code outside the embedded files) is `none` when the node
does not have it, and then the read leaves its destination as it was. -/
structure dt_node where
  is_dummy : Option Nat
  vc : Option Nat
  chs : Option Nat
  endpoints : List dt_endpoint
deriving DecidableEq, Repr

/-- Conversion of a `u32` stored through a pointer to `int`. -/
def u32_to_int (v : Nat) : Int :=
  if v % 4294967296 < 2147483648 then ((v % 4294967296 : Nat) : Int)
  else ((v % 4294967296 : Nat) : Int) - 4294967296

/-- The loop `for_each_endpoint_of_node` of `isl79987_parse_dt`, over the endpoints still
to come: `seen` are the ports whose `state->endpoints[]` slot is taken, `found` the
flag of the same name. -/
def parse_dt_endpoints : List dt_endpoint → List Nat → Bool → isl79987_state →
    Bool × isl79987_state
  | [], _, found, st => (found, st)
  | ep :: eps, seen, found, st =>
    if ep.port ≥ ISL79987_PORT_MAX then parse_dt_endpoints eps seen found st
    else if ep.port ∈ seen then parse_dt_endpoints eps seen found st
    else
      let st1 : isl79987_state :=
        if ep.port = ISL79987_CSI2_SOURCE then { st with lanes := (ep.num_data_lanes : Int) }
        else st
      parse_dt_endpoints eps (ep.port :: seen) true st1

/-- Model of `isl79987_parse_dt`, called on a state whose endpoint slots are all empty. -/
def isl79987_parse_dt (st : isl79987_state) (dt : dt_node) : Int × isl79987_state :=
  let st : isl79987_state :=
    match dt.is_dummy with
    | some v => { st with is_dummy := u32_to_int v }
    | none => st
  let st : isl79987_state :=
    match dt.vc with
    | some v => { st with vc := v % 4294967296 }
    | none => st
  let st : isl79987_state :=
    match dt.chs with
    | some v => { st with chs := u32_to_int v }
    | none => st
  let r := parse_dt_endpoints dt.endpoints [] false st
  (if r.1 then 0 else - ENODEV, r.2)

/-- The state `kzalloc` hands to `isl79987_probe`: every field zero. -/
def zero_state : isl79987_state := ⟨false, 0, 0, 0, 0, 0, 0, 0⟩

/-- Model of `isl79987_probe` from the point where the state has been allocated up to
and including the register download: result code (non-zero: the probe fails and frees
the state), state, world. What follows in the C function is the registration with the
V4L2 framework, which does not write `is_dummy`, `vc`, `chs` or `lanes`. -/
def isl79987_probe {σ : Type} (d : I2cBus σ) (w : World σ) (dt : dt_node) :
    Int × isl79987_state × World σ :=
  let st : isl79987_state := { zero_state with is_dummy := 0 }
  let r := isl79987_check_chip_id d w st
  if r.1 ≠ 0 then (r.1, r.2.1, r.2.2)
  else
    let st : isl79987_state := { r.2.1 with vc := 0x00, chs := 4 }
    let p := isl79987_parse_dt st dt
    if p.1 ≠ 0 then (p.1, p.2, r.2.2)
    else
      let st : isl79987_state :=
        if p.2.chs = 1 ∧ p.2.lanes = 2 then { p.2 with lanes := 1 } else p.2
      let st : isl79987_state :=
        { st with streaming := false, curr_norm := V4L2_STD_NTSC, pseudo := 0, histo := 0 }
      let dl := isl79987_download_chip_registers d r.2.2 st
      if dl.1 ≠ 0 then (dl.1, st, dl.2)
      else (0, st, dl.2)

/-! ## A chip behind a bus that drops one transfer

The register-file chip, except that one send, counted from the start, is not
acknowledged: it returns `-EIO` and has no effect. -/

/-- The bus that fails its `k`-th send (counted from 0) when its state is `(some k, _)`
and never fails when it is `(none, _)`. -/
def flakyBus : I2cBus (Option Nat × RegFile) where
  send := fun s bytes =>
    match s.1 with
    | some 0 => (- EIO, (none, s.2))
    | some (k + 1) => ((regFileBus.send s.2 bytes).1, (some k, (regFileBus.send s.2 bytes).2))
    | none => ((regFileBus.send s.2 bytes).1, (none, (regFileBus.send s.2 bytes).2))
  recv := fun s =>
    ((regFileBus.recv s.2).1, (regFileBus.recv s.2).2.1, (s.1, (regFileBus.recv s.2).2.2))
  indet := fun _ => 0

/-- Value of errno `ENXIO`, the code an adapter reports for an address that is not
acknowledged. -/
def ENXIO : Int := 6

/-- A bus on which every send is short: one byte is taken and the transfer ends. -/
def shortBus : I2cBus Unit where
  send := fun _ _ => (1, ())
  recv := fun _ => (- EIO, 0, ())
  indet := fun _ => 0

/-- A bus on which no transfer is acknowledged: every send and receive reports
`-ENXIO`. -/
def nakBus : I2cBus Unit where
  send := fun _ _ => (- ENXIO, ())
  recv := fun _ => (- ENXIO, 0, ())
  indet := fun _ => 0

/-! ## Media-bus configuration -/

/-- Every two-byte send transfers both bytes: no register write fails. -/
def WritesSucceed {σ : Type} (d : I2cBus σ) : Prop :=
  ∀ (s : σ) (reg val : Nat), 2 ≤ (d.send s [reg, val]).1

/-- The writes that a register table stands for, in table order. -/
def table_txns (t : List reg_value) : List Txn :=
  t.map (fun c => Txn.wr (c.reg % 256) (c.value % 256))

/-- The accesses of one `isl79987_mipi_reset(state, flag_set)` that reads `r` from R002. -/
def mipi_reset_txns (flag_set : Int) (r : Nat) : List Txn :=
  [Txn.wr 0xFF 0x00, Txn.rd 0x02 r, Txn.wr 0x02 (mipi_reset_bits flag_set r)]

/-- The standard decoder table `isl79987_download_chip_registers` picks for a standard. -/
def decoder_table (curr_norm : Nat) : List reg_value :=
  if curr_norm &&& V4L2_STD_525_60 ≠ 0 then isl79987_regs_decoder_ntsc
  else isl79987_regs_decoder_pal

/-- The standard bridge (MIPI) table `isl79987_download_chip_registers` picks. -/
def mipi_table (curr_norm : Nat) : List reg_value :=
  if curr_norm &&& V4L2_STD_525_60 ≠ 0 then isl79987_regs_mipi_ntsc
  else isl79987_regs_mipi_pal

/-- The channel/lane table `isl79987_download_chip_registers` picks for `chs`, `lanes`. -/
def lane_table (chs lanes : Int) : List reg_value :=
  if chs = 1 then isl79987_1Ch1Lane
  else if chs = 2 then (if lanes = 1 then isl79987_2Ch1Lane else isl79987_2Ch2Lane)
  else (if lanes = 1 then isl79987_4Ch1Lane else isl79987_4Ch2Lane)

/-- The virtual-channel write of the download: made only for a non-zero `vc`. -/
def vc_txns (vc : Nat) : List Txn :=
  if vc ≠ 0 then [Txn.wr 0xFF 0x05, Txn.wr 0x04 (vc % 256)] else []

/-- The line count the pseudo-frame sequence computes. -/
def pseudo_lines (st : isl79987_state) : Int :=
  st.pseudo * (if st.curr_norm = V4L2_STD_PAL then 288 else 240)
    + (if st.histo ≠ 0 then st.pseudo else 0)

/-- The accesses of the pseudo-frame sequence, made only for a non-zero `pseudo`, when
`rp` is read from R501. -/
def pseudo_txns (st : isl79987_state) (rp : Nat) : List Txn :=
  if st.pseudo ≠ 0 then
    [Txn.wr 0xFF 0x05, Txn.rd 0x01 rp, Txn.wr 0x01 (rp &&& 0xDF)]
      ++ (if st.histo ≠ 0 then [Txn.wr 0xFF 0x0F, Txn.wr 0xE7 0x01] else [])
      ++ [Txn.wr 0xFF 0x05, Txn.wr 0x06 0x61, Txn.wr 0x04 ((st.vc &&& 0x03) * 0x55),
          Txn.wr 0x38 (toU8 (pseudo_lines st >>> 8)), Txn.wr 0x39 (toU8 (pseudo_lines st))]
  else []

/-- The accesses of a whole download in a session `st`, when the four reads it makes
(R002 three times, and R501 in the pseudo-frame sequence) give `r1`, `r2`, `rp`, `r3`. -/
def download_txns (st : isl79987_state) (r1 r2 rp r3 : Nat) : List Txn :=
  mipi_reset_txns MIPI_RESET_ALL_SET r1
    ++ table_txns isl79987_regs_default
    ++ mipi_reset_txns MIPI_RESET_CH_CLEAR r2
    ++ table_txns isl79987_decoder
    ++ table_txns (decoder_table st.curr_norm)
    ++ table_txns (lane_table st.chs st.lanes)
    ++ vc_txns st.vc
    ++ table_txns (mipi_table st.curr_norm)
    ++ pseudo_txns st rp
    ++ mipi_reset_txns MIPI_RESET_CLEAR r3

/-- Reading of the input status that `isl79987_afe_status` stores through `signal`: the
function stores `V4L2_IN_ST_NO_SIGNAL` when the lock pattern is missing and 0 when the
input is locked, so a status reports a signal exactly when that flag is clear. -/
def signalPresent (status : Nat) : Bool :=
  decide (status &&& V4L2_IN_ST_NO_SIGNAL = 0)

/-- The status byte that the first poll of `isl79987_wait_field` leaves in `tmp`. -/
def first_poll {σ : Type} (d : I2cBus σ) (w : World σ) : Nat :=
  (ReadTW88 d (WriteTW88 d w 0xFF 1).2 ISL79987_AFE_STATUS_REG
    (d.indet (WriteTW88 d w 0xFF 1).2.dev % 256)).2.1

/-- The five channel/lane pairs that have a table of their own. -/
def valid_pairs : List (Int × Int) := [(1, 1), (2, 1), (2, 2), (4, 1), (4, 2)]

/-- The five channel/lane tables. -/
def lane_tables : List (List reg_value) :=
  [isl79987_1Ch1Lane, isl79987_2Ch1Lane, isl79987_2Ch2Lane, isl79987_4Ch1Lane,
   isl79987_4Ch2Lane]

/-- The table named for a channel/lane pair, for the five pairs that have one. -/
def named_lane_table (chs lanes : Int) : Option (List reg_value) :=
  if chs = 1 ∧ lanes = 1 then some isl79987_1Ch1Lane
  else if chs = 2 ∧ lanes = 1 then some isl79987_2Ch1Lane
  else if chs = 2 ∧ lanes = 2 then some isl79987_2Ch2Lane
  else if chs = 4 ∧ lanes = 1 then some isl79987_4Ch1Lane
  else if chs = 4 ∧ lanes = 2 then some isl79987_4Ch2Lane
  else none

/-- A session on real hardware: four channels, two lanes, NTSC, nothing optional. -/
def realSession : isl79987_state :=
  ⟨false, V4L2_STD_NTSC, 0, 2, 4, 0, 0, 0⟩

/-- A simulated session: `realSession` with `is_dummy` set. -/
def dummySession : isl79987_state :=
  { realSession with is_dummy := 1 }

/-- A session with three channels on one lane: a pair without a table of its own. -/
def threeChSession : isl79987_state :=
  { realSession with chs := 3, lanes := 1 }

/-- A world on the register-file chip with all registers holding `v` and an empty log. -/
def regWorld (v : Nat) : World RegFile := ⟨RegFile.const v, []⟩

/-- The page `isl79987_afe_status` selects for a pad: the decoder of the input, or page
0x0F (all decoders) for any pad that is not one of the four inputs. -/
def afe_page (pad : Int) : Nat :=
  if pad = 0 then 0x01 else if pad = 1 then 0x02 else if pad = 2 then 0x03
  else if pad = 3 then 0x04 else 0x0F

/-- The status byte `isl79987_afe_status` holds after its read of register 0x03. -/
def status_read {σ : Type} (d : I2cBus σ) (w : World σ) (pad : Int) : Nat :=
  (ReadTW88_uninit d (WriteTW88 d w 0xFF (afe_page pad)).2 ISL79987_AFE_STATUS_REG).2.1

/-- The byte `isl79987_afe_status` holds after its read of standard register 0x1C, when
it makes that read. -/
def std_read {σ : Type} (d : I2cBus σ) (w : World σ) (pad : Int) : Nat :=
  (ReadTW88 d
    (ReadTW88_uninit d (WriteTW88 d w 0xFF (afe_page pad)).2 ISL79987_AFE_STATUS_REG).2.2
    ISL79987_DEC_STD_REG (status_read d w pad)).2.1

/-- Modelled from the spec: `V4L2_CID_GAMMA` of v4l2-controls.h, a control the driver does
not implement. -/
def V4L2_CID_GAMMA : Nat := 0x00980910

/-- The control identifiers `isl79987_s_ctrl` has a case for, and the pixel-rate control
it answers before looking at the session. -/
def known_ctrl_ids : List Nat :=
  [V4L2_CID_PIXEL_RATE, V4L2_CID_BRIGHTNESS, V4L2_CID_CONTRAST, V4L2_CID_SATURATION,
   V4L2_CID_HUE, V4L2_CID_BLACK_LEVEL, V4L2_CID_AUTO_WHITE_BALANCE, V4L2_CID_SHARPNESS,
   V4L2_CID_TEST_PATTERN]

/-- A PAL-M session: `realSession` with the standard PAL-M, a 525-line PAL variant. -/
def palMSession : isl79987_state :=
  { realSession with curr_norm := V4L2_STD_PAL_M }

/-- A device-tree node with the CSI-2 source endpoint on two lanes and the property
`isl79987,is-dummy = <0>`. -/
def dt_is_dummy_zero : dt_node :=
  ⟨some 0, none, none, [⟨ISL79987_CSI2_SOURCE, 2⟩]⟩

/-- A device-tree node with the CSI-2 source endpoint on two lanes and no property. -/
def dt_plain : dt_node :=
  ⟨none, none, none, [⟨ISL79987_CSI2_SOURCE, 2⟩]⟩

/-- A world on the bus that drops its `k`-th send, over a register-file chip with all
registers holding `v`, with an empty log. -/
def flakyWorld (k v : Nat) : World (Option Nat × RegFile) := ⟨(some k, RegFile.const v), []⟩

/-- The world after every pair of a table has been handed to `WriteTW88`, one after the
other, whatever the results were. -/
def write_each {σ : Type} (d : I2cBus σ) (w : World σ) (t : List reg_value) : World σ :=
  t.foldl (fun w1 c => (WriteTW88 d w1 c.reg c.value).2) w

/-- Result of write number `i` (from 0) of a table when the writes before it have been
made: `none` past the end of the table. -/
def write_result {σ : Type} (d : I2cBus σ) (w : World σ) (t : List reg_value) (i : Nat) :
    Option Int :=
  t[i]?.map (fun c => (WriteTW88 d (write_each d w (t.take i)) c.reg c.value).1)

/-- What the transport reports for the two-byte send of write number `i` (from 0) of a
table when the writes before it have been made: the number of bytes sent or a negative
code; `none` past the end of the table. -/
def send_result {σ : Type} (d : I2cBus σ) (w : World σ) (t : List reg_value) (i : Nat) :
    Option Int :=
  t[i]?.map (fun c => (d.send (write_each d w (t.take i)).dev [c.reg % 256, c.value % 256]).1)

/-- The video-loss bit 0x80 of a status byte. -/
def vdloss_bit (b : Nat) : Bool := decide (b &&& ISL79987_AFE_STATUS_VDLOSS ≠ 0)

/-- The field bit 0x10 of a status byte. -/
def field_bit (b : Nat) : Bool := decide (b &&& ISL79987_AFE_STATUS_FIELD ≠ 0)

/-- Poll number `m` (from 0) of a list of status bytes has the video-loss bit set. -/
def IsLossPoll (polls : List Nat) (m : Nat) : Prop :=
  ∃ b, polls[m]? = some b ∧ vdloss_bit b = true

/-- Poll number `m` is an edge towards `target`: its field bit is `target` and a poll
strictly before it has the other field bit. -/
def IsEdgePoll (target : Bool) (polls : List Nat) (m : Nat) : Prop :=
  ∃ b, polls[m]? = some b ∧ field_bit b = target
    ∧ ∃ i < m, ∃ c, polls[i]? = some c ∧ field_bit c ≠ target

/-- Poll number `n` is where the field wait for `target` ends, in the words of the
specification: the first poll that is an edge towards `target` or shows video loss. -/
def ReturningPoll (target : Bool) (polls : List Nat) (n : Nat) : Prop :=
  (IsLossPoll polls n ∨ IsEdgePoll target polls n)
    ∧ ∀ m < n, ¬ (IsLossPoll polls m ∨ IsEdgePoll target polls m)

/-- The transactions `after` extend `before` by one read-modify-write of register `reg`
of bank `page`: a bank select, one read giving `r`, and one write of `f r`, where
`f r` agrees with `r` on every bit outside `mask`. -/
def IsRmw (before after : List Txn) (page reg mask : Nat) (f : Nat → Nat) : Prop :=
  ∃ r : Nat, r < 256
    ∧ after = before ++ [Txn.wr 0xFF page, Txn.rd reg r, Txn.wr reg (f r)]
    ∧ f r &&& (0xFF - mask) = r &&& (0xFF - mask)

/-- A scripted chip for a stream start: 0x05 answers the read of the reset register,
the status polls see field 0, field 0, field 1, the second read of the reset register
sees 0x15 and the last status read 0x10. -/
def streamWorld : World (List Nat) := ⟨[0x05, 0x00, 0x00, 0x10, 0x15, 0x10], []⟩

/-- The eleven static register tables of the driver. -/
def static_tables : List (List reg_value) :=
  [isl79987_regs_default, isl79987_decoder, isl79987_regs_decoder_ntsc,
   isl79987_regs_mipi_ntsc, isl79987_regs_decoder_pal, isl79987_regs_mipi_pal,
   isl79987_4Ch2Lane, isl79987_4Ch1Lane, isl79987_2Ch2Lane, isl79987_2Ch1Lane,
   isl79987_1Ch1Lane]

/-- What is followed through a download on the register-file chip: the bank selected,
register 0x04 of bank 5 (the virtual-channel map) and register 0x02 of bank 0 (MIPI
reset and channel enables). -/
def watched (rf : RegFile) : Nat × Nat × Nat := (rf.page, rf.mem 5 0x04, rf.mem 0 0x02)

/-- The session `realSession` with virtual-channel code 0x39. -/
def vcSession : isl79987_state := { realSession with vc := 0x39 }

/-- The session `vcSession` with one pseudo frame asked for. -/
def vcPseudoSession : isl79987_state := { vcSession with pseudo := 1 }

/-- The log `after` is `before` with one access or more added, the first of which is a
bank select, a write to register 0xFF. -/
def SelectsFirst (before after : List Txn) : Prop :=
  ∃ (p : Nat) (rest : List Txn), after = before ++ Txn.wr 0xFF p :: rest

/-- The control identifiers `isl79987_s_ctrl` makes register accesses for. -/
def bus_ctrl_ids : List Nat :=
  [V4L2_CID_BRIGHTNESS, V4L2_CID_CONTRAST, V4L2_CID_SATURATION, V4L2_CID_HUE,
   V4L2_CID_BLACK_LEVEL, V4L2_CID_AUTO_WHITE_BALANCE, V4L2_CID_SHARPNESS,
   V4L2_CID_TEST_PATTERN]

/-- The world `w` on the register-file chip with bank `p` selected instead of its own:
same register contents, same address pointer, same log. -/
def withBank (w : World RegFile) (p : Nat) : World RegFile :=
  ⟨{ w.dev with page := p }, w.log⟩

/-- What an operation on the register-file chip leaves to be seen: the log and the
register contents. -/
def seen (w : World RegFile) : List Txn × (Nat → Nat → Nat) := (w.log, w.dev.mem)

/-- The log `b` is the log `a` with accesses added at its end. -/
def Extends (a b : List Txn) : Prop := ∃ rest : List Txn, b = a ++ rest
/-! ## Basic facts about the bus primitives -/

theorem WriteTW88_log {σ : Type} (d : I2cBus σ) (w : World σ) (reg val : Nat) :
    (WriteTW88 d w reg val).2.log = w.log ++ [Txn.wr (reg % 256) (val % 256)] := by
  unfold WriteTW88
  dsimp only
  split_ifs <;> rfl

theorem ReadTW88_log {σ : Type} (d : I2cBus σ) (w : World σ) (reg old : Nat) :
    (ReadTW88 d w reg old).2.2.log
      = w.log ++ [Txn.rd (reg % 256) (ReadTW88 d w reg old).2.1] := by
  unfold ReadTW88
  dsimp only
  split_ifs <;> rfl

theorem ReadTW88_uninit_log {σ : Type} (d : I2cBus σ) (w : World σ) (reg : Nat) :
    (ReadTW88_uninit d w reg).2.2.log
      = w.log ++ [Txn.rd (reg % 256) (ReadTW88_uninit d w reg).2.1] := by
  unfold ReadTW88_uninit
  exact ReadTW88_log d w reg _

theorem ReadTW88_lt {σ : Type} (d : I2cBus σ) (w : World σ) (reg old : Nat)
    (h : old < 256) : (ReadTW88 d w reg old).2.1 < 256 := by
  unfold ReadTW88
  dsimp only
  split_ifs <;> first | exact h | exact Nat.mod_lt _ (by norm_num)

theorem ReadTW88_uninit_lt {σ : Type} (d : I2cBus σ) (w : World σ) (reg : Nat) :
    (ReadTW88_uninit d w reg).2.1 < 256 := by
  unfold ReadTW88_uninit
  exact ReadTW88_lt d w reg _ (Nat.mod_lt _ (by norm_num))

theorem WriteTW88_ok {σ : Type} (d : I2cBus σ) (hw : WritesSucceed d) (w : World σ)
    (reg val : Nat) : (WriteTW88 d w reg val).1 = 0 := by
  have h := hw w.dev (reg % 256) (val % 256)
  unfold WriteTW88
  simp only
  rw [if_neg (by omega)]

theorem WriteTW88S_log {σ : Type} (d : I2cBus σ) (hw : WritesSucceed d) (t : List reg_value) :
    ∀ w : World σ, (WriteTW88S d w t).2.log = w.log ++ table_txns t := by
  induction t with
  | nil => intro w; simp [WriteTW88S, table_txns]
  | cons c cs ih =>
    intro w
    unfold WriteTW88S
    simp only [WriteTW88_ok d hw, ne_eq, not_true_eq_false, if_false]
    rw [ih, WriteTW88_log]
    simp [table_txns]

theorem toU8_natCast (v : Nat) (h : v < 256) : toU8 (v : Int) = v := by
  unfold toU8
  omega

theorem toU8_lt (x : Int) : toU8 x < 256 := by
  unfold toU8
  omega

set_option maxRecDepth 100000 in
theorem byte_bits_lt : ∀ r < 256,
    r &&& 0xEF < 256 ∧ r ||| 0x10 < 256 ∧ r &&& 0xF0 < 256 ∧ r &&& 0xE0 < 256
      ∧ r ||| 0x1F < 256 ∧ r &&& 0xDF < 256 := by
  decide

theorem mipi_reset_bits_lt (flag_set : Int) (r : Nat) (h : r < 256) :
    mipi_reset_bits flag_set r < 256 := by
  have hb := byte_bits_lt r h
  unfold mipi_reset_bits
  split_ifs
  · exact hb.1
  · exact hb.2.1
  · exact hb.2.2.1
  · exact hb.2.2.2.1
  · exact hb.2.2.2.2.1
  · exact h

/-! ## The download, step by step -/

theorem mipi_reset_log {σ : Type} (d : I2cBus σ) (w : World σ) (st : isl79987_state)
    (flag_set : Int) (hd : st.is_dummy = 0) :
    ∃ r : Nat, r < 256 ∧
      (isl79987_mipi_reset d w st flag_set).2.log = w.log ++ mipi_reset_txns flag_set r := by
  refine ⟨(ReadTW88_uninit d (WriteTW88 d w 0xff 0).2 0x02).2.1,
    ReadTW88_uninit_lt _ _ _, ?_⟩
  unfold isl79987_mipi_reset
  rw [if_neg (by simp [hd])]
  dsimp only
  rw [WriteTW88_log, ReadTW88_uninit_log, WriteTW88_log,
    Nat.mod_eq_of_lt (mipi_reset_bits_lt flag_set _ (ReadTW88_uninit_lt _ _ _))]
  simp [mipi_reset_txns]

theorem decoder_step_log {σ : Type} (d : I2cBus σ) (hw : WritesSucceed d) (w : World σ)
    (curr_norm : Nat) :
    (if curr_norm &&& V4L2_STD_525_60 ≠ 0 then (WriteTW88S d w isl79987_regs_decoder_ntsc).2
      else (WriteTW88S d w isl79987_regs_decoder_pal).2).log
      = w.log ++ table_txns (decoder_table curr_norm) := by
  unfold decoder_table
  split_ifs <;> exact WriteTW88S_log d hw _ w

theorem mipi_step_log {σ : Type} (d : I2cBus σ) (hw : WritesSucceed d) (w : World σ)
    (curr_norm : Nat) :
    (if curr_norm &&& V4L2_STD_525_60 ≠ 0 then (WriteTW88S d w isl79987_regs_mipi_ntsc).2
      else (WriteTW88S d w isl79987_regs_mipi_pal).2).log
      = w.log ++ table_txns (mipi_table curr_norm) := by
  unfold mipi_table
  split_ifs <;> exact WriteTW88S_log d hw _ w

theorem lane_step_log {σ : Type} (d : I2cBus σ) (hw : WritesSucceed d) (w : World σ)
    (chs lanes : Int) :
    (if chs = 1 then (WriteTW88S d w isl79987_1Ch1Lane).2
      else if chs = 2 then
        if lanes = 1 then (WriteTW88S d w isl79987_2Ch1Lane).2
        else (WriteTW88S d w isl79987_2Ch2Lane).2
      else
        if lanes = 1 then (WriteTW88S d w isl79987_4Ch1Lane).2
        else (WriteTW88S d w isl79987_4Ch2Lane).2).log
      = w.log ++ table_txns (lane_table chs lanes) := by
  unfold lane_table
  split_ifs <;> exact WriteTW88S_log d hw _ w

theorem vc_step_log {σ : Type} (d : I2cBus σ) (w : World σ) (st : isl79987_state)
    (hd : st.is_dummy = 0) :
    (if st.vc ≠ 0 then (isl79987_csi2_set_virtual_channel d w st st.vc).2 else w).log
      = w.log ++ vc_txns st.vc := by
  unfold vc_txns
  split_ifs
  · unfold isl79987_csi2_set_virtual_channel
    rw [if_neg (by simp [hd])]
    simp [WriteTW88_log]
  · simp

theorem spread_step_log {σ : Type} (d : I2cBus σ) (w : World σ) (vc : Nat) :
    (if vc &&& 0x03 = 0 then (WriteTW88 d w 0x04 0x00).2
      else if vc &&& 0x03 = 1 then (WriteTW88 d w 0x04 0x55).2
      else if vc &&& 0x03 = 2 then (WriteTW88 d w 0x04 0xAA).2
      else if vc &&& 0x03 = 3 then (WriteTW88 d w 0x04 0xFF).2
      else (WriteTW88 d w 0x04 0x00).2).log
      = w.log ++ [Txn.wr 0x04 ((vc &&& 0x03) * 0x55)] := by
  have h3 : vc &&& 0x03 ≤ 3 := Nat.and_le_right
  split_ifs with h0 h1 h2 h4
  · simp [WriteTW88_log, h0]
  · simp [WriteTW88_log, h1]
  · simp [WriteTW88_log, h2]
  · simp [WriteTW88_log, h4]
  · omega

theorem pseudo_frame_log {σ : Type} (d : I2cBus σ) (w : World σ) (st : isl79987_state) :
    ∃ rp : Nat, rp < 256 ∧
      (if st.pseudo ≠ 0 then download_pseudo_frame d w st else w).log
        = w.log ++ pseudo_txns st rp := by
  refine ⟨(ReadTW88_uninit d (WriteTW88 d w 0xFF 5).2 0x01).2.1,
    ReadTW88_uninit_lt _ _ _, ?_⟩
  have hb := (byte_bits_lt _ (ReadTW88_uninit_lt d (WriteTW88 d w 0xFF 5).2 0x01)).2.2.2.2.2
  unfold pseudo_txns
  split_ifs with hp hh
  · unfold download_pseudo_frame
    dsimp only
    rw [if_pos hh]
    dsimp only
    rw [WriteTW88_log, WriteTW88_log, spread_step_log, WriteTW88_log, WriteTW88_log,
      WriteTW88_log, WriteTW88_log, WriteTW88_log, ReadTW88_uninit_log, WriteTW88_log,
      Nat.mod_eq_of_lt hb, Nat.mod_eq_of_lt (toU8_lt _), Nat.mod_eq_of_lt (toU8_lt _)]
    have hl : (if st.curr_norm = V4L2_STD_PAL then st.pseudo * 288 else st.pseudo * 240)
        + st.pseudo = pseudo_lines st := by
      unfold pseudo_lines
      rw [if_pos hh]
      split_ifs <;> rfl
    rw [hl]
    simp
  · unfold download_pseudo_frame
    dsimp only
    rw [if_neg hh]
    dsimp only
    rw [WriteTW88_log, WriteTW88_log, spread_step_log, WriteTW88_log, WriteTW88_log,
      WriteTW88_log, ReadTW88_uninit_log, WriteTW88_log,
      Nat.mod_eq_of_lt hb, Nat.mod_eq_of_lt (toU8_lt _), Nat.mod_eq_of_lt (toU8_lt _)]
    have hl : (if st.curr_norm = V4L2_STD_PAL then st.pseudo * 288 else st.pseudo * 240)
        = pseudo_lines st := by
      unfold pseudo_lines
      rw [if_neg hh]
      split_ifs <;> simp
    rw [hl]
    simp
  · simp

theorem download_ret {σ : Type} (d : I2cBus σ) (w : World σ) (st : isl79987_state) :
    (isl79987_download_chip_registers d w st).1 = 0 := by
  unfold isl79987_download_chip_registers
  split_ifs <;> rfl

theorem download_log {σ : Type} (d : I2cBus σ) (hw : WritesSucceed d) (w : World σ)
    (st : isl79987_state) (hd : st.is_dummy = 0) :
    ∃ r1 r2 rp r3 : Nat, (r1 < 256 ∧ r2 < 256 ∧ rp < 256 ∧ r3 < 256) ∧
      (isl79987_download_chip_registers d w st).2.log
        = w.log ++ download_txns st r1 r2 rp r3 := by
  unfold isl79987_download_chip_registers
  rw [if_neg (by simp [hd])]
  dsimp only
  obtain ⟨r1, hr1, h1⟩ := mipi_reset_log d w st MIPI_RESET_ALL_SET hd
  generalize (isl79987_mipi_reset d w st MIPI_RESET_ALL_SET).2 = w1 at h1 ⊢
  have h2 := WriteTW88S_log d hw isl79987_regs_default w1
  generalize (WriteTW88S d w1 isl79987_regs_default).2 = w2 at h2 ⊢
  obtain ⟨r2, hr2, h3⟩ := mipi_reset_log d w2 st MIPI_RESET_CH_CLEAR hd
  generalize (isl79987_mipi_reset d w2 st MIPI_RESET_CH_CLEAR).2 = w3 at h3 ⊢
  have h4 := WriteTW88S_log d hw isl79987_decoder w3
  generalize (WriteTW88S d w3 isl79987_decoder).2 = w4 at h4 ⊢
  have h5 := decoder_step_log d hw w4 st.curr_norm
  generalize (if st.curr_norm &&& V4L2_STD_525_60 ≠ 0 then
      (WriteTW88S d w4 isl79987_regs_decoder_ntsc).2
    else (WriteTW88S d w4 isl79987_regs_decoder_pal).2) = w5 at h5 ⊢
  have h6 := lane_step_log d hw w5 st.chs st.lanes
  generalize (if st.chs = 1 then (WriteTW88S d w5 isl79987_1Ch1Lane).2
    else if st.chs = 2 then
      if st.lanes = 1 then (WriteTW88S d w5 isl79987_2Ch1Lane).2
      else (WriteTW88S d w5 isl79987_2Ch2Lane).2
    else
      if st.lanes = 1 then (WriteTW88S d w5 isl79987_4Ch1Lane).2
      else (WriteTW88S d w5 isl79987_4Ch2Lane).2) = w6 at h6 ⊢
  have h7 := vc_step_log d w6 st hd
  generalize (if st.vc ≠ 0 then (isl79987_csi2_set_virtual_channel d w6 st st.vc).2
    else w6) = w7 at h7 ⊢
  have h8 := mipi_step_log d hw w7 st.curr_norm
  generalize (if st.curr_norm &&& V4L2_STD_525_60 ≠ 0 then
      (WriteTW88S d w7 isl79987_regs_mipi_ntsc).2
    else (WriteTW88S d w7 isl79987_regs_mipi_pal).2) = w8 at h8 ⊢
  obtain ⟨rp, hrp, h9⟩ := pseudo_frame_log d w8 st
  generalize (if st.pseudo ≠ 0 then download_pseudo_frame d w8 st else w8) = w9 at h9 ⊢
  obtain ⟨r3, hr3, h10⟩ := mipi_reset_log d w9 st MIPI_RESET_CLEAR hd
  refine ⟨r1, r2, rp, r3, ⟨hr1, hr2, hrp, hr3⟩, ?_⟩
  rw [h10, h9, h8, h7, h6, h5, h4, h3, h2, h1]
  simp only [download_txns, List.append_assoc]

/-- C1: on a session that is not simulated, over a bus whose writes succeed, and for
every topology, the accesses of `isl79987_download_chip_registers` are, in this order:
the MIPI reset in mode ALL_SET, the default table, the MIPI reset in mode CH_CLEAR, the
decoder-calibration table, the decoder table of the standard, the channel/lane table,
the virtual-channel write (present only for `vc` non-zero), the MIPI table of the
standard, the pseudo-frame sequence (present only for `pseudo` non-zero), and the MIPI
reset in mode CLEAR; each table is written pair by pair in table order. -/
theorem download_order {σ : Type} (d : I2cBus σ) (hw : WritesSucceed d) (w : World σ)
    (st : isl79987_state) (hd : st.is_dummy = 0) :
    ∃ r1 r2 rp r3 : Nat,
      (isl79987_download_chip_registers d w st).2.log
        = w.log
          ++ [Txn.wr 0xFF 0x00, Txn.rd 0x02 r1, Txn.wr 0x02 (r1 ||| 0x1F)]
          ++ isl79987_regs_default.map (fun c => Txn.wr (c.reg % 256) (c.value % 256))
          ++ [Txn.wr 0xFF 0x00, Txn.rd 0x02 r2, Txn.wr 0x02 (r2 &&& 0xF0)]
          ++ isl79987_decoder.map (fun c => Txn.wr (c.reg % 256) (c.value % 256))
          ++ (if st.curr_norm &&& V4L2_STD_525_60 ≠ 0 then isl79987_regs_decoder_ntsc
                else isl79987_regs_decoder_pal).map
              (fun c => Txn.wr (c.reg % 256) (c.value % 256))
          ++ (lane_table st.chs st.lanes).map (fun c => Txn.wr (c.reg % 256) (c.value % 256))
          ++ (if st.vc ≠ 0 then [Txn.wr 0xFF 0x05, Txn.wr 0x04 (st.vc % 256)] else [])
          ++ (if st.curr_norm &&& V4L2_STD_525_60 ≠ 0 then isl79987_regs_mipi_ntsc
                else isl79987_regs_mipi_pal).map
              (fun c => Txn.wr (c.reg % 256) (c.value % 256))
          ++ pseudo_txns st rp
          ++ [Txn.wr 0xFF 0x00, Txn.rd 0x02 r3, Txn.wr 0x02 (r3 &&& 0xEF)] := by
  obtain ⟨r1, r2, rp, r3, -, h⟩ := download_log d hw w st hd
  refine ⟨r1, r2, rp, r3, ?_⟩
  rw [h]
  simp [download_txns, mipi_reset_txns, mipi_reset_bits, table_txns, vc_txns,
    decoder_table, mipi_table, MIPI_RESET_ALL_SET, MIPI_RESET_CH_CLEAR, MIPI_RESET_CLEAR,
    MIPI_RESET_SET, MIPI_RESET_ALL_CLEAR]

theorem regFileBus_writes : WritesSucceed regFileBus := by
  intro s reg val
  show (2 : Int) ≤ 2
  decide

/-- Witness of C1: the four-channel, two-lane NTSC session on the register-file chip. -/
theorem download_order_witness :
    ∃ r1 r2 rp r3 : Nat,
      (isl79987_download_chip_registers regFileBus (regWorld 0) realSession).2.log
        = (regWorld 0).log
          ++ [Txn.wr 0xFF 0x00, Txn.rd 0x02 r1, Txn.wr 0x02 (r1 ||| 0x1F)]
          ++ isl79987_regs_default.map (fun c => Txn.wr (c.reg % 256) (c.value % 256))
          ++ [Txn.wr 0xFF 0x00, Txn.rd 0x02 r2, Txn.wr 0x02 (r2 &&& 0xF0)]
          ++ isl79987_decoder.map (fun c => Txn.wr (c.reg % 256) (c.value % 256))
          ++ (if realSession.curr_norm &&& V4L2_STD_525_60 ≠ 0 then isl79987_regs_decoder_ntsc
                else isl79987_regs_decoder_pal).map
              (fun c => Txn.wr (c.reg % 256) (c.value % 256))
          ++ (lane_table realSession.chs realSession.lanes).map
              (fun c => Txn.wr (c.reg % 256) (c.value % 256))
          ++ (if realSession.vc ≠ 0 then [Txn.wr 0xFF 0x05, Txn.wr 0x04 (realSession.vc % 256)]
                else [])
          ++ (if realSession.curr_norm &&& V4L2_STD_525_60 ≠ 0 then isl79987_regs_mipi_ntsc
                else isl79987_regs_mipi_pal).map
              (fun c => Txn.wr (c.reg % 256) (c.value % 256))
          ++ pseudo_txns realSession rp
          ++ [Txn.wr 0xFF 0x00, Txn.rd 0x02 r3, Txn.wr 0x02 (r3 &&& 0xEF)] :=
  download_order regFileBus regFileBus_writes (regWorld 0) realSession rfl

/-! ## Which channel/lane table is written -/

set_option maxRecDepth 100000 in
theorem fixed_tables_no_15 (x : Nat) :
    Txn.wr 0x15 x ∉ table_txns isl79987_regs_default
      ∧ Txn.wr 0x15 x ∉ table_txns isl79987_decoder
      ∧ Txn.wr 0x15 x ∉ table_txns isl79987_regs_decoder_ntsc
      ∧ Txn.wr 0x15 x ∉ table_txns isl79987_regs_decoder_pal
      ∧ Txn.wr 0x15 x ∉ table_txns isl79987_regs_mipi_ntsc
      ∧ Txn.wr 0x15 x ∉ table_txns isl79987_regs_mipi_pal := by
  simp [table_txns, isl79987_regs_default, isl79987_decoder, isl79987_regs_decoder_ntsc,
    isl79987_regs_decoder_pal, isl79987_regs_mipi_ntsc, isl79987_regs_mipi_pal]

/-- Register 0x15 is written by the channel/lane table and by nothing else in a download. -/
theorem mem_download_15 (st : isl79987_state) (r1 r2 rp r3 x : Nat)
    (h : Txn.wr 0x15 x ∈ download_txns st r1 r2 rp r3) :
    Txn.wr 0x15 x ∈ table_txns (lane_table st.chs st.lanes) := by
  have hf := fixed_tables_no_15 x
  unfold download_txns at h
  simp only [List.mem_append] at h
  rcases h with ((((((((h | h) | h) | h) | h) | h) | h) | h) | h) | h
  · simp [mipi_reset_txns] at h
  · exact absurd h hf.1
  · simp [mipi_reset_txns] at h
  · exact absurd h hf.2.1
  · unfold decoder_table at h
    split_ifs at h
    · exact absurd h hf.2.2.1
    · exact absurd h hf.2.2.2.1
  · exact h
  · unfold vc_txns at h
    split_ifs at h <;> simp at h
  · unfold mipi_table at h
    split_ifs at h
    · exact absurd h hf.2.2.2.2.1
    · exact absurd h hf.2.2.2.2.2
  · unfold pseudo_txns at h
    split_ifs at h <;> simp at h
  · simp [mipi_reset_txns] at h

theorem not_infix_download (st : isl79987_state) (r1 r2 rp r3 v : Nat) (T : List reg_value)
    (hv : Txn.wr 0x15 v ∈ table_txns T)
    (hn : Txn.wr 0x15 v ∉ table_txns (lane_table st.chs st.lanes)) :
    ¬ (table_txns T <:+: download_txns st r1 r2 rp r3) := by
  intro hinf
  exact hn (mem_download_15 st r1 r2 rp r3 v (hinf.subset hv))

set_option maxRecDepth 100000 in
theorem lane_tables_15 :
    Txn.wr 0x15 0x0E ∈ table_txns isl79987_1Ch1Lane
      ∧ Txn.wr 0x15 0x1E ∈ table_txns isl79987_2Ch1Lane
      ∧ Txn.wr 0x15 0x24 ∈ table_txns isl79987_2Ch2Lane
      ∧ Txn.wr 0x15 0x36 ∈ table_txns isl79987_4Ch1Lane
      ∧ Txn.wr 0x15 0x38 ∈ table_txns isl79987_4Ch2Lane := by
  decide

set_option maxRecDepth 100000 in
theorem lane_tables_15_only :
    ∀ T ∈ lane_tables, ∀ v ∈ [0x0E, 0x1E, 0x24, 0x36, 0x38],
      ∀ U ∈ lane_tables, Txn.wr 0x15 v ∈ table_txns T → Txn.wr 0x15 v ∈ table_txns U → T = U := by
  decide

theorem download_txns_ne_nil (st : isl79987_state) (r1 r2 rp r3 : Nat) :
    download_txns st r1 r2 rp r3 ≠ [] := by
  simp [download_txns, mipi_reset_txns]

theorem lane_table_mem (chs lanes : Int) : lane_table chs lanes ∈ lane_tables := by
  unfold lane_table
  split_ifs <;> simp [lane_tables]

theorem lane_table_has_15 (T : List reg_value) (hT : T ∈ lane_tables) :
    ∃ v ∈ [0x0E, 0x1E, 0x24, 0x36, 0x38], Txn.wr 0x15 v ∈ table_txns T := by
  have h := lane_tables_15
  simp only [lane_tables, List.mem_cons, List.mem_singleton, List.not_mem_nil, or_false] at hT
  rcases hT with rfl | rfl | rfl | rfl | rfl
  · exact ⟨0x0E, by simp, h.1⟩
  · exact ⟨0x1E, by simp, h.2.1⟩
  · exact ⟨0x24, by simp, h.2.2.1⟩
  · exact ⟨0x36, by simp, h.2.2.2.1⟩
  · exact ⟨0x38, by simp, h.2.2.2.2⟩

theorem other_table_not_written (st : isl79987_state) (r1 r2 rp r3 : Nat)
    (T : List reg_value) (hT : T ∈ lane_tables) (hne : T ≠ lane_table st.chs st.lanes) :
    ¬ (table_txns T <:+: download_txns st r1 r2 rp r3) := by
  obtain ⟨v, hv, hmem⟩ := lane_table_has_15 T hT
  refine not_infix_download st r1 r2 rp r3 v T hmem ?_
  intro hsel
  exact hne (lane_tables_15_only T hT v hv _ (lane_table_mem st.chs st.lanes) hmem hsel)

theorem download_txns_topology (st st1 : isl79987_state) (r1 r2 rp r3 : Nat)
    (h1 : st1.curr_norm = st.curr_norm) (h2 : st1.vc = st.vc) (h3 : st1.lanes = st.lanes)
    (h4 : st1.chs = st.chs) (h5 : st1.pseudo = st.pseudo) (h6 : st1.histo = st.histo) :
    download_txns st1 r1 r2 rp r3 = download_txns st r1 r2 rp r3 := by
  simp only [download_txns, pseudo_txns, pseudo_lines, h1, h2, h3, h4, h5, h6]

/-- C2: for each channel/lane pair among (1,1), (2,1), (2,2), (4,1), (4,2), on a session
that is not simulated and a bus whose writes succeed, the download writes the table
named for the pair, as one run of consecutive writes, and the writes of none of the
other four tables occur as a run in what it issues; what it issues is not empty and is
`download_txns` of the session and the four bytes read back, which depends on the
session through its topology only. -/
theorem download_named_table {σ : Type} (d : I2cBus σ) (hw : WritesSucceed d) (w : World σ)
    (st : isl79987_state) (hd : st.is_dummy = 0) (hv : (st.chs, st.lanes) ∈ valid_pairs) :
    ∃ r1 r2 rp r3 : Nat,
      (isl79987_download_chip_registers d w st).2.log
          = w.log ++ download_txns st r1 r2 rp r3
        ∧ download_txns st r1 r2 rp r3 ≠ []
        ∧ named_lane_table st.chs st.lanes = some (lane_table st.chs st.lanes)
        ∧ (∃ before after : List Txn,
            download_txns st r1 r2 rp r3
              = before ++ table_txns (lane_table st.chs st.lanes) ++ after)
        ∧ (∀ T ∈ lane_tables, T ≠ lane_table st.chs st.lanes →
            ¬ (table_txns T <:+: download_txns st r1 r2 rp r3))
        ∧ (∀ st1 : isl79987_state, st1.curr_norm = st.curr_norm → st1.vc = st.vc →
            st1.lanes = st.lanes → st1.chs = st.chs → st1.pseudo = st.pseudo →
            st1.histo = st.histo →
            download_txns st1 r1 r2 rp r3 = download_txns st r1 r2 rp r3) := by
  obtain ⟨r1, r2, rp, r3, -, h⟩ := download_log d hw w st hd
  refine ⟨r1, r2, rp, r3, h, download_txns_ne_nil st r1 r2 rp r3, ?_, ?_, ?_, ?_⟩
  · simp only [valid_pairs, List.mem_cons, Prod.mk.injEq, List.mem_singleton,
      List.not_mem_nil, or_false] at hv
    rcases hv with ⟨h1, h2⟩ | ⟨h1, h2⟩ | ⟨h1, h2⟩ | ⟨h1, h2⟩ | ⟨h1, h2⟩ <;>
      simp [named_lane_table, lane_table, h1, h2]
  · refine ⟨mipi_reset_txns MIPI_RESET_ALL_SET r1 ++ table_txns isl79987_regs_default
        ++ mipi_reset_txns MIPI_RESET_CH_CLEAR r2 ++ table_txns isl79987_decoder
        ++ table_txns (decoder_table st.curr_norm),
      vc_txns st.vc ++ table_txns (mipi_table st.curr_norm) ++ pseudo_txns st rp
        ++ mipi_reset_txns MIPI_RESET_CLEAR r3, ?_⟩
    simp only [download_txns, List.append_assoc]
  · intro T hT hne
    exact other_table_not_written st r1 r2 rp r3 T hT hne
  · intro st1 h1 h2 h3 h4 h5 h6
    exact download_txns_topology st st1 r1 r2 rp r3 h1 h2 h3 h4 h5 h6

/-- Witness of C2: four channels on two lanes write `isl79987_4Ch2Lane`. -/
theorem download_named_table_witness :
    named_lane_table 4 2 = some isl79987_4Ch2Lane
      ∧ ∃ r1 r2 rp r3 : Nat,
      (isl79987_download_chip_registers regFileBus (regWorld 0) realSession).2.log
          = (regWorld 0).log ++ download_txns realSession r1 r2 rp r3
        ∧ download_txns realSession r1 r2 rp r3 ≠ []
        ∧ named_lane_table realSession.chs realSession.lanes
            = some (lane_table realSession.chs realSession.lanes)
        ∧ (∃ before after : List Txn,
            download_txns realSession r1 r2 rp r3
              = before ++ table_txns (lane_table realSession.chs realSession.lanes) ++ after)
        ∧ (∀ T ∈ lane_tables, T ≠ lane_table realSession.chs realSession.lanes →
            ¬ (table_txns T <:+: download_txns realSession r1 r2 rp r3))
        ∧ (∀ st1 : isl79987_state, st1.curr_norm = realSession.curr_norm →
            st1.vc = realSession.vc → st1.lanes = realSession.lanes →
            st1.chs = realSession.chs → st1.pseudo = realSession.pseudo →
            st1.histo = realSession.histo →
            download_txns st1 r1 r2 rp r3 = download_txns realSession r1 r2 rp r3) :=
  ⟨by decide,
   download_named_table regFileBus regFileBus_writes (regWorld 0) realSession rfl (by decide)⟩

/-- C3, as the code has it: for a channel/lane pair outside the five, the download on a
session that is not simulated (writes succeeding) returns 0 and issues the whole
sequence, with the channel/lane table its if-chain falls through to: the 1Ch1Lane table
for `chs = 1`, the 2Ch2Lane table for `chs = 2`, and otherwise the 4Ch1Lane table if
`lanes = 1` and the 4Ch2Lane table if not. -/
theorem download_fallthrough {σ : Type} (d : I2cBus σ) (hw : WritesSucceed d) (w : World σ)
    (st : isl79987_state) (hd : st.is_dummy = 0) (hout : (st.chs, st.lanes) ∉ valid_pairs) :
    (isl79987_download_chip_registers d w st).1 = 0
      ∧ ∃ r1 r2 rp r3 : Nat,
          (isl79987_download_chip_registers d w st).2.log
              = w.log ++ download_txns st r1 r2 rp r3
            ∧ download_txns st r1 r2 rp r3 ≠ []
            ∧ lane_table st.chs st.lanes
                = (if st.chs = 1 then isl79987_1Ch1Lane
                    else if st.chs = 2 then isl79987_2Ch2Lane
                    else if st.lanes = 1 then isl79987_4Ch1Lane
                    else isl79987_4Ch2Lane) := by
  refine ⟨download_ret d w st, ?_⟩
  obtain ⟨r1, r2, rp, r3, -, h⟩ := download_log d hw w st hd
  refine ⟨r1, r2, rp, r3, h, download_txns_ne_nil st r1 r2 rp r3, ?_⟩
  simp only [valid_pairs, List.mem_cons, Prod.mk.injEq, List.mem_singleton,
    List.not_mem_nil, or_false, not_or, not_and] at hout
  unfold lane_table
  by_cases h1 : st.chs = 1
  · simp [h1]
  · by_cases h2 : st.chs = 2
    · have h3 : st.lanes ≠ 1 := hout.2.1 h2
      simp [h2, h3]
    · simp [h1, h2]

/-- Witness of the amended C3: three channels on one lane get the 4Ch1Lane table. -/
theorem download_fallthrough_witness :
    (threeChSession.chs, threeChSession.lanes) ∉ valid_pairs
      ∧ ((isl79987_download_chip_registers regFileBus (regWorld 0) threeChSession).1 = 0
      ∧ ∃ r1 r2 rp r3 : Nat,
          (isl79987_download_chip_registers regFileBus (regWorld 0) threeChSession).2.log
              = (regWorld 0).log ++ download_txns threeChSession r1 r2 rp r3
            ∧ download_txns threeChSession r1 r2 rp r3 ≠ []
            ∧ lane_table threeChSession.chs threeChSession.lanes
                = (if threeChSession.chs = 1 then isl79987_1Ch1Lane
                    else if threeChSession.chs = 2 then isl79987_2Ch2Lane
                    else if threeChSession.lanes = 1 then isl79987_4Ch1Lane
                    else isl79987_4Ch2Lane)) :=
  ⟨by decide,
   download_fallthrough regFileBus regFileBus_writes (regWorld 0) threeChSession rfl
     (by decide)⟩

set_option maxRecDepth 1000000 in
/-- C3 as stated fails: with three channels on one lane, a pair outside the five, the
download on the register-file chip returns 0, not an error, and issues 122 accesses,
the writes of the 4Ch1Lane table among them. -/
theorem download_unsupported_pair_runs :
    (threeChSession.chs, threeChSession.lanes) ∉ valid_pairs
      ∧ threeChSession.is_dummy = 0
      ∧ (isl79987_download_chip_registers regFileBus (regWorld 0) threeChSession).1 = 0
      ∧ (isl79987_download_chip_registers regFileBus (regWorld 0) threeChSession).2.log.length
          = 122
      ∧ table_txns isl79987_4Ch1Lane
          <:+: (isl79987_download_chip_registers regFileBus (regWorld 0) threeChSession).2.log := by
  decide

/-- C5: on a session that is not simulated, setting the hue control to a value `v` in
0..63 selects page 0x01 and then writes to register 0x15 the value 32 if `v = 32`,
`v + 33` if `v < 32` and `v - 33` if `v > 32`; nothing else is put on the bus and the
call returns 0. -/
theorem s_ctrl_hue_writes {σ : Type} (d : I2cBus σ) (w : World σ) (st : isl79987_state)
    (v : Nat) (hd : st.is_dummy = 0) (hv : v ≤ 63) :
    (isl79987_s_ctrl d w st ⟨V4L2_CID_HUE, (v : Int)⟩).2.log
        = w.log ++ [Txn.wr 0xFF 0x01,
            Txn.wr 0x15 (if v = 32 then 32 else if v < 32 then v + 33 else v - 33)]
      ∧ (isl79987_s_ctrl d w st ⟨V4L2_CID_HUE, (v : Int)⟩).1 = 0 := by
  have hu : toU8 (v : Int) = v := toU8_natCast v (by omega)
  have hh : hue_sw_to_hw v % 256
      = (if v = 32 then 32 else if v < 32 then v + 33 else v - 33) := by
    unfold hue_sw_to_hw
    split_ifs <;> omega
  simp [isl79987_s_ctrl, V4L2_CID_HUE, V4L2_CID_PIXEL_RATE, V4L2_CID_BRIGHTNESS,
    V4L2_CID_CONTRAST, V4L2_CID_SATURATION, hd, WriteTW88_log, hu, hh, ISL79987_IA_HUE]

/-- Witness of C5: hue 0 on the register-file chip writes 33, hue 63 writes 30. -/
theorem s_ctrl_hue_writes_witness :
    ((isl79987_s_ctrl regFileBus (regWorld 0) realSession ⟨V4L2_CID_HUE, ((0 : Nat) : Int)⟩).2.log
        = (regWorld 0).log ++ [Txn.wr 0xFF 0x01,
            Txn.wr 0x15 (if (0 : Nat) = 32 then 32 else if (0 : Nat) < 32 then 0 + 33 else 0 - 33)]
      ∧ (isl79987_s_ctrl regFileBus (regWorld 0) realSession
          ⟨V4L2_CID_HUE, ((0 : Nat) : Int)⟩).1 = 0)
    ∧ ((isl79987_s_ctrl regFileBus (regWorld 0) realSession
          ⟨V4L2_CID_HUE, ((63 : Nat) : Int)⟩).2.log
        = (regWorld 0).log ++ [Txn.wr 0xFF 0x01,
            Txn.wr 0x15 (if (63 : Nat) = 32 then 32 else if (63 : Nat) < 32 then 63 + 33 else 63 - 33)]
      ∧ (isl79987_s_ctrl regFileBus (regWorld 0) realSession
          ⟨V4L2_CID_HUE, ((63 : Nat) : Int)⟩).1 = 0) :=
  ⟨s_ctrl_hue_writes regFileBus (regWorld 0) realSession 0 rfl (by decide),
   s_ctrl_hue_writes regFileBus (regWorld 0) realSession 63 rfl (by decide)⟩

/-- C9: the hue conversion of `isl79987_s_ctrl`, as computed on its 8-bit temporary, is
an involution on the control range: converting the converted value of any `v` in 0..63
gives `v` back; in particular 0 goes to 33 and back to 0, and 32 stays 32. -/
theorem hue_sw_to_hw_involutive (v : Nat) (hv : v ≤ 63) :
    hue_sw_to_hw (hue_sw_to_hw v) = v
      ∧ hue_sw_to_hw 0 = 33 ∧ hue_sw_to_hw 33 = 0 ∧ hue_sw_to_hw 32 = 32 := by
  refine ⟨?_, by decide, by decide, by decide⟩
  unfold hue_sw_to_hw
  split_ifs <;> omega

/-- Witness of C9 at the upper end of the range: 63 goes to 30 and back to 63. -/
theorem hue_sw_to_hw_involutive_witness :
    hue_sw_to_hw 63 = 30 ∧ (hue_sw_to_hw (hue_sw_to_hw 63) = 63
      ∧ hue_sw_to_hw 0 = 33 ∧ hue_sw_to_hw 33 = 0 ∧ hue_sw_to_hw 32 = 32) :=
  ⟨by decide, hue_sw_to_hw_involutive 63 (by decide)⟩

/-! ## Identification and detection -/

/-- C10: `isl79987_check_chip_id` returns 0 whatever it reads. On a session that is not
yet simulated it selects bank 0 and reads identity register 0x00; with `id` the byte it
then holds, the session ends with `is_dummy = 1` exactly when `id` differs from 0x87,
and revision register 0x01 is read (once, as the last access) exactly when `id` is
0x87. -/
theorem check_chip_id_outcome {σ : Type} (d : I2cBus σ) (w : World σ)
    (st : isl79987_state) :
    (isl79987_check_chip_id d w st).1 = 0
      ∧ (st.is_dummy = 0 →
          ∃ id rev : Nat,
            (isl79987_check_chip_id d w st).2.2.log
                = w.log ++ [Txn.wr 0xFF 0x00, Txn.rd 0x00 id]
                    ++ (if id = 0x87 then [Txn.rd 0x01 rev] else [])
              ∧ ((isl79987_check_chip_id d w st).2.1.is_dummy = 1 ↔ id ≠ 0x87)) := by
  constructor
  · unfold isl79987_check_chip_id
    dsimp only
    split_ifs <;> rfl
  · intro hd
    refine ⟨(ReadTW88_uninit d (WriteTW88 d w 0xFF 0).2 0x00).2.1,
      (ReadTW88_uninit d (ReadTW88_uninit d (WriteTW88 d w 0xFF 0).2 0x00).2.2 0x01).2.1, ?_⟩
    unfold isl79987_check_chip_id
    dsimp only
    rw [if_neg (by simp [hd])]
    by_cases hid : (ReadTW88_uninit d (WriteTW88 d w 0xFF 0).2 0x00).2.1 = 0x87
    · have hid2 : ¬ (ReadTW88_uninit d (WriteTW88 d w 0xFF 0).2 0x00).2.1 ≠ ISL79987_CHIP_ID := by
        simpa [ISL79987_CHIP_ID] using hid
      rw [if_neg hid2, if_pos hid]
      simp [ReadTW88_uninit_log, WriteTW88_log, hd, hid]
    · have hid2 : (ReadTW88_uninit d (WriteTW88 d w 0xFF 0).2 0x00).2.1 ≠ ISL79987_CHIP_ID := by
        simpa [ISL79987_CHIP_ID] using hid
      rw [if_pos hid2, if_neg hid]
      simp [ReadTW88_uninit_log, WriteTW88_log, hid]

/-- Witness of C10: a register-file chip whose registers all hold 0 is not identified. -/
theorem check_chip_id_outcome_witness :
    ∃ id rev : Nat,
      (isl79987_check_chip_id regFileBus (regWorld 0) realSession).2.2.log
          = (regWorld 0).log ++ [Txn.wr 0xFF 0x00, Txn.rd 0x00 id]
              ++ (if id = 0x87 then [Txn.rd 0x01 rev] else [])
        ∧ ((isl79987_check_chip_id regFileBus (regWorld 0) realSession).2.1.is_dummy = 1
            ↔ id ≠ 0x87) :=
  (check_chip_id_outcome regFileBus (regWorld 0) realSession).2 rfl

/-- C6, as the code has it: in a simulated session `isl79987_afe_status` makes no bus
access for any pad, returns 0, stores the standard NTSC, and stores the input status
0, which is the status of a locked input (the no-signal flag is clear). -/
theorem afe_status_dummy {σ : Type} (d : I2cBus σ) (w : World σ) (st : isl79987_state)
    (pad : Int) (signal std : Option Nat) (hd : st.is_dummy ≠ 0) :
    isl79987_afe_status d w st pad signal std
        = (0, signal.map (fun _ => 0), std.map (fun _ => V4L2_STD_NTSC), w)
      ∧ signalPresent 0 = true := by
  constructor
  · unfold isl79987_afe_status
    rw [if_pos hd]
  · decide

/-- Witness of the amended C6 on the simulated session, pad 2. -/
theorem afe_status_dummy_witness :
    isl79987_afe_status regFileBus (regWorld 0) dummySession 2 (some 1) (some 0)
        = (0, (some 1).map (fun _ => 0), (some 0).map (fun _ => V4L2_STD_NTSC), regWorld 0)
      ∧ signalPresent 0 = true :=
  afe_status_dummy regFileBus (regWorld 0) dummySession 2 (some 1) (some 0) (by decide)

/-- C6 as stated fails: in the simulated session the status stored for pad 0 does not
report "no signal"; it is the status that reports a signal. -/
theorem afe_status_dummy_not_absent :
    (isl79987_afe_status regFileBus (regWorld 0) dummySession 0 (some 1) (some 0)).2.1.map
        signalPresent = some true
      ∧ ¬ ((isl79987_afe_status regFileBus (regWorld 0) dummySession 0 (some 1) (some 0)).2.1.map
        signalPresent = some false) := by
  constructor
  · rfl
  · intro h
    have h1 : (isl79987_afe_status regFileBus (regWorld 0) dummySession 0 (some 1)
        (some 0)).2.1.map signalPresent = some true := rfl
    rw [h1] at h
    cases h

/-! ## Field wait -/

theorem wait_loop_vdloss {σ : Type} (d : I2cBus σ) (want : Bool) (fuel : Nat)
    (w : World σ) (tmp : Nat)
    (h : (ReadTW88 d w ISL79987_AFE_STATUS_REG tmp).2.1 &&& 0x80 ≠ 0) :
    wait_loop d want (fuel + 1) w tmp
      = some (true, (ReadTW88 d w ISL79987_AFE_STATUS_REG tmp).2.1,
          (ReadTW88 d w ISL79987_AFE_STATUS_REG tmp).2.2) := by
  unfold wait_loop
  dsimp only
  rw [if_pos (by simpa [ISL79987_AFE_STATUS_VDLOSS] using h)]

/-- C7, as the code has it: when the first status byte polled has the video-loss bit
0x80 set, `isl79987_wait_field` (for either parity, given at least one round) returns
after selecting page 1 and exactly one read of status register 0x03. It returns
nothing: the caller is handed `()`. -/
theorem wait_field_vdloss_first {σ : Type} (d : I2cBus σ) (w : World σ)
    (st : isl79987_state) (f : Int) (fuel : Nat) (hd : st.is_dummy = 0)
    (hv : first_poll d w &&& 0x80 ≠ 0) :
    ∃ w1 : World σ,
      isl79987_wait_field d (fuel + 1) w st f = some ((), w1)
        ∧ w1.log = w.log ++ [Txn.wr 0xFF 0x01, Txn.rd 0x03 (first_poll d w)] := by
  refine ⟨(ReadTW88 d (WriteTW88 d w 0xFF 1).2 ISL79987_AFE_STATUS_REG
    (d.indet (WriteTW88 d w 0xFF 1).2.dev % 256)).2.2, ?_, ?_⟩
  · unfold isl79987_wait_field
    rw [if_neg (by simp [hd])]
    dsimp only
    rw [wait_loop_vdloss d _ fuel _ _ hv]
  · rw [ReadTW88_log, WriteTW88_log]
    simp [first_poll, ISL79987_AFE_STATUS_REG]

/-- Witness of the amended C7: the scripted chip whose first status byte is 0x90. -/
theorem wait_field_vdloss_first_witness :
    ∃ w1 : World (List Nat),
      isl79987_wait_field pollBus (0 + 1) ⟨[0x90, 0x00, 0x10], []⟩ realSession 1
          = some ((), w1)
        ∧ w1.log = ([] : List Txn) ++ [Txn.wr 0xFF 0x01,
            Txn.rd 0x03 (first_poll pollBus ⟨[0x90, 0x00, 0x10], []⟩)] :=
  wait_field_vdloss_first pollBus ⟨[0x90, 0x00, 0x10], []⟩ realSession 1 0 rfl (by decide)

/-- C7 as stated fails: a wait that ends on video loss at the first poll and a wait that
reaches the field edge (bit 0x10 clear, then set) hand the same thing to the caller. -/
theorem wait_field_loss_not_distinct :
    (isl79987_wait_field pollBus 4 ⟨[0x80], []⟩ realSession 1).map Prod.fst
        = (isl79987_wait_field pollBus 4 ⟨[0x00, 0x10], []⟩ realSession 1).map Prod.fst
      ∧ (isl79987_wait_field pollBus 4 ⟨[0x80], []⟩ realSession 1).map (fun r => r.2.log)
        = some [Txn.wr 0xFF 0x01, Txn.rd 0x03 0x80]
      ∧ (isl79987_wait_field pollBus 4 ⟨[0x00, 0x10], []⟩ realSession 1).map
          (fun r => r.2.log)
        = some [Txn.wr 0xFF 0x01, Txn.rd 0x03 0x00, Txn.rd 0x03 0x10] := by
  refine ⟨?_, ?_, ?_⟩ <;> decide

/-! ## Test pattern on the register-file chip -/

/-- State of the register-file chip after one `isl79987_csi2_enable_TestPattern`: page 5
selected, and register 0x0D of page 5 holding the byte read with the bits of the input
set or cleared. -/
theorem TestPattern_regFile (w : World RegFile) (pad : Nat) (fOn : Int) :
    (isl79987_csi2_enable_TestPattern regFileBus w pad fOn).dev
      = ⟨5, 0x0D, fun p a =>
          if p = 5 ∧ a = 0x0D then
            (if fOn ≠ 0 then
                w.dev.mem 5 0x0D % 256 |||
                  (if pad = 0 then 0x80 else if pad = 1 then 0x40 else if pad = 2 then 0x20
                    else if pad = 3 then 0x10 else 0xF0)
              else
                w.dev.mem 5 0x0D % 256 &&&
                  (0xFF ^^^ (if pad = 0 then 0x80 else if pad = 1 then 0x40
                    else if pad = 2 then 0x20 else if pad = 3 then 0x10 else 0xF0))) % 256
          else w.dev.mem p a⟩ := by
  rfl

set_option maxRecDepth 100000 in
theorem TestPattern_bits_on : ∀ r < 256,
    ((((r % 256 ||| 0x80) % 256 % 256 ||| 0x40) % 256 % 256 ||| 0x20) % 256 % 256 ||| 0x10) % 256
      = r ||| 0xF0 ∧ (r % 256 ||| 0xF0) % 256 = r ||| 0xF0 := by
  decide

set_option maxRecDepth 100000 in
theorem TestPattern_bits_off : ∀ r < 256,
    ((((r % 256 &&& (0xFF ^^^ 0x80)) % 256 % 256 &&& (0xFF ^^^ 0x40)) % 256 % 256
        &&& (0xFF ^^^ 0x20)) % 256 % 256 &&& (0xFF ^^^ 0x10)) % 256
      = r &&& 0x0F ∧ (r % 256 &&& (0xFF ^^^ 0xF0)) % 256 = r &&& 0x0F := by
  decide

set_option maxRecDepth 100000 in
theorem nibble_bits : ∀ r < 256,
    (r ||| 0xF0) &&& 0x0F = r &&& 0x0F ∧ (r &&& 0x0F) &&& 0x0F = r &&& 0x0F := by
  decide

theorem s_ctrl_test_pattern_eq {σ : Type} (d : I2cBus σ) (w : World σ)
    (st : isl79987_state) (val : Int) (hd : st.is_dummy = 0) :
    (isl79987_s_ctrl d w st ⟨V4L2_CID_TEST_PATTERN, val⟩).2
      = isl79987_csi2_enable_TestPattern d
          (isl79987_csi2_enable_TestPattern d
            (isl79987_csi2_enable_TestPattern d
              (isl79987_csi2_enable_TestPattern d w 0 val) 1 val) 2 val) 3 val := by
  simp [isl79987_s_ctrl, V4L2_CID_TEST_PATTERN, V4L2_CID_PIXEL_RATE, V4L2_CID_BRIGHTNESS,
    V4L2_CID_CONTRAST, V4L2_CID_SATURATION, V4L2_CID_HUE, V4L2_CID_BLACK_LEVEL,
    V4L2_CID_AUTO_WHITE_BALANCE, V4L2_CID_SHARPNESS, hd]

theorem test_pattern_regFile_state (rf : RegFile) (log : List Txn) (st : isl79987_state)
    (val : Int) (hd : st.is_dummy = 0) (hr : rf.mem 5 0x0D < 256) :
    (isl79987_s_ctrl regFileBus ⟨rf, log⟩ st ⟨V4L2_CID_TEST_PATTERN, val⟩).2.dev.mem 5 0x0D
        = (if val ≠ 0 then rf.mem 5 0x0D ||| 0xF0 else rf.mem 5 0x0D &&& 0x0F)
      ∧ (isl79987_s_ctrl regFileBus ⟨rf, log⟩ st
            ⟨V4L2_CID_TEST_PATTERN, val⟩).2.dev.mem 5 0x0D &&& 0x0F
          = rf.mem 5 0x0D &&& 0x0F
      ∧ (∀ p a : Nat, ¬ (p = 5 ∧ a = 0x0D) →
          (isl79987_s_ctrl regFileBus ⟨rf, log⟩ st ⟨V4L2_CID_TEST_PATTERN, val⟩).2.dev.mem p a
            = rf.mem p a)
      ∧ (isl79987_s_ctrl regFileBus ⟨rf, log⟩ st ⟨V4L2_CID_TEST_PATTERN, val⟩).2.dev
          = (isl79987_csi2_enable_TestPattern regFileBus ⟨rf, log⟩ 4 val).dev := by
  have hon := TestPattern_bits_on _ hr
  have hoff := TestPattern_bits_off _ hr
  have hnib := nibble_bits _ hr
  rw [s_ctrl_test_pattern_eq regFileBus _ st val hd]
  simp only [TestPattern_regFile]
  by_cases hv : val = 0
  · subst hv
    refine ⟨?_, ?_, ?_, ?_⟩
    · simpa using hoff.1
    · simp only [ne_eq, not_true_eq_false, if_false, and_self, if_true]
      simp at hoff
      simp [hoff.1, hnib.2]
    · intro p a hpa
      simp [hpa]
    · congr 1
      funext p a
      by_cases hpa : p = 5 ∧ a = 0x0D
      · simp at hoff
        simp [hpa, hoff.1, hoff.2]
      · simp [hpa]
  · refine ⟨?_, ?_, ?_, ?_⟩
    · simpa [hv] using hon.1
    · simp at hon
      simp [hv, hon.1, hnib.1]
    · intro p a hpa
      simp [hpa]
    · congr 1
      funext p a
      by_cases hpa : p = 5 ∧ a = 0x0D
      · simp at hon
        simp [hpa, hv, hon.1, hon.2]
      · simp [hpa]


theorem TestPattern_regFile_log (w : World RegFile) (pad : Nat) (fOn : Int) :
    (isl79987_csi2_enable_TestPattern regFileBus w pad fOn).log
      = w.log ++ [Txn.wr 0xFF 0x05, Txn.rd 0x0D (w.dev.mem 5 0x0D % 256),
          Txn.wr 0x0D ((if fOn ≠ 0 then
                w.dev.mem 5 0x0D % 256 |||
                  (if pad = 0 then 0x80 else if pad = 1 then 0x40 else if pad = 2 then 0x20
                    else if pad = 3 then 0x10 else 0xF0)
              else
                w.dev.mem 5 0x0D % 256 &&&
                  (0xFF ^^^ (if pad = 0 then 0x80 else if pad = 1 then 0x40
                    else if pad = 2 then 0x20 else if pad = 3 then 0x10 else 0xF0))) % 256)] := by
  have h : (isl79987_csi2_enable_TestPattern regFileBus w pad fOn).log
      = ((w.log ++ [Txn.wr 0xFF 0x05]) ++ [Txn.rd 0x0D (w.dev.mem 5 0x0D % 256)])
        ++ [Txn.wr 0x0D ((if fOn ≠ 0 then
                w.dev.mem 5 0x0D % 256 |||
                  (if pad = 0 then 0x80 else if pad = 1 then 0x40 else if pad = 2 then 0x20
                    else if pad = 3 then 0x10 else 0xF0)
              else
                w.dev.mem 5 0x0D % 256 &&&
                  (0xFF ^^^ (if pad = 0 then 0x80 else if pad = 1 then 0x40
                    else if pad = 2 then 0x20 else if pad = 3 then 0x10 else 0xF0))) % 256)] :=
    rfl
  rw [h]
  simp

set_option maxRecDepth 100000 in
theorem TestPattern_chain_on : ∀ r < 256,
    (r ||| 0x80 < 256 ∧ r ||| 0xC0 < 256 ∧ r ||| 0xE0 < 256 ∧ r ||| 0xF0 < 256)
      ∧ (r ||| 0x80) ||| 0x40 = r ||| 0xC0
      ∧ (r ||| 0xC0) ||| 0x20 = r ||| 0xE0
      ∧ (r ||| 0xE0) ||| 0x10 = r ||| 0xF0 := by
  decide

set_option maxRecDepth 100000 in
theorem TestPattern_chain_off : ∀ r < 256,
    (r &&& 0x7F < 256 ∧ r &&& 0x3F < 256 ∧ r &&& 0x1F < 256 ∧ r &&& 0x0F < 256)
      ∧ (r &&& 0x7F) &&& 0xBF = r &&& 0x3F
      ∧ (r &&& 0x3F) &&& 0xDF = r &&& 0x1F
      ∧ (r &&& 0x1F) &&& 0xEF = r &&& 0x0F := by
  decide

theorem s_ctrl_test_pattern_log_on (rf : RegFile) (log : List Txn) (st : isl79987_state)
    (val : Int) (hd : st.is_dummy = 0) (hr : rf.mem 5 0x0D < 256) (hv : val ≠ 0) :
    (isl79987_s_ctrl regFileBus ⟨rf, log⟩ st ⟨V4L2_CID_TEST_PATTERN, val⟩).2.log
      = log ++ [Txn.wr 0xFF 0x05, Txn.rd 0x0D (rf.mem 5 0x0D),
          Txn.wr 0x0D (rf.mem 5 0x0D ||| 0x80),
          Txn.wr 0xFF 0x05, Txn.rd 0x0D (rf.mem 5 0x0D ||| 0x80),
          Txn.wr 0x0D (rf.mem 5 0x0D ||| 0xC0),
          Txn.wr 0xFF 0x05, Txn.rd 0x0D (rf.mem 5 0x0D ||| 0xC0),
          Txn.wr 0x0D (rf.mem 5 0x0D ||| 0xE0),
          Txn.wr 0xFF 0x05, Txn.rd 0x0D (rf.mem 5 0x0D ||| 0xE0),
          Txn.wr 0x0D (rf.mem 5 0x0D ||| 0xF0)] := by
  obtain ⟨⟨b1, b2, b3, b4⟩, h2, h3, h4⟩ := TestPattern_chain_on _ hr
  rw [s_ctrl_test_pattern_eq regFileBus _ st val hd]
  simp only [TestPattern_regFile_log, TestPattern_regFile]
  simp [hv, Nat.mod_eq_of_lt hr, Nat.mod_eq_of_lt b1, Nat.mod_eq_of_lt b2,
    Nat.mod_eq_of_lt b3, Nat.mod_eq_of_lt b4, h2, h3, h4]

theorem s_ctrl_test_pattern_log_off (rf : RegFile) (log : List Txn) (st : isl79987_state)
    (hd : st.is_dummy = 0) (hr : rf.mem 5 0x0D < 256) :
    (isl79987_s_ctrl regFileBus ⟨rf, log⟩ st ⟨V4L2_CID_TEST_PATTERN, 0⟩).2.log
      = log ++ [Txn.wr 0xFF 0x05, Txn.rd 0x0D (rf.mem 5 0x0D),
          Txn.wr 0x0D (rf.mem 5 0x0D &&& 0x7F),
          Txn.wr 0xFF 0x05, Txn.rd 0x0D (rf.mem 5 0x0D &&& 0x7F),
          Txn.wr 0x0D (rf.mem 5 0x0D &&& 0x3F),
          Txn.wr 0xFF 0x05, Txn.rd 0x0D (rf.mem 5 0x0D &&& 0x3F),
          Txn.wr 0x0D (rf.mem 5 0x0D &&& 0x1F),
          Txn.wr 0xFF 0x05, Txn.rd 0x0D (rf.mem 5 0x0D &&& 0x1F),
          Txn.wr 0x0D (rf.mem 5 0x0D &&& 0x0F)] := by
  obtain ⟨⟨b1, b2, b3, b4⟩, h2, h3, h4⟩ := TestPattern_chain_off _ hr
  rw [s_ctrl_test_pattern_eq regFileBus _ st 0 hd]
  simp only [TestPattern_regFile_log, TestPattern_regFile]
  simp [Nat.mod_eq_of_lt hr, Nat.mod_eq_of_lt b1, Nat.mod_eq_of_lt b2,
    Nat.mod_eq_of_lt b3, Nat.mod_eq_of_lt b4, h2, h3, h4]

/-- C8: on the register-file chip, with `r` the byte in page-5 register 0x0D beforehand,
setting the test-pattern control on leaves `r ||| 0xF0` there and setting it off leaves
`r &&& 0x0F`; the low nibble is as before, every other register is as before, and the
chip ends in the same state as after one read-modify-write with mask 0xF0. What
`isl79987_s_ctrl` issues for it is four read-modify-writes of that register, one per
input, with the masks 0x80, 0x40, 0x20 and 0x10. -/
theorem s_ctrl_test_pattern_regFile (rf : RegFile) (log : List Txn) (st : isl79987_state)
    (val : Int) (hd : st.is_dummy = 0) (hr : rf.mem 5 0x0D < 256) :
    (isl79987_s_ctrl regFileBus ⟨rf, log⟩ st ⟨V4L2_CID_TEST_PATTERN, val⟩).2.dev.mem 5 0x0D
        = (if val ≠ 0 then rf.mem 5 0x0D ||| 0xF0 else rf.mem 5 0x0D &&& 0x0F)
      ∧ (isl79987_s_ctrl regFileBus ⟨rf, log⟩ st
            ⟨V4L2_CID_TEST_PATTERN, val⟩).2.dev.mem 5 0x0D &&& 0x0F
          = rf.mem 5 0x0D &&& 0x0F
      ∧ (∀ p a : Nat, ¬ (p = 5 ∧ a = 0x0D) →
          (isl79987_s_ctrl regFileBus ⟨rf, log⟩ st ⟨V4L2_CID_TEST_PATTERN, val⟩).2.dev.mem p a
            = rf.mem p a)
      ∧ (isl79987_s_ctrl regFileBus ⟨rf, log⟩ st ⟨V4L2_CID_TEST_PATTERN, val⟩).2.dev
          = (isl79987_csi2_enable_TestPattern regFileBus ⟨rf, log⟩ 4 val).dev
      ∧ (isl79987_s_ctrl regFileBus ⟨rf, log⟩ st ⟨V4L2_CID_TEST_PATTERN, val⟩).2.log
          = log ++
            (if val ≠ 0 then
              [Txn.wr 0xFF 0x05, Txn.rd 0x0D (rf.mem 5 0x0D),
                Txn.wr 0x0D (rf.mem 5 0x0D ||| 0x80),
                Txn.wr 0xFF 0x05, Txn.rd 0x0D (rf.mem 5 0x0D ||| 0x80),
                Txn.wr 0x0D (rf.mem 5 0x0D ||| 0xC0),
                Txn.wr 0xFF 0x05, Txn.rd 0x0D (rf.mem 5 0x0D ||| 0xC0),
                Txn.wr 0x0D (rf.mem 5 0x0D ||| 0xE0),
                Txn.wr 0xFF 0x05, Txn.rd 0x0D (rf.mem 5 0x0D ||| 0xE0),
                Txn.wr 0x0D (rf.mem 5 0x0D ||| 0xF0)]
            else
              [Txn.wr 0xFF 0x05, Txn.rd 0x0D (rf.mem 5 0x0D),
                Txn.wr 0x0D (rf.mem 5 0x0D &&& 0x7F),
                Txn.wr 0xFF 0x05, Txn.rd 0x0D (rf.mem 5 0x0D &&& 0x7F),
                Txn.wr 0x0D (rf.mem 5 0x0D &&& 0x3F),
                Txn.wr 0xFF 0x05, Txn.rd 0x0D (rf.mem 5 0x0D &&& 0x3F),
                Txn.wr 0x0D (rf.mem 5 0x0D &&& 0x1F),
                Txn.wr 0xFF 0x05, Txn.rd 0x0D (rf.mem 5 0x0D &&& 0x1F),
                Txn.wr 0x0D (rf.mem 5 0x0D &&& 0x0F)]) := by
  obtain ⟨h1, h2, h3, h4⟩ := test_pattern_regFile_state rf log st val hd hr
  refine ⟨h1, h2, h3, h4, ?_⟩
  by_cases hv : val = 0
  · subst hv
    rw [s_ctrl_test_pattern_log_off rf log st hd hr]
    simp
  · rw [s_ctrl_test_pattern_log_on rf log st val hd hr hv, if_pos hv]

/-- Witness of C8: register 0x0D of page 5 holds 0x05 beforehand, 0xF5 afterwards. -/
theorem s_ctrl_test_pattern_regFile_witness :
    (isl79987_s_ctrl regFileBus ⟨RegFile.const 0x05, []⟩ realSession
        ⟨V4L2_CID_TEST_PATTERN, 1⟩).2.dev.mem 5 0x0D = 0xF5
      ∧ (isl79987_s_ctrl regFileBus ⟨RegFile.const 0x05, []⟩ realSession
            ⟨V4L2_CID_TEST_PATTERN, 1⟩).2.dev.mem 5 0x0D
          = (if (1 : Int) ≠ 0 then (RegFile.const 0x05).mem 5 0x0D ||| 0xF0
              else (RegFile.const 0x05).mem 5 0x0D &&& 0x0F) :=
  ⟨by decide,
   (s_ctrl_test_pattern_regFile (RegFile.const 0x05) [] realSession 1 rfl (by decide)).1⟩
/-! ## MIPI reset -/

set_option maxRecDepth 100000 in
theorem mipi_bits_keep_top : ∀ r < 256,
    (r &&& 0xEF) &&& 0xE0 = r &&& 0xE0 ∧ (r ||| 0x10) &&& 0xE0 = r &&& 0xE0
      ∧ (r &&& 0xF0) &&& 0xE0 = r &&& 0xE0 ∧ (r &&& 0xE0) &&& 0xE0 = r &&& 0xE0
      ∧ (r ||| 0x1F) &&& 0xE0 = r &&& 0xE0 := by
  decide

theorem mipi_reset_bits_top (flag_set : Int) (r : Nat) (h : r < 256) :
    mipi_reset_bits flag_set r &&& 0xE0 = r &&& 0xE0 := by
  have hb := mipi_bits_keep_top r h
  unfold mipi_reset_bits
  split_ifs
  · exact hb.1
  · exact hb.2.1
  · exact hb.2.2.1
  · exact hb.2.2.2.1
  · exact hb.2.2.2.2
  · rfl

/-- C16: on a session that is not simulated, `isl79987_mipi_reset` returns 0 and makes
three accesses: it selects bank 0, reads register 0x02, and writes back the byte `r` it
read with bit 4 cleared (CLEAR), bit 4 set (SET), bits 3..0 cleared (CH_CLEAR), bits
4..0 cleared (ALL_CLEAR) or bits 4..0 set (ALL_SET). Bits 7..5 of what is written are
those of `r` in every mode, and a mode outside the five writes `r` back unchanged. -/
theorem mipi_reset_rmw {σ : Type} (d : I2cBus σ) (w : World σ) (st : isl79987_state)
    (flag_set : Int) (hd : st.is_dummy = 0) :
    (isl79987_mipi_reset d w st flag_set).1 = 0
      ∧ ∃ r v : Nat, r < 256
        ∧ (isl79987_mipi_reset d w st flag_set).2.log
            = w.log ++ [Txn.wr 0xFF 0x00, Txn.rd 0x02 r, Txn.wr 0x02 v]
        ∧ (flag_set = MIPI_RESET_CLEAR → v = r &&& (0xFF - 0x10))
        ∧ (flag_set = MIPI_RESET_SET → v = r ||| 0x10)
        ∧ (flag_set = MIPI_RESET_CH_CLEAR → v = r &&& (0xFF - 0x0F))
        ∧ (flag_set = MIPI_RESET_ALL_CLEAR → v = r &&& (0xFF - 0x1F))
        ∧ (flag_set = MIPI_RESET_ALL_SET → v = r ||| 0x1F)
        ∧ (flag_set ∉ [MIPI_RESET_CLEAR, MIPI_RESET_SET, MIPI_RESET_CH_CLEAR,
              MIPI_RESET_ALL_CLEAR, MIPI_RESET_ALL_SET] → v = r)
        ∧ v &&& 0xE0 = r &&& 0xE0 := by
  constructor
  · unfold isl79987_mipi_reset
    split_ifs <;> rfl
  · obtain ⟨r, hr, hlog⟩ := mipi_reset_log d w st flag_set hd
    refine ⟨r, mipi_reset_bits flag_set r, hr, ?_, ?_, ?_, ?_, ?_, ?_, ?_,
      mipi_reset_bits_top flag_set r hr⟩
    · rw [hlog]
      rfl
    · intro h
      subst h
      rfl
    · intro h
      subst h
      rfl
    · intro h
      subst h
      rfl
    · intro h
      subst h
      rfl
    · intro h
      subst h
      rfl
    · intro h
      simp only [List.mem_cons, List.mem_singleton, List.not_mem_nil, or_false,
        not_or] at h
      unfold mipi_reset_bits
      rw [if_neg h.1, if_neg h.2.1, if_neg h.2.2.1, if_neg h.2.2.2.1, if_neg h.2.2.2.2]

/-- Witness of C16: the register-file chip with 0xA5 in every register, mode ALL_SET. -/
theorem mipi_reset_rmw_witness :
    (isl79987_mipi_reset regFileBus (regWorld 0xA5) realSession MIPI_RESET_ALL_SET).2.log
        = [Txn.wr 0xFF 0x00, Txn.rd 0x02 0xA5, Txn.wr 0x02 0xBF]
      ∧ ((isl79987_mipi_reset regFileBus (regWorld 0xA5) realSession MIPI_RESET_ALL_SET).1 = 0
      ∧ ∃ r v : Nat, r < 256
        ∧ (isl79987_mipi_reset regFileBus (regWorld 0xA5) realSession
              MIPI_RESET_ALL_SET).2.log
            = (regWorld 0xA5).log ++ [Txn.wr 0xFF 0x00, Txn.rd 0x02 r, Txn.wr 0x02 v]
        ∧ (MIPI_RESET_ALL_SET = MIPI_RESET_CLEAR → v = r &&& (0xFF - 0x10))
        ∧ (MIPI_RESET_ALL_SET = MIPI_RESET_SET → v = r ||| 0x10)
        ∧ (MIPI_RESET_ALL_SET = MIPI_RESET_CH_CLEAR → v = r &&& (0xFF - 0x0F))
        ∧ (MIPI_RESET_ALL_SET = MIPI_RESET_ALL_CLEAR → v = r &&& (0xFF - 0x1F))
        ∧ (MIPI_RESET_ALL_SET = MIPI_RESET_ALL_SET → v = r ||| 0x1F)
        ∧ (MIPI_RESET_ALL_SET ∉ [MIPI_RESET_CLEAR, MIPI_RESET_SET, MIPI_RESET_CH_CLEAR,
              MIPI_RESET_ALL_CLEAR, MIPI_RESET_ALL_SET] → v = r)
        ∧ v &&& 0xE0 = r &&& 0xE0) :=
  ⟨by decide, mipi_reset_rmw regFileBus (regWorld 0xA5) realSession MIPI_RESET_ALL_SET rfl⟩

/-! ## Detection on real hardware -/

theorem afe_page_mod (pad : Int) : afe_page pad % 256 = afe_page pad := by
  unfold afe_page
  split_ifs <;> rfl

/-- C13: on a session that is not simulated, with `s` the status byte read from register
0x03, `isl79987_afe_status` returns 0 and stores the no-signal status exactly when
`s &&& 0xE8` differs from 0x68, and the status 0 otherwise; when the signal is absent
and a standard is asked for, the standard stored is Unknown and the only accesses are
the page select and that one read: register 0x1C is not read. -/
theorem afe_status_signal {σ : Type} (d : I2cBus σ) (w : World σ) (st : isl79987_state)
    (pad : Int) (signal std : Option Nat) (hd : st.is_dummy = 0) :
    (isl79987_afe_status d w st pad signal std).1 = 0
      ∧ (isl79987_afe_status d w st pad signal std).2.1
          = signal.map (fun _ =>
              if status_read d w pad &&& 0xE8 ≠ 0x68 then V4L2_IN_ST_NO_SIGNAL else 0)
      ∧ (isl79987_afe_status d w st pad signal std).2.1.map signalPresent
          = signal.map (fun _ => decide (status_read d w pad &&& 0xE8 = 0x68))
      ∧ (status_read d w pad &&& 0xE8 ≠ 0x68 → std.isSome = true →
          (isl79987_afe_status d w st pad signal std).2.2.1 = some V4L2_STD_UNKNOWN
            ∧ (isl79987_afe_status d w st pad signal std).2.2.2.log
                = w.log ++ [Txn.wr 0xFF (afe_page pad), Txn.rd 0x03 (status_read d w pad)]) := by
  have hpage : (if pad = 0 then 0x01 else if pad = 1 then 0x02 else if pad = 2 then 0x03
      else if pad = 3 then 0x04 else 0x0F : Nat) = afe_page pad := rfl
  have hlog : (ReadTW88_uninit d (WriteTW88 d w 0xFF (afe_page pad)).2
      ISL79987_AFE_STATUS_REG).2.2.log
      = w.log ++ [Txn.wr 0xFF (afe_page pad), Txn.rd 0x03 (status_read d w pad)] := by
    rw [ReadTW88_uninit_log, WriteTW88_log, afe_page_mod]
    simp [status_read, ISL79987_AFE_STATUS_REG]
  unfold isl79987_afe_status
  rw [if_neg (by simp [hd])]
  dsimp only
  rw [hpage]
  by_cases hs : status_read d w pad &&& 0xE8 = 0x68
  · have hs1 : (ReadTW88_uninit d (WriteTW88 d w 0xFF (afe_page pad)).2
        ISL79987_AFE_STATUS_REG).2.1 &&& 0xE8 = 0x68 := hs
    cases signal <;> cases std <;>
      simp [hs, hs1, signalPresent, ISL79987_AFE_STATUS_NOSIGNAL_MASK,
        ISL79987_AFE_STATUS_VDLOSS, ISL79987_AFE_STATUS_LOCK, V4L2_IN_ST_NO_SIGNAL] <;>
      split_ifs <;> simp
  · have hs1 : ¬ (ReadTW88_uninit d (WriteTW88 d w 0xFF (afe_page pad)).2
        ISL79987_AFE_STATUS_REG).2.1 &&& 0xE8 = 0x68 := hs
    cases signal <;> cases std <;>
      simp [hs, hs1, hlog, signalPresent, ISL79987_AFE_STATUS_NOSIGNAL_MASK,
        ISL79987_AFE_STATUS_VDLOSS, ISL79987_AFE_STATUS_LOCK, V4L2_IN_ST_NO_SIGNAL]

/-- Witness of C13: the scripted chip answers 0x80 (video loss) to the status read. -/
theorem afe_status_signal_witness :
    (isl79987_afe_status pollBus ⟨[0x80, 0x10], []⟩ realSession 0 (some 0) (some 7)).2.2.1
        = some V4L2_STD_UNKNOWN
      ∧ (isl79987_afe_status pollBus ⟨[0x80, 0x10], []⟩ realSession 0 (some 0)
            (some 7)).2.2.2.log
          = [] ++ [Txn.wr 0xFF (afe_page 0),
              Txn.rd 0x03 (status_read pollBus ⟨[0x80, 0x10], []⟩ 0)] :=
  (afe_status_signal pollBus ⟨[0x80, 0x10], []⟩ realSession 0 (some 0) (some 7) rfl).2.2.2
    (by decide) rfl

/-- C14, as the code has it: with the signal present and a standard asked for,
`isl79987_afe_status` reads register 0x1C and classifies its bits 6..4 (the byte masked
with 0x70; bit 7 is not looked at): the codes 1, 2 and 5 give PAL, the code 7 gives
Unknown, and every other code gives NTSC. -/
theorem afe_status_standard {σ : Type} (d : I2cBus σ) (w : World σ) (st : isl79987_state)
    (pad : Int) (signal : Option Nat) (stdv : Nat) (hd : st.is_dummy = 0)
    (hs : status_read d w pad &&& 0xE8 = 0x68) :
    (isl79987_afe_status d w st pad signal (some stdv)).2.2.1
        = some (if std_read d w pad &&& 0x70 = 0x10 ∨ std_read d w pad &&& 0x70 = 0x20
                  ∨ std_read d w pad &&& 0x70 = 0x50 then V4L2_STD_PAL
                else if std_read d w pad &&& 0x70 = 0x70 then V4L2_STD_UNKNOWN
                else V4L2_STD_NTSC)
      ∧ (isl79987_afe_status d w st pad signal (some stdv)).2.2.2.log
          = w.log ++ [Txn.wr 0xFF (afe_page pad), Txn.rd 0x03 (status_read d w pad),
              Txn.rd 0x1C (std_read d w pad)] := by
  have hpage : (if pad = 0 then 0x01 else if pad = 1 then 0x02 else if pad = 2 then 0x03
      else if pad = 3 then 0x04 else 0x0F : Nat) = afe_page pad := rfl
  have hs1 : (ReadTW88_uninit d (WriteTW88 d w 0xFF (afe_page pad)).2
      ISL79987_AFE_STATUS_REG).2.1 &&& 0xE8 = 0x68 := hs
  have hlog : (ReadTW88 d
      (ReadTW88_uninit d (WriteTW88 d w 0xFF (afe_page pad)).2 ISL79987_AFE_STATUS_REG).2.2
      ISL79987_DEC_STD_REG (status_read d w pad)).2.2.log
      = w.log ++ [Txn.wr 0xFF (afe_page pad), Txn.rd 0x03 (status_read d w pad),
          Txn.rd 0x1C (std_read d w pad)] := by
    rw [ReadTW88_log, ReadTW88_uninit_log, WriteTW88_log, afe_page_mod]
    simp [status_read, std_read, ISL79987_AFE_STATUS_REG, ISL79987_DEC_STD_REG]
  have hstd : (ReadTW88 d
      (ReadTW88_uninit d (WriteTW88 d w 0xFF (afe_page pad)).2 ISL79987_AFE_STATUS_REG).2.2
      ISL79987_DEC_STD_REG (ReadTW88_uninit d (WriteTW88 d w 0xFF (afe_page pad)).2
        ISL79987_AFE_STATUS_REG).2.1).2.1 = std_read d w pad := rfl
  unfold isl79987_afe_status
  rw [if_neg (by simp [hd])]
  dsimp only
  rw [hpage]
  simp only [ISL79987_AFE_STATUS_NOSIGNAL_MASK, ISL79987_AFE_STATUS_VDLOSS,
    ISL79987_AFE_STATUS_LOCK, ISL79987_AFE_STD_PAL, ISL79987_AFE_STD_SECAM,
    ISL79987_AFE_STD_PAL_CN]
  have hm : (0x80 ||| 0x68 : Nat) = 0xE8 := by decide
  simp only [hm, hs1, hstd]
  simp only [ne_eq, not_true_eq_false, decide_False, Bool.false_and,
    Option.isNone_some, Bool.false_eq_true, if_false]
  split_ifs <;> exact ⟨rfl, hlog⟩

/-- Witness of the amended C14: status 0x68 (locked), then 0x10 in register 0x1C. -/
theorem afe_status_standard_witness :
    (isl79987_afe_status pollBus ⟨[0x68, 0x10], []⟩ realSession 0 none (some 0)).2.2.1
        = some V4L2_STD_PAL
      ∧ ((isl79987_afe_status pollBus ⟨[0x68, 0x10], []⟩ realSession 0 none (some 0)).2.2.1
        = some (if std_read pollBus ⟨[0x68, 0x10], []⟩ 0 &&& 0x70 = 0x10
                    ∨ std_read pollBus ⟨[0x68, 0x10], []⟩ 0 &&& 0x70 = 0x20
                    ∨ std_read pollBus ⟨[0x68, 0x10], []⟩ 0 &&& 0x70 = 0x50 then V4L2_STD_PAL
                else if std_read pollBus ⟨[0x68, 0x10], []⟩ 0 &&& 0x70 = 0x70
                  then V4L2_STD_UNKNOWN
                else V4L2_STD_NTSC)
      ∧ (isl79987_afe_status pollBus ⟨[0x68, 0x10], []⟩ realSession 0 none
            (some 0)).2.2.2.log
          = [] ++ [Txn.wr 0xFF (afe_page 0),
              Txn.rd 0x03 (status_read pollBus ⟨[0x68, 0x10], []⟩ 0),
              Txn.rd 0x1C (std_read pollBus ⟨[0x68, 0x10], []⟩ 0)]) :=
  ⟨by decide,
   afe_status_standard pollBus ⟨[0x68, 0x10], []⟩ realSession 0 none 0 rfl (by decide)⟩

/-- C14 as stated fails: with the input locked (status 0x68), the byte 0x70 in register
0x1C has the top nibble 7, which is neither 1, 2, 5 nor 0xF, yet the standard stored is
Unknown and not NTSC; and the byte 0x90, top nibble 9, gives PAL and not NTSC. -/
theorem afe_status_nibble_mismatch :
    (0x70 : Nat) >>> 4 = 7 ∧ (0x90 : Nat) >>> 4 = 9
      ∧ (isl79987_afe_status pollBus ⟨[0x68, 0x70], []⟩ realSession 0 (some 0) (some 0)).2.2.1
          = some V4L2_STD_UNKNOWN
      ∧ (isl79987_afe_status pollBus ⟨[0x68, 0x90], []⟩ realSession 0 (some 0) (some 0)).2.2.1
          = some V4L2_STD_PAL
      ∧ V4L2_STD_UNKNOWN ≠ V4L2_STD_NTSC ∧ V4L2_STD_PAL ≠ V4L2_STD_NTSC := by
  decide

/-! ## Controls the driver does not implement -/

/-- C18, as the code has it: for a control identifier that is none of brightness,
contrast, saturation, hue, sharpness, black level, auto white balance, test pattern and
pixel rate, `isl79987_s_ctrl` makes no bus access in any session; it returns `-EINVAL`
on a session that is not simulated and 0 on a simulated one. -/
theorem s_ctrl_unknown_id {σ : Type} (d : I2cBus σ) (w : World σ) (st : isl79987_state)
    (ctrl : v4l2_ctrl) (hid : ctrl.id ∉ known_ctrl_ids) :
    (isl79987_s_ctrl d w st ctrl).2 = w
      ∧ (isl79987_s_ctrl d w st ctrl).1 = (if st.is_dummy ≠ 0 then 0 else - EINVAL) := by
  simp only [known_ctrl_ids, List.mem_cons, List.mem_singleton, List.not_mem_nil, or_false,
    not_or] at hid
  obtain ⟨h1, h2, h3, h4, h5, h6, h7, h8, h9⟩ := hid
  unfold isl79987_s_ctrl
  rw [if_neg h1]
  by_cases hd : st.is_dummy ≠ 0
  · rw [if_pos hd, if_pos hd]
    exact ⟨rfl, rfl⟩
  · rw [if_neg hd, if_neg h2, if_neg h3, if_neg h4, if_neg h5, if_neg h6, if_neg h7,
      if_neg h8, if_neg h9, if_neg hd]
    exact ⟨rfl, rfl⟩

/-- Witness of the amended C18: the gamma control on a session that is not simulated. -/
theorem s_ctrl_unknown_id_witness :
    (isl79987_s_ctrl regFileBus (regWorld 0) realSession ⟨V4L2_CID_GAMMA, 1⟩).1 = - EINVAL
      ∧ ((isl79987_s_ctrl regFileBus (regWorld 0) realSession ⟨V4L2_CID_GAMMA, 1⟩).2
          = regWorld 0
        ∧ (isl79987_s_ctrl regFileBus (regWorld 0) realSession ⟨V4L2_CID_GAMMA, 1⟩).1
          = (if realSession.is_dummy ≠ 0 then 0 else - EINVAL)) :=
  ⟨by decide,
   s_ctrl_unknown_id regFileBus (regWorld 0) realSession ⟨V4L2_CID_GAMMA, 1⟩ (by decide)⟩

/-- C18 as stated fails: on a simulated session the gamma control, which the driver does
not implement, is answered with 0 and not with `-EINVAL`. -/
theorem s_ctrl_unknown_id_dummy :
    V4L2_CID_GAMMA ∉ known_ctrl_ids
      ∧ dummySession.is_dummy ≠ 0
      ∧ (isl79987_s_ctrl regFileBus (regWorld 0) dummySession ⟨V4L2_CID_GAMMA, 1⟩).1 = 0
      ∧ (isl79987_s_ctrl regFileBus (regWorld 0) dummySession ⟨V4L2_CID_GAMMA, 1⟩).1
          ≠ - EINVAL := by
  decide

/-! ## Simulated sessions -/

/-- C12 at a failing input: on a simulated session, stream start returns 0 but selects
page 1 and reads status register 0x03, two bus accesses; the other operations (software
reset, MIPI reset in the five modes, power on and off, virtual-channel write, download,
detection, field wait, control set, stream stop) make none and succeed. -/
theorem s_stream_dummy_bus_access :
    dummySession.is_dummy ≠ 0
      ∧ (isl79987_s_stream regFileBus 0 (regWorld 0) dummySession 1).map
          (fun r => (r.1, r.2.1.streaming, r.2.2.log))
        = some (0, true, [Txn.wr 0xFF 0x01, Txn.rd 0x03 0x00])
      ∧ (isl79987_s_stream regFileBus 0 (regWorld 0) dummySession 0).map
          (fun r => (r.1, r.2.1.streaming, r.2.2.log)) = some (0, false, [])
      ∧ (isl79987_SW_reset regFileBus (regWorld 0) dummySession).2.log = []
      ∧ (∀ flag_set ∈ [MIPI_RESET_CLEAR, MIPI_RESET_SET, MIPI_RESET_CH_CLEAR,
            MIPI_RESET_ALL_CLEAR, MIPI_RESET_ALL_SET],
          (isl79987_mipi_reset regFileBus (regWorld 0) dummySession flag_set).1 = 0
            ∧ (isl79987_mipi_reset regFileBus (regWorld 0) dummySession flag_set).2.log = [])
      ∧ (isl79987_mipi_power regFileBus (regWorld 0) dummySession true).2.log = []
      ∧ (isl79987_mipi_power regFileBus (regWorld 0) dummySession false).2.log = []
      ∧ (isl79987_csi2_set_virtual_channel regFileBus (regWorld 0) dummySession 0x39).2.log = []
      ∧ (isl79987_download_chip_registers regFileBus (regWorld 0) dummySession).2.log = []
      ∧ (isl79987_afe_status regFileBus (regWorld 0) dummySession 0 (some 0)
            (some 0)).2.2.2.log = []
      ∧ (isl79987_wait_field regFileBus 0 (regWorld 0) dummySession 1).map
          (fun r => r.2.log) = some []
      ∧ (isl79987_s_ctrl regFileBus (regWorld 0) dummySession ⟨V4L2_CID_HUE, 10⟩).2.log = [] := by
  decide

/-! ## The table family of a standard -/

set_option maxRecDepth 100000 in
theorem family_marks_fixed :
    ∀ e ∈ [Txn.wr 0x08 0x16, Txn.wr 0x0F 0x84, Txn.wr 0x08 0x14, Txn.wr 0x3D 0x1F],
      e ∉ table_txns isl79987_regs_default ∧ e ∉ table_txns isl79987_decoder
        ∧ ∀ T ∈ lane_tables, e ∉ table_txns T := by
  decide

/-- Each of the four writes `0x08 := 0x16`, `0x0F := 0x84` (PAL tables) and
`0x08 := 0x14`, `0x3D := 0x1F` (NTSC tables) occurs in a download only inside the
decoder table or the MIPI table of the standard. -/
theorem family_marks (st : isl79987_state) (r1 r2 rp r3 : Nat) (e : Txn)
    (he : e ∈ [Txn.wr 0x08 0x16, Txn.wr 0x0F 0x84, Txn.wr 0x08 0x14, Txn.wr 0x3D 0x1F])
    (h : e ∈ download_txns st r1 r2 rp r3) :
    e ∈ table_txns (decoder_table st.curr_norm) ∨ e ∈ table_txns (mipi_table st.curr_norm) := by
  obtain ⟨hf1, hf2, hf3⟩ := family_marks_fixed e he
  unfold download_txns at h
  simp only [List.mem_append] at h
  simp only [List.mem_cons, List.mem_singleton, List.not_mem_nil, or_false] at he
  rcases h with ((((((((h | h) | h) | h) | h) | h) | h) | h) | h) | h
  · rcases he with rfl | rfl | rfl | rfl <;> simp [mipi_reset_txns] at h
  · exact absurd h hf1
  · rcases he with rfl | rfl | rfl | rfl <;> simp [mipi_reset_txns] at h
  · exact absurd h hf2
  · exact Or.inl h
  · exact absurd h (hf3 _ (lane_table_mem st.chs st.lanes))
  · unfold vc_txns at h
    rcases he with rfl | rfl | rfl | rfl <;> split_ifs at h <;> simp at h
  · exact Or.inr h
  · unfold pseudo_txns at h
    rcases he with rfl | rfl | rfl | rfl <;> split_ifs at h <;> simp at h
  · rcases he with rfl | rfl | rfl | rfl <;> simp [mipi_reset_txns] at h

set_option maxRecDepth 100000 in
theorem family_marks_tables :
    Txn.wr 0x08 0x16 ∈ table_txns isl79987_regs_decoder_pal
      ∧ Txn.wr 0x0F 0x84 ∈ table_txns isl79987_regs_mipi_pal
      ∧ Txn.wr 0x08 0x14 ∈ table_txns isl79987_regs_decoder_ntsc
      ∧ Txn.wr 0x3D 0x1F ∈ table_txns isl79987_regs_mipi_ntsc
      ∧ Txn.wr 0x08 0x16 ∉ table_txns isl79987_regs_decoder_ntsc
      ∧ Txn.wr 0x08 0x16 ∉ table_txns isl79987_regs_mipi_ntsc
      ∧ Txn.wr 0x0F 0x84 ∉ table_txns isl79987_regs_decoder_ntsc
      ∧ Txn.wr 0x0F 0x84 ∉ table_txns isl79987_regs_mipi_ntsc
      ∧ Txn.wr 0x08 0x14 ∉ table_txns isl79987_regs_decoder_pal
      ∧ Txn.wr 0x08 0x14 ∉ table_txns isl79987_regs_mipi_pal
      ∧ Txn.wr 0x3D 0x1F ∉ table_txns isl79987_regs_decoder_pal
      ∧ Txn.wr 0x3D 0x1F ∉ table_txns isl79987_regs_mipi_pal := by
  decide

theorem family_tables_run (st : isl79987_state) (r1 r2 rp r3 : Nat) :
    table_txns (decoder_table st.curr_norm) <:+: download_txns st r1 r2 rp r3
      ∧ table_txns (mipi_table st.curr_norm) <:+: download_txns st r1 r2 rp r3 := by
  constructor
  · refine ⟨mipi_reset_txns MIPI_RESET_ALL_SET r1 ++ table_txns isl79987_regs_default
        ++ mipi_reset_txns MIPI_RESET_CH_CLEAR r2 ++ table_txns isl79987_decoder,
      table_txns (lane_table st.chs st.lanes) ++ vc_txns st.vc
        ++ table_txns (mipi_table st.curr_norm) ++ pseudo_txns st rp
        ++ mipi_reset_txns MIPI_RESET_CLEAR r3, ?_⟩
    simp only [download_txns, List.append_assoc]
  · refine ⟨mipi_reset_txns MIPI_RESET_ALL_SET r1 ++ table_txns isl79987_regs_default
        ++ mipi_reset_txns MIPI_RESET_CH_CLEAR r2 ++ table_txns isl79987_decoder
        ++ table_txns (decoder_table st.curr_norm) ++ table_txns (lane_table st.chs st.lanes)
        ++ vc_txns st.vc,
      pseudo_txns st rp ++ mipi_reset_txns MIPI_RESET_CLEAR r3, ?_⟩
    simp only [download_txns, List.append_assoc]

/-- C17, as the code has it: the download (session not simulated, writes succeeding)
writes the decoder table and the MIPI table of one family, chosen by the 525/60 mask
of the standard: a standard with a bit of `V4L2_STD_525_60` gets the NTSC decoder table
and the NTSC MIPI table and neither PAL table, any other standard gets the two PAL
tables and neither NTSC table. PAL, PAL-N, PAL-Nc and SECAM are of the second kind;
NTSC, NTSC 4.43, PAL-M and PAL-60 are of the first. -/
theorem download_table_family {σ : Type} (d : I2cBus σ) (hw : WritesSucceed d) (w : World σ)
    (st : isl79987_state) (hd : st.is_dummy = 0) :
    (∃ r1 r2 rp r3 : Nat,
      (isl79987_download_chip_registers d w st).2.log
          = w.log ++ download_txns st r1 r2 rp r3
        ∧ table_txns (decoder_table st.curr_norm) <:+: download_txns st r1 r2 rp r3
        ∧ table_txns (mipi_table st.curr_norm) <:+: download_txns st r1 r2 rp r3
        ∧ (st.curr_norm &&& V4L2_STD_525_60 ≠ 0 →
            decoder_table st.curr_norm = isl79987_regs_decoder_ntsc
              ∧ mipi_table st.curr_norm = isl79987_regs_mipi_ntsc
              ∧ ¬ (table_txns isl79987_regs_decoder_pal <:+: download_txns st r1 r2 rp r3)
              ∧ ¬ (table_txns isl79987_regs_mipi_pal <:+: download_txns st r1 r2 rp r3))
        ∧ (st.curr_norm &&& V4L2_STD_525_60 = 0 →
            decoder_table st.curr_norm = isl79987_regs_decoder_pal
              ∧ mipi_table st.curr_norm = isl79987_regs_mipi_pal
              ∧ ¬ (table_txns isl79987_regs_decoder_ntsc <:+: download_txns st r1 r2 rp r3)
              ∧ ¬ (table_txns isl79987_regs_mipi_ntsc <:+: download_txns st r1 r2 rp r3)))
      ∧ (∀ n ∈ [V4L2_STD_PAL, V4L2_STD_PAL_N, V4L2_STD_PAL_Nc, V4L2_STD_SECAM],
          n &&& V4L2_STD_525_60 = 0)
      ∧ (∀ n ∈ [V4L2_STD_NTSC, V4L2_STD_NTSC_443, V4L2_STD_PAL_M, V4L2_STD_PAL_60],
          n &&& V4L2_STD_525_60 ≠ 0) := by
  refine ⟨?_, by decide, by decide⟩
  obtain ⟨r1, r2, rp, r3, -, h⟩ := download_log d hw w st hd
  obtain ⟨m1, m2, m3, m4, n1, n2, n3, n4, n5, n6, n7, n8⟩ := family_marks_tables
  refine ⟨r1, r2, rp, r3, h, (family_tables_run st r1 r2 rp r3).1,
    (family_tables_run st r1 r2 rp r3).2, ?_, ?_⟩
  · intro hn
    have hdt : decoder_table st.curr_norm = isl79987_regs_decoder_ntsc := by
      unfold decoder_table
      rw [if_pos hn]
    have hmt : mipi_table st.curr_norm = isl79987_regs_mipi_ntsc := by
      unfold mipi_table
      rw [if_pos hn]
    refine ⟨hdt, hmt, ?_, ?_⟩
    · intro hinf
      rcases family_marks st r1 r2 rp r3 _ (by simp) (hinf.subset m1) with hx | hx
      · rw [hdt] at hx
        exact n1 hx
      · rw [hmt] at hx
        exact n2 hx
    · intro hinf
      rcases family_marks st r1 r2 rp r3 _ (by simp) (hinf.subset m2) with hx | hx
      · rw [hdt] at hx
        exact n3 hx
      · rw [hmt] at hx
        exact n4 hx
  · intro hn
    have hdt : decoder_table st.curr_norm = isl79987_regs_decoder_pal := by
      unfold decoder_table
      rw [if_neg (by simp [hn])]
    have hmt : mipi_table st.curr_norm = isl79987_regs_mipi_pal := by
      unfold mipi_table
      rw [if_neg (by simp [hn])]
    refine ⟨hdt, hmt, ?_, ?_⟩
    · intro hinf
      rcases family_marks st r1 r2 rp r3 _ (by simp) (hinf.subset m3) with hx | hx
      · rw [hdt] at hx
        exact n5 hx
      · rw [hmt] at hx
        exact n6 hx
    · intro hinf
      rcases family_marks st r1 r2 rp r3 _ (by simp) (hinf.subset m4) with hx | hx
      · rw [hdt] at hx
        exact n7 hx
      · rw [hmt] at hx
        exact n8 hx

/-- Witness of the amended C17: the PAL-M session on the register-file chip. -/
theorem download_table_family_witness :
    palMSession.curr_norm &&& V4L2_STD_525_60 ≠ 0
      ∧ ((∃ r1 r2 rp r3 : Nat,
      (isl79987_download_chip_registers regFileBus (regWorld 0) palMSession).2.log
          = (regWorld 0).log ++ download_txns palMSession r1 r2 rp r3
        ∧ table_txns (decoder_table palMSession.curr_norm)
            <:+: download_txns palMSession r1 r2 rp r3
        ∧ table_txns (mipi_table palMSession.curr_norm)
            <:+: download_txns palMSession r1 r2 rp r3
        ∧ (palMSession.curr_norm &&& V4L2_STD_525_60 ≠ 0 →
            decoder_table palMSession.curr_norm = isl79987_regs_decoder_ntsc
              ∧ mipi_table palMSession.curr_norm = isl79987_regs_mipi_ntsc
              ∧ ¬ (table_txns isl79987_regs_decoder_pal
                    <:+: download_txns palMSession r1 r2 rp r3)
              ∧ ¬ (table_txns isl79987_regs_mipi_pal
                    <:+: download_txns palMSession r1 r2 rp r3))
        ∧ (palMSession.curr_norm &&& V4L2_STD_525_60 = 0 →
            decoder_table palMSession.curr_norm = isl79987_regs_decoder_pal
              ∧ mipi_table palMSession.curr_norm = isl79987_regs_mipi_pal
              ∧ ¬ (table_txns isl79987_regs_decoder_ntsc
                    <:+: download_txns palMSession r1 r2 rp r3)
              ∧ ¬ (table_txns isl79987_regs_mipi_ntsc
                    <:+: download_txns palMSession r1 r2 rp r3)))
      ∧ (∀ n ∈ [V4L2_STD_PAL, V4L2_STD_PAL_N, V4L2_STD_PAL_Nc, V4L2_STD_SECAM],
          n &&& V4L2_STD_525_60 = 0)
      ∧ (∀ n ∈ [V4L2_STD_NTSC, V4L2_STD_NTSC_443, V4L2_STD_PAL_M, V4L2_STD_PAL_60],
          n &&& V4L2_STD_525_60 ≠ 0)) :=
  ⟨by decide, download_table_family regFileBus regFileBus_writes (regWorld 0) palMSession rfl⟩

set_option maxRecDepth 1000000 in
/-- C17 as stated fails: for the standard PAL-M the download on the register-file chip
writes the NTSC decoder table and the NTSC MIPI table, and neither PAL table. -/
theorem download_pal_m_ntsc_tables :
    palMSession.curr_norm = V4L2_STD_PAL_M
      ∧ table_txns isl79987_regs_decoder_ntsc
          <:+: (isl79987_download_chip_registers regFileBus (regWorld 0) palMSession).2.log
      ∧ table_txns isl79987_regs_mipi_ntsc
          <:+: (isl79987_download_chip_registers regFileBus (regWorld 0) palMSession).2.log
      ∧ ¬ (table_txns isl79987_regs_decoder_pal
          <:+: (isl79987_download_chip_registers regFileBus (regWorld 0) palMSession).2.log)
      ∧ ¬ (table_txns isl79987_regs_mipi_pal
          <:+: (isl79987_download_chip_registers regFileBus (regWorld 0) palMSession).2.log) := by
  decide

/-! ## Bus failures during the download -/

set_option maxRecDepth 1000000 in
/-- C19 at a failing input: on a bus that drops its fourth send, the first write of the
default table fails (`WriteTW88S` gives up the table with `-EIO`), yet the download goes
on: 83 accesses are made in all, 79 of them after the failing one, and it returns 0. The
probe of an identified chip over a bus that drops that same write likewise gets 0 from
the download and does not fail. -/
theorem download_ignores_bus_failure :
    realSession.is_dummy = 0
      ∧ (WriteTW88S flakyBus
          (isl79987_mipi_reset flakyBus (flakyWorld 3 0) realSession MIPI_RESET_ALL_SET).2
          isl79987_regs_default).1 = - EIO
      ∧ ((WriteTW88S flakyBus
          (isl79987_mipi_reset flakyBus (flakyWorld 3 0) realSession MIPI_RESET_ALL_SET).2
          isl79987_regs_default).2.log.length = 4)
      ∧ (isl79987_download_chip_registers flakyBus (flakyWorld 3 0) realSession).1 = 0
      ∧ (isl79987_download_chip_registers flakyBus (flakyWorld 3 0) realSession).2.log.length
          = 83
      ∧ (isl79987_download_chip_registers flakyBus (flakyWorld 3 0) realSession).2.log.take 8
          = [Txn.wr 0xFF 0x00, Txn.rd 0x02 0x00, Txn.wr 0x02 0x1F, Txn.wr 0xFF 0x00,
             Txn.wr 0xFF 0x00, Txn.rd 0x02 0x1F, Txn.wr 0x02 0x10, Txn.wr 0xFF 0x0F]
      ∧ (isl79987_probe flakyBus (flakyWorld 6 0x87) dt_plain).1 = 0
      ∧ (isl79987_probe flakyBus (flakyWorld 6 0x87) dt_plain).2.2.log.length = 86 := by
  decide

/-! ## Attach -/

set_option maxRecDepth 1000000 in
/-- C11 at a failing input: the chip does not identify itself (identity register reads
0), so `isl79987_check_chip_id` sets `is_dummy = 1`; the device tree has
`isl79987,is-dummy = <0>`, `isl79987_parse_dt` stores that over it, and the probe goes on
as on real hardware: it ends with `is_dummy = 0` after the 122 accesses of a download.
Without the property the session stays simulated and the download makes no access. -/
theorem probe_dt_clears_is_dummy :
    (isl79987_check_chip_id regFileBus (regWorld 0) zero_state).2.1.is_dummy = 1
      ∧ (isl79987_parse_dt
          { (isl79987_check_chip_id regFileBus (regWorld 0) zero_state).2.1 with
            vc := 0, chs := 4 } dt_is_dummy_zero).2.is_dummy = 0
      ∧ (isl79987_probe regFileBus (regWorld 0) dt_is_dummy_zero).1 = 0
      ∧ (isl79987_probe regFileBus (regWorld 0) dt_is_dummy_zero).2.1.is_dummy = 0
      ∧ (isl79987_probe regFileBus (regWorld 0) dt_is_dummy_zero).2.2.log.length = 2 + 122
      ∧ (isl79987_probe regFileBus (regWorld 0) dt_plain).2.1.is_dummy = 1
      ∧ (isl79987_probe regFileBus (regWorld 0) dt_plain).2.2.log
          = [Txn.wr 0xFF 0x00, Txn.rd 0x00 0x00] := by
  decide

/-! ## Table writes -/

theorem WriteTW88_ret {σ : Type} (d : I2cBus σ) (w : World σ) (reg val : Nat) :
    (WriteTW88 d w reg val).1
      = (if 2 ≤ (d.send w.dev [reg % 256, val % 256]).1 then 0
          else if (d.send w.dev [reg % 256, val % 256]).1 < 0
            then (d.send w.dev [reg % 256, val % 256]).1
          else - EIO) := by
  unfold WriteTW88
  dsimp only
  split_ifs <;> first | rfl | omega

theorem WriteTW88_ret_neg {σ : Type} (d : I2cBus σ) (w : World σ) (reg val : Nat)
    (h : (WriteTW88 d w reg val).1 ≠ 0) : (WriteTW88 d w reg val).1 < 0 := by
  rw [WriteTW88_ret] at h ⊢
  unfold EIO at h ⊢
  split_ifs at h ⊢ <;> omega

theorem write_result_zero {σ : Type} (d : I2cBus σ) (w : World σ) (c : reg_value)
    (cs : List reg_value) :
    write_result d w (c :: cs) 0 = some (WriteTW88 d w c.reg c.value).1 := by
  simp [write_result, write_each]

theorem write_result_succ {σ : Type} (d : I2cBus σ) (w : World σ) (c : reg_value)
    (cs : List reg_value) (k : Nat) :
    write_result d w (c :: cs) (k + 1)
      = write_result d (WriteTW88 d w c.reg c.value).2 cs k := by
  simp [write_result, write_each]

theorem WriteTW88S_fails_at {σ : Type} (d : I2cBus σ) (t : List reg_value) :
    ∀ (w : World σ) (i : Nat) (e : Int), write_result d w t i = some e → e ≠ 0 →
      (∀ j < i, write_result d w t j = some 0) →
      (WriteTW88S d w t).1 = e
        ∧ (WriteTW88S d w t).2.log = w.log ++ table_txns (t.take (i + 1)) ∧ e < 0 := by
  induction t with
  | nil =>
    intro w i e h
    simp [write_result] at h
  | cons c cs ih =>
    intro w i e h he hj
    cases i with
    | zero =>
      rw [write_result_zero] at h
      have h1 : (WriteTW88 d w c.reg c.value).1 = e := Option.some.inj h
      have h2 : (WriteTW88 d w c.reg c.value).1 ≠ 0 := by rw [h1]; exact he
      unfold WriteTW88S
      dsimp only
      rw [if_pos h2]
      refine ⟨h1, ?_, ?_⟩
      · rw [WriteTW88_log]
        simp [table_txns]
      · rw [← h1]
        exact WriteTW88_ret_neg d w _ _ h2
    | succ k =>
      have h0 := hj 0 (Nat.succ_pos k)
      rw [write_result_zero] at h0
      have h1 : (WriteTW88 d w c.reg c.value).1 = 0 := Option.some.inj h0
      rw [write_result_succ] at h
      have hj1 : ∀ j < k, write_result d (WriteTW88 d w c.reg c.value).2 cs j = some 0 := by
        intro j hjk
        have := hj (j + 1) (Nat.succ_lt_succ hjk)
        rwa [write_result_succ] at this
      obtain ⟨r1, r2, r3⟩ := ih (WriteTW88 d w c.reg c.value).2 k e h he hj1
      unfold WriteTW88S
      dsimp only
      rw [if_neg (by simp [h1])]
      refine ⟨r1, ?_, r3⟩
      rw [r2, WriteTW88_log]
      simp [table_txns]

theorem WriteTW88S_ok_iff {σ : Type} (d : I2cBus σ) (t : List reg_value) :
    ∀ w : World σ,
      (WriteTW88S d w t).1 = 0 ↔ ∀ i < t.length, write_result d w t i = some 0 := by
  induction t with
  | nil =>
    intro w
    simp [WriteTW88S]
  | cons c cs ih =>
    intro w
    unfold WriteTW88S
    dsimp only
    by_cases h1 : (WriteTW88 d w c.reg c.value).1 = 0
    · rw [if_neg (by simp [h1]), ih]
      constructor
      · intro h i hi
        cases i with
        | zero => rw [write_result_zero, h1]
        | succ k =>
          rw [write_result_succ]
          exact h k (by simpa using hi)
      · intro h i hi
        have := h (i + 1) (by simpa using hi)
        rwa [write_result_succ] at this
    · rw [if_pos h1]
      constructor
      · intro h
        exact absurd h h1
      · intro h
        have := h 0 (by simp)
        rw [write_result_zero] at this
        exact absurd (Option.some.inj this) h1

theorem WriteTW88S_log_of_ok {σ : Type} (d : I2cBus σ) (t : List reg_value) :
    ∀ w : World σ, (WriteTW88S d w t).1 = 0 →
      (WriteTW88S d w t).2.log = w.log ++ table_txns t := by
  induction t with
  | nil =>
    intro w _
    simp [WriteTW88S, table_txns]
  | cons c cs ih =>
    intro w h
    unfold WriteTW88S at h ⊢
    dsimp only at h ⊢
    by_cases h1 : (WriteTW88 d w c.reg c.value).1 = 0
    · rw [if_neg (by simp [h1])] at h ⊢
      rw [ih _ h, WriteTW88_log]
      simp [table_txns]
    · rw [if_pos h1] at h
      exact absurd h h1

theorem write_result_form {σ : Type} (d : I2cBus σ) (w : World σ) (t : List reg_value)
    (i : Nat) (e : Int) (h : write_result d w t i = some e) (he : e ≠ 0) :
    ∃ s : Int, send_result d w t i = some s ∧ s < 2
      ∧ (s < 0 → e = s) ∧ (0 ≤ s → e = - EIO) := by
  unfold write_result at h
  obtain ⟨p, hp0, hp⟩ := Option.map_eq_some'.mp h
  rw [WriteTW88_ret] at hp
  refine ⟨(d.send (write_each d w (t.take i)).dev [p.reg % 256, p.value % 256]).1, ?_, ?_,
    ?_, ?_⟩
  · unfold send_result
    rw [hp0]
    rfl
  · by_contra hc
    rw [if_pos (by omega)] at hp
    exact he hp.symm
  · intro hs
    rw [if_neg (by omega), if_pos hs] at hp
    exact hp.symm
  · intro hs
    by_cases hc : 2 ≤ (d.send (write_each d w (t.take i)).dev [p.reg % 256, p.value % 256]).1
    · rw [if_pos hc] at hp
      exact absurd hp.symm he
    · rw [if_neg hc, if_neg (by omega)] at hp
      exact hp.symm

/-- C20: `WriteTW88S` hands the pairs of its table to `WriteTW88` in index order. If write
`i` is the first whose result `e` is not 0, the pairs 0..i and no others have been
written, and the result of `WriteTW88S` is `e`, which is negative. With `s` what the
transport reported for the send of write `i`, `s` is below 2, `e` is `s` itself when `s`
is negative, and `e` is `-EIO` when `s` is 0 or 1 (a short transfer). `WriteTW88S`
returns 0 if and only if every write returns 0, and then the whole table has been
written. -/
theorem WriteTW88S_contract {σ : Type} (d : I2cBus σ) (w : World σ) (t : List reg_value) :
    (∀ (i : Nat) (e : Int), write_result d w t i = some e → e ≠ 0 →
        (∀ j < i, write_result d w t j = some 0) →
        (WriteTW88S d w t).1 = e
          ∧ (WriteTW88S d w t).2.log = w.log ++ table_txns (t.take (i + 1))
          ∧ e < 0
          ∧ ∃ s : Int, send_result d w t i = some s ∧ s < 2
              ∧ (s < 0 → e = s) ∧ (0 ≤ s → e = - EIO))
      ∧ ((WriteTW88S d w t).1 = 0 ↔ ∀ i < t.length, write_result d w t i = some 0)
      ∧ ((WriteTW88S d w t).1 = 0 → (WriteTW88S d w t).2.log = w.log ++ table_txns t) := by
  refine ⟨?_, WriteTW88S_ok_iff d t w, WriteTW88S_log_of_ok d t w⟩
  intro i e h he hj
  obtain ⟨r1, r2, r3⟩ := WriteTW88S_fails_at d t w i e h he hj
  exact ⟨r1, r2, r3, write_result_form d w t i e h he⟩

/-- Witness of C20: a bus that drops its second send with `-EIO`, so write 1 of a
three-pair table is the first to fail and the pairs 0 and 1 are written; a bus whose
sends are short, where the first write gives `-EIO`; and a bus that reports `-ENXIO`,
where the first write gives `-ENXIO`. -/
theorem WriteTW88S_contract_witness :
    ((WriteTW88S shortBus ⟨(), []⟩ [⟨0xFF, 0x00⟩, ⟨0x03, 0x00⟩, ⟨0x0D, 0xC9⟩]).1 = - EIO
        ∧ send_result shortBus ⟨(), []⟩ [⟨0xFF, 0x00⟩, ⟨0x03, 0x00⟩, ⟨0x0D, 0xC9⟩] 0 = some 1
        ∧ (WriteTW88S shortBus ⟨(), []⟩ [⟨0xFF, 0x00⟩, ⟨0x03, 0x00⟩, ⟨0x0D, 0xC9⟩]).2.log
            = [Txn.wr 0xFF 0x00])
      ∧ ((WriteTW88S nakBus ⟨(), []⟩ [⟨0xFF, 0x00⟩, ⟨0x03, 0x00⟩, ⟨0x0D, 0xC9⟩]).1 = - ENXIO
        ∧ send_result nakBus ⟨(), []⟩ [⟨0xFF, 0x00⟩, ⟨0x03, 0x00⟩, ⟨0x0D, 0xC9⟩] 0
            = some (- ENXIO))
      ∧ (WriteTW88S flakyBus (flakyWorld 1 0) [⟨0xFF, 0x00⟩, ⟨0x03, 0x00⟩, ⟨0x0D, 0xC9⟩]).1
          = - EIO
      ∧ (WriteTW88S flakyBus (flakyWorld 1 0)
            [⟨0xFF, 0x00⟩, ⟨0x03, 0x00⟩, ⟨0x0D, 0xC9⟩]).2.log
          = (flakyWorld 1 0).log
            ++ table_txns (([⟨0xFF, 0x00⟩, ⟨0x03, 0x00⟩, ⟨0x0D, 0xC9⟩] : List reg_value).take
                (1 + 1))
      ∧ - EIO < 0
      ∧ ∃ s : Int, send_result flakyBus (flakyWorld 1 0)
            [⟨0xFF, 0x00⟩, ⟨0x03, 0x00⟩, ⟨0x0D, 0xC9⟩] 1 = some s ∧ s < 2
          ∧ (s < 0 → - EIO = s) ∧ (0 ≤ s → - EIO = - EIO) :=
  ⟨by decide, by decide,
    (WriteTW88S_contract flakyBus (flakyWorld 1 0)
      [⟨0xFF, 0x00⟩, ⟨0x03, 0x00⟩, ⟨0x0D, 0xC9⟩]).1 1 (- EIO) (by decide) (by decide)
    (by decide)⟩

/-! ## Field wait over a list of status bytes -/

theorem pollBus_read (b : Nat) (bs : List Nat) (log : List Txn) (tmp : Nat) (hb : b < 256) :
    ReadTW88 pollBus ⟨b :: bs, log⟩ ISL79987_AFE_STATUS_REG tmp
      = (0, b, ⟨bs, log ++ [Txn.rd 0x03 b]⟩) := by
  simp [ReadTW88, pollBus, ISL79987_AFE_STATUS_REG, Nat.mod_eq_of_lt hb]

theorem wait_loop_poll_step (want : Bool) (fuel b : Nat) (bs : List Nat) (log : List Txn)
    (tmp : Nat) (hb : b < 256) :
    wait_loop pollBus want (fuel + 1) ⟨b :: bs, log⟩ tmp
      = (if vdloss_bit b = true then some (true, b, ⟨bs, log ++ [Txn.rd 0x03 b]⟩)
          else if field_bit b = want then some (false, b, ⟨bs, log ++ [Txn.rd 0x03 b]⟩)
          else wait_loop pollBus want fuel ⟨bs, log ++ [Txn.rd 0x03 b]⟩ b) := by
  rw [wait_loop]
  simp only [pollBus_read b bs log tmp hb, vdloss_bit, field_bit, decide_eq_true_eq]

/-- One loop of the field wait over a list of status bytes: if poll `n` is the first
with the video-loss bit set or the field bit equal to `want`, the loop ends there,
having read the polls 0..n. -/
theorem wait_loop_polls (want : Bool) :
    ∀ (n : Nat) (polls : List Nat) (log : List Txn) (tmp fuel : Nat) (b : Nat),
      (∀ x ∈ polls, x < 256) → n < fuel → polls[n]? = some b →
      (vdloss_bit b = true ∨ field_bit b = want) →
      (∀ m < n, ∀ c, polls[m]? = some c → vdloss_bit c = false ∧ field_bit c ≠ want) →
      wait_loop pollBus want fuel ⟨polls, log⟩ tmp
        = some (vdloss_bit b, b,
            ⟨polls.drop (n + 1), log ++ (polls.take (n + 1)).map (Txn.rd 0x03)⟩) := by
  intro n
  induction n with
  | zero =>
    intro polls log tmp fuel b hb hf hn hstop _
    cases polls with
    | nil => simp at hn
    | cons p ps =>
      simp only [List.getElem?_cons_zero, Option.some.injEq] at hn
      subst hn
      obtain ⟨k, rfl⟩ : ∃ k, fuel = k + 1 := ⟨fuel - 1, by omega⟩
      rw [wait_loop_poll_step want k p ps log tmp (hb p (by simp))]
      by_cases hv : vdloss_bit p = true
      · simp [hv]
      · have hfb : field_bit p = want := by
          rcases hstop with h | h
          · exact absurd h hv
          · exact h
        simp [hv, hfb]
  | succ n ih =>
    intro polls log tmp fuel b hb hf hn hstop hbefore
    cases polls with
    | nil => simp at hn
    | cons p ps =>
      simp only [List.getElem?_cons_succ] at hn
      obtain ⟨k, rfl⟩ : ∃ k, fuel = k + 1 := ⟨fuel - 1, by omega⟩
      have h0 := hbefore 0 (Nat.succ_pos n) p (by simp)
      rw [wait_loop_poll_step want k p ps log tmp (hb p (by simp))]
      rw [if_neg (by simp [h0.1]), if_neg h0.2]
      rw [ih ps (log ++ [Txn.rd 0x03 p]) p k b (fun x hx => hb x (by simp [hx]))
        (by omega) hn hstop
        (fun m hm c hc => hbefore (m + 1) (by omega) c (by simpa using hc))]
      simp

theorem pollBus_write (polls : List Nat) (log : List Txn) (reg val : Nat) :
    WriteTW88 pollBus ⟨polls, log⟩ reg val
      = (0, ⟨polls, log ++ [Txn.wr (reg % 256) (val % 256)]⟩) := by
  simp [WriteTW88, pollBus]

theorem returning_poll_getElem (target : Bool) (polls : List Nat) (n : Nat)
    (h : ReturningPoll target polls n) :
    ∃ b, polls[n]? = some b ∧ (vdloss_bit b = true ∨ field_bit b = target) := by
  rcases h.1 with ⟨b, hb, hv⟩ | ⟨b, hb, hf, -⟩
  · exact ⟨b, hb, Or.inl hv⟩
  · exact ⟨b, hb, Or.inr hf⟩

/-- The field wait over a list of status bytes ends at the returning poll, having read
the polls up to and including it. -/
theorem wait_field_polls (polls : List Nat) (log : List Txn) (st : isl79987_state)
    (f : Int) (fuel n : Nat) (hd : st.is_dummy = 0) (hb : ∀ x ∈ polls, x < 256)
    (hret : ReturningPoll (decide (f ≠ 0)) polls n) (hfuel : n < fuel) :
    isl79987_wait_field pollBus fuel ⟨polls, log⟩ st f
      = some ((), ⟨polls.drop (n + 1),
          log ++ Txn.wr 0xFF 0x01 :: (polls.take (n + 1)).map (Txn.rd 0x03)⟩) := by
  have hw : (decide (f = 0)) = !(decide (f ≠ 0)) := by
    by_cases hf : f = 0 <;> simp [hf]
  unfold isl79987_wait_field
  rw [if_neg (by simp [hd])]
  dsimp only
  rw [pollBus_write, hw]
  dsimp only
  generalize decide (f ≠ 0) = target at hret ⊢
  generalize pollBus.indet polls % 256 = tmp
  have hlog0 : log ++ Txn.wr 0xFF 0x01 :: (polls.take (n + 1)).map (Txn.rd 0x03)
      = (log ++ [Txn.wr (0xFF % 256) (1 % 256)]) ++ (polls.take (n + 1)).map (Txn.rd 0x03) := by
    simp
  rw [hlog0]
  generalize log ++ [Txn.wr (0xFF % 256) (1 % 256)] = log
  classical
  obtain ⟨bn, hbn, hstopn⟩ := returning_poll_getElem target polls n hret
  have hex : ∃ m : Nat, ∃ c : Nat,
      polls[m]? = some c ∧ (vdloss_bit c = true ∨ field_bit c = !target) := by
    rcases hret.1 with ⟨b, hb1, hv⟩ | ⟨b, -, -, i, -, c, hc, hfc⟩
    · exact ⟨n, b, hb1, Or.inl hv⟩
    · refine ⟨i, c, hc, Or.inr ?_⟩
      cases target <;> cases hfb : field_bit c <;> simp_all
  have hle : Nat.find hex ≤ n := by
    rcases hret.1 with ⟨b, hb1, hv⟩ | ⟨b, -, -, i, hi, c, hc, hfc⟩
    · exact Nat.find_min' hex ⟨b, hb1, Or.inl hv⟩
    · have : Nat.find hex ≤ i := by
        refine Nat.find_min' hex ⟨c, hc, Or.inr ?_⟩
        cases target <;> cases hfb : field_bit c <;> simp_all
      omega
  obtain ⟨ba, hba, hstopa⟩ := Nat.find_spec hex
  have hbefore : ∀ m < Nat.find hex, ∀ c, polls[m]? = some c →
      vdloss_bit c = false ∧ field_bit c ≠ !target := by
    intro m hm c hc
    have hnot := Nat.find_min hex hm
    constructor
    · cases hv : vdloss_bit c
      · rfl
      · exact absurd ⟨c, hc, Or.inl hv⟩ hnot
    · intro hf
      exact hnot ⟨c, hc, Or.inr hf⟩
  rw [wait_loop_polls (!target) (Nat.find hex) polls log tmp fuel ba hb (by omega) hba
    hstopa hbefore]
  by_cases hva : vdloss_bit ba = true
  · have hge : ¬ Nat.find hex < n := fun hlt => hret.2 _ hlt (Or.inl ⟨ba, hba, hva⟩)
    have heq : Nat.find hex = n := by omega
    rw [hva, heq]
  · have hva1 : vdloss_bit ba = false := by
      cases h : vdloss_bit ba
      · rfl
      · exact absurd h hva
    have hfa : field_bit ba = !target := by
      rcases hstopa with h | h
      · exact absurd h hva
      · exact h
    have hne : Nat.find hex ≠ n := by
      intro heq
      rw [heq, hbn] at hba
      have hbb : bn = ba := Option.some.inj hba
      subst hbb
      rcases hstopn with h | h
      · exact hva h
      · rw [h] at hfa
        cases target <;> simp at hfa
    have hlt : Nat.find hex < n := by omega
    rw [hva1]
    dsimp only
    have hn2 : (polls.drop (Nat.find hex + 1))[n - (Nat.find hex + 1)]? = some bn := by
      rw [List.getElem?_drop]
      have : Nat.find hex + 1 + (n - (Nat.find hex + 1)) = n := by omega
      rw [this]
      exact hbn
    have hbefore2 : ∀ m < n - (Nat.find hex + 1), ∀ c,
        (polls.drop (Nat.find hex + 1))[m]? = some c →
        vdloss_bit c = false ∧ field_bit c ≠ target := by
      intro m hm c hc
      rw [List.getElem?_drop] at hc
      have hmn : Nat.find hex + 1 + m < n := by omega
      have hnot := hret.2 _ hmn
      constructor
      · cases hv : vdloss_bit c
        · rfl
        · exact absurd (Or.inl ⟨c, hc, hv⟩) hnot
      · intro hf
        refine hnot (Or.inr ⟨c, hc, hf, Nat.find hex, by omega, ba, hba, ?_⟩)
        rw [hfa]
        cases target <;> simp
    rw [wait_loop_polls target (n - (Nat.find hex + 1)) (polls.drop (Nat.find hex + 1))
      (log ++ (polls.take (Nat.find hex + 1)).map (Txn.rd 0x03)) ba fuel bn
      (fun x hx => hb x (List.mem_of_mem_drop hx)) (by omega) hn2 hstopn hbefore2]
    have h1 : Nat.find hex + 1 + (n - (Nat.find hex + 1) + 1) = n + 1 := by omega
    have htake : polls.take (n + 1)
        = polls.take (Nat.find hex + 1)
          ++ (polls.drop (Nat.find hex + 1)).take (n - (Nat.find hex + 1) + 1) := by
      rw [← h1, List.take_add]
    have hdrop : (polls.drop (Nat.find hex + 1)).drop (n - (Nat.find hex + 1) + 1)
        = polls.drop (n + 1) := by
      rw [List.drop_drop]
      congr 1
    simp only [hdrop, htake, List.map_append, List.append_assoc]

theorem getElem?_lt_length (polls : List Nat) (n b : Nat) (h : polls[n]? = some b) :
    n < polls.length := by
  by_contra hn
  rw [List.getElem?_eq_none (by omega)] at h
  cases h

/-- C15: over a list of status bytes answered to the successive polls of register 0x03,
`isl79987_wait_field(1)` returns at the first poll with the field bit 0x10 set that
comes strictly after a poll with the bit clear, `isl79987_wait_field(0)` at the first
poll with the bit clear strictly after a poll with the bit set, or at a poll with the
video-loss bit 0x80 set if one comes first; the polls read are exactly those up to and
including the returning one, so their number is its index plus one. Hence the function
returns for every poll list that has such an edge or a video-loss byte. -/
theorem wait_field_returning_poll (polls : List Nat) (log : List Txn)
    (st : isl79987_state) (f : Int) (fuel : Nat) (hd : st.is_dummy = 0)
    (hb : ∀ x ∈ polls, x < 256) :
    (∀ n : Nat, ReturningPoll (decide (f ≠ 0)) polls n → n < fuel →
        isl79987_wait_field pollBus fuel ⟨polls, log⟩ st f
            = some ((), ⟨polls.drop (n + 1),
                log ++ Txn.wr 0xFF 0x01 :: (polls.take (n + 1)).map (Txn.rd 0x03)⟩)
          ∧ ((polls.take (n + 1)).map (Txn.rd 0x03)).length = n + 1)
      ∧ ((∃ m : Nat, IsLossPoll polls m ∨ IsEdgePoll (decide (f ≠ 0)) polls m) →
          polls.length ≤ fuel →
          ∃ n : Nat, ReturningPoll (decide (f ≠ 0)) polls n ∧ n < polls.length
            ∧ isl79987_wait_field pollBus fuel ⟨polls, log⟩ st f
                = some ((), ⟨polls.drop (n + 1),
                    log ++ Txn.wr 0xFF 0x01 :: (polls.take (n + 1)).map (Txn.rd 0x03)⟩)) := by
  have hmain : ∀ n : Nat, ReturningPoll (decide (f ≠ 0)) polls n → n < fuel →
      isl79987_wait_field pollBus fuel ⟨polls, log⟩ st f
        = some ((), ⟨polls.drop (n + 1),
            log ++ Txn.wr 0xFF 0x01 :: (polls.take (n + 1)).map (Txn.rd 0x03)⟩) :=
    fun n hret hfuel => wait_field_polls polls log st f fuel n hd hb hret hfuel
  have hlen : ∀ n : Nat, ReturningPoll (decide (f ≠ 0)) polls n → n < polls.length := by
    intro n hret
    obtain ⟨b, hbn, -⟩ := returning_poll_getElem _ polls n hret
    exact getElem?_lt_length polls n b hbn
  constructor
  · intro n hret hfuel
    refine ⟨hmain n hret hfuel, ?_⟩
    have := hlen n hret
    simp
    omega
  · intro hex hfuel
    classical
    have hret : ReturningPoll (decide (f ≠ 0)) polls (Nat.find hex) :=
      ⟨Nat.find_spec hex, fun m hm => Nat.find_min hex hm⟩
    have hl := hlen _ hret
    exact ⟨Nat.find hex, hret, hl, hmain _ hret (by omega)⟩

/-- Witness of C15: for parity 1 over the polls 0x10, 0x00, 0x00, 0x10, 0x10 the first poll
with the bit set after a poll with the bit clear is poll 3; four polls are read. -/
theorem wait_field_returning_poll_witness :
    ReturningPoll (decide ((1 : Int) ≠ 0)) [0x10, 0x00, 0x00, 0x10, 0x10] 3
      ∧ isl79987_wait_field pollBus 5 ⟨[0x10, 0x00, 0x00, 0x10, 0x10], []⟩ realSession 1
          = some ((), ⟨[0x10],
              [Txn.wr 0xFF 0x01, Txn.rd 0x03 0x10, Txn.rd 0x03 0x00, Txn.rd 0x03 0x00,
               Txn.rd 0x03 0x10]⟩)
      ∧ (isl79987_wait_field pollBus 5 ⟨[0x10, 0x00, 0x00, 0x10, 0x10], []⟩ realSession 1
            = some ((), ⟨([0x10, 0x00, 0x00, 0x10, 0x10] : List Nat).drop (3 + 1),
                [] ++ Txn.wr 0xFF 0x01
                  :: (([0x10, 0x00, 0x00, 0x10, 0x10] : List Nat).take (3 + 1)).map
                      (Txn.rd 0x03)⟩)
          ∧ ((([0x10, 0x00, 0x00, 0x10, 0x10] : List Nat).take (3 + 1)).map
              (Txn.rd 0x03)).length = 3 + 1) := by
  have hret : ReturningPoll (decide ((1 : Int) ≠ 0)) [0x10, 0x00, 0x00, 0x10, 0x10] 3 := by
    constructor
    · right
      exact ⟨0x10, rfl, by decide, 1, by decide, 0x00, rfl, by decide⟩
    · intro m hm h
      have hm3 : m = 0 ∨ m = 1 ∨ m = 2 := by omega
      rcases hm3 with rfl | rfl | rfl
      · rcases h with ⟨b, hb, hv⟩ | ⟨b, hb, hf, i, hi, c, hc, hfc⟩
        · simp at hb; subst hb; revert hv; decide
        · omega
      · rcases h with ⟨b, hb, hv⟩ | ⟨b, hb, hf, i, hi, c, hc, hfc⟩
        · simp at hb; subst hb; revert hv; decide
        · simp at hb; subst hb; revert hf; decide
      · rcases h with ⟨b, hb, hv⟩ | ⟨b, hb, hf, i, hi, c, hc, hfc⟩
        · simp at hb; subst hb; revert hv; decide
        · simp at hb; subst hb; revert hf; decide
  exact ⟨hret, rfl,
    (wait_field_returning_poll [0x10, 0x00, 0x00, 0x10, 0x10] [] realSession 1 5 rfl
      (by decide)).1 3 hret (by decide)⟩

/-! ## The hue range -/

/-- C23 at a failing input: the hue value 31, inside the registered range 0..63, makes
`isl79987_s_ctrl` write 64 to hue register 0x15, outside 0..63; the inputs 0..31 go to
33..64 and the inputs 33..63 to 0..30, so no input in the range writes 31. -/
theorem s_ctrl_hue_31_writes_64 :
    (isl79987_s_ctrl regFileBus (regWorld 0) realSession ⟨V4L2_CID_HUE, 31⟩).2.log
        = [Txn.wr 0xFF 0x01, Txn.wr 0x15 64]
      ∧ hue_sw_to_hw 31 = 64 ∧ ¬ (hue_sw_to_hw 31 ≤ 63)
      ∧ (∀ v ≤ 63, hue_sw_to_hw v ≠ 31)
      ∧ (∀ v ≤ 63, v ≠ 31 → hue_sw_to_hw v ≤ 63) := by
  decide

/-! ## Topology after attach and after a media-bus configuration -/

set_option maxRecDepth 1000000 in
theorem sharpness_bits : ∀ r < 256, ∀ v < 16,
    (r &&& 0xF0 ||| v) < 256 ∧ (r &&& 0xF0 ||| v) &&& 0xF0 = r &&& 0xF0
      ∧ (r &&& 0xF0 ||| v) &&& 0x0F = v := by
  decide

set_option maxRecDepth 100000 in
theorem rmw_bits : ∀ r < 256,
    (r ||| 0x10 < 256 ∧ r &&& 0xEF < 256 ∧ r ||| 0x81 < 256 ∧ r &&& 0x7E < 256
        ∧ r &&& 0x7F < 256 ∧ r ||| 0x80 < 256)
      ∧ (r ||| 0x10) &&& 0xEF = r &&& 0xEF ∧ (r &&& 0xEF) &&& 0xEF = r &&& 0xEF
      ∧ (r ||| 0x81) &&& 0x7E = r &&& 0x7E ∧ (r &&& 0x7E) &&& 0x7E = r &&& 0x7E
      ∧ (r &&& 0x7F) &&& 0x7F = r &&& 0x7F ∧ (r ||| 0x80) &&& 0x7F = r &&& 0x7F := by
  decide

theorem s_ctrl_sharpness_log {σ : Type} (d : I2cBus σ) (w : World σ) (st : isl79987_state)
    (v : Nat) (hd : st.is_dummy = 0) (hv : v ≤ 15) :
    ∃ r : Nat, r < 256
      ∧ (isl79987_s_ctrl d w st ⟨V4L2_CID_SHARPNESS, (v : Int)⟩).2.log
          = w.log ++ [Txn.wr 0xFF 0x0F, Txn.rd 0x12 r, Txn.wr 0x12 (r &&& 0xF0 ||| v)] := by
  refine ⟨(ReadTW88_uninit d (WriteTW88 d w 0xFF 0x0F).2 0x12).2.1,
    ReadTW88_uninit_lt _ _ _, ?_⟩
  have hb := sharpness_bits _ (ReadTW88_uninit_lt d (WriteTW88 d w 0xFF 0x0F).2 0x12) v
    (by omega)
  have hu : toU8 (v : Int) = v := toU8_natCast v (by omega)
  simp [isl79987_s_ctrl, V4L2_CID_TEST_PATTERN, V4L2_CID_PIXEL_RATE, V4L2_CID_BRIGHTNESS,
    V4L2_CID_CONTRAST, V4L2_CID_SATURATION, V4L2_CID_HUE, V4L2_CID_BLACK_LEVEL,
    V4L2_CID_AUTO_WHITE_BALANCE, V4L2_CID_SHARPNESS, hd, WriteTW88_log, ReadTW88_uninit_log,
    hu, Nat.mod_eq_of_lt hb.1]

theorem s_ctrl_black_level_log {σ : Type} (d : I2cBus σ) (w : World σ)
    (st : isl79987_state) (val : Int) (hd : st.is_dummy = 0) :
    ∃ r : Nat, r < 256
      ∧ (isl79987_s_ctrl d w st ⟨V4L2_CID_BLACK_LEVEL, val⟩).2.log
          = w.log ++ [Txn.wr 0xFF 0x0F, Txn.rd 0x0C r,
              Txn.wr 0x0C (if val ≠ 0 then r ||| 0x10 else r &&& 0xEF)] := by
  refine ⟨(ReadTW88_uninit d (WriteTW88 d w 0xFF 0x0F).2 0x0C).2.1,
    ReadTW88_uninit_lt _ _ _, ?_⟩
  obtain ⟨⟨b1, b2, -⟩, -⟩ := rmw_bits _ (ReadTW88_uninit_lt d (WriteTW88 d w 0xFF 0x0F).2 0x0C)
  by_cases hval : val = 0 <;>
  simp [isl79987_s_ctrl, V4L2_CID_TEST_PATTERN, V4L2_CID_PIXEL_RATE, V4L2_CID_BRIGHTNESS,
    V4L2_CID_CONTRAST, V4L2_CID_SATURATION, V4L2_CID_HUE, V4L2_CID_BLACK_LEVEL,
    V4L2_CID_AUTO_WHITE_BALANCE, V4L2_CID_SHARPNESS, hd, WriteTW88_log, ReadTW88_uninit_log,
    hval, Nat.mod_eq_of_lt b1, Nat.mod_eq_of_lt b2]

theorem s_ctrl_awb_log {σ : Type} (d : I2cBus σ) (w : World σ)
    (st : isl79987_state) (val : Int) (hd : st.is_dummy = 0) :
    ∃ r : Nat, r < 256
      ∧ (isl79987_s_ctrl d w st ⟨V4L2_CID_AUTO_WHITE_BALANCE, val⟩).2.log
          = w.log ++ [Txn.wr 0xFF 0x0F, Txn.rd 0x80 r,
              Txn.wr 0x80 (if val ≠ 0 then r ||| 0x81 else r &&& 0x7E)] := by
  refine ⟨(ReadTW88_uninit d (WriteTW88 d w 0xFF 0x0F).2 0x80).2.1,
    ReadTW88_uninit_lt _ _ _, ?_⟩
  obtain ⟨⟨-, -, b3, b4, -⟩, -⟩ :=
    rmw_bits _ (ReadTW88_uninit_lt d (WriteTW88 d w 0xFF 0x0F).2 0x80)
  by_cases hval : val = 0 <;>
  simp [isl79987_s_ctrl, V4L2_CID_TEST_PATTERN, V4L2_CID_PIXEL_RATE, V4L2_CID_BRIGHTNESS,
    V4L2_CID_CONTRAST, V4L2_CID_SATURATION, V4L2_CID_HUE, V4L2_CID_BLACK_LEVEL,
    V4L2_CID_AUTO_WHITE_BALANCE, V4L2_CID_SHARPNESS, hd, WriteTW88_log, ReadTW88_uninit_log,
    hval, Nat.mod_eq_of_lt b3, Nat.mod_eq_of_lt b4]

theorem mipi_power_log {σ : Type} (d : I2cBus σ) (w : World σ)
    (st : isl79987_state) (on_ : Bool) (hd : st.is_dummy = 0) :
    ∃ r : Nat, r < 256
      ∧ (isl79987_mipi_power d w st on_).2.log
          = w.log ++ [Txn.wr 0xFF 0x05, Txn.rd 0x00 r,
              Txn.wr 0x00 (if on_ = true then r &&& 0x7F else r ||| 0x80)] := by
  refine ⟨(ReadTW88_uninit d (WriteTW88 d w 0xff 5).2 0x00).2.1,
    ReadTW88_uninit_lt _ _ _, ?_⟩
  obtain ⟨⟨-, -, -, -, b5, b6⟩, -⟩ :=
    rmw_bits _ (ReadTW88_uninit_lt d (WriteTW88 d w 0xff 5).2 0x00)
  cases on_ <;>
  simp [isl79987_mipi_power, hd, WriteTW88_log, ReadTW88_uninit_log,
    Nat.mod_eq_of_lt b5, Nat.mod_eq_of_lt b6]

theorem SW_reset_log {σ : Type} (d : I2cBus σ) (w : World σ)
    (st : isl79987_state) (hd : st.is_dummy = 0) :
    ∃ r : Nat, r < 256
      ∧ (isl79987_SW_reset d w st).2.log
          = w.log ++ [Txn.wr 0xFF 0x00, Txn.rd 0x02 r, Txn.wr 0x02 (r ||| 0x80)] := by
  refine ⟨(ReadTW88_uninit d (WriteTW88 d w 0xff 0).2 0x02).2.1,
    ReadTW88_uninit_lt _ _ _, ?_⟩
  obtain ⟨⟨-, -, -, -, -, b6⟩, -⟩ :=
    rmw_bits _ (ReadTW88_uninit_lt d (WriteTW88 d w 0xff 0).2 0x02)
  simp [isl79987_SW_reset, hd, WriteTW88_log, ReadTW88_uninit_log, Nat.mod_eq_of_lt b6]

/-- C22: on a session that is not simulated and over any bus, each read-modify-write
operation issues a bank select, one read giving `r` and one write to the same register,
and the byte written agrees with `r` on every bit outside the operation's mask:
sharpness `v` in 0..15 writes `(r &&& 0xF0) ||| v` to register 0x12 of bank 0x0F (mask
0x0F), black level writes `r ||| 0x10` or `r &&& 0xEF` to register 0x0C (mask 0x10),
auto white balance writes `r ||| 0x81` or `r &&& 0x7E` to register 0x80 (mask 0x81),
`isl79987_mipi_power` writes `r &&& 0x7F` (on) or `r ||| 0x80` (off) to register 0x00 of
bank 5 (mask 0x80), and `isl79987_SW_reset` writes `r ||| 0x80` to register 0x02 of
bank 0 (mask 0x80). -/
theorem rmw_only_own_mask {σ : Type} (d : I2cBus σ) (w : World σ) (st : isl79987_state)
    (v : Nat) (val : Int) (on_ : Bool) (hd : st.is_dummy = 0) (hv : v ≤ 15) :
    IsRmw w.log (isl79987_s_ctrl d w st ⟨V4L2_CID_SHARPNESS, (v : Int)⟩).2.log
        0x0F 0x12 0x0F (fun r => r &&& 0xF0 ||| v)
      ∧ IsRmw w.log (isl79987_s_ctrl d w st ⟨V4L2_CID_BLACK_LEVEL, val⟩).2.log
        0x0F 0x0C 0x10 (fun r => if val ≠ 0 then r ||| 0x10 else r &&& 0xEF)
      ∧ IsRmw w.log (isl79987_s_ctrl d w st ⟨V4L2_CID_AUTO_WHITE_BALANCE, val⟩).2.log
        0x0F 0x80 0x81 (fun r => if val ≠ 0 then r ||| 0x81 else r &&& 0x7E)
      ∧ IsRmw w.log (isl79987_mipi_power d w st on_).2.log
        0x05 0x00 0x80 (fun r => if on_ = true then r &&& 0x7F else r ||| 0x80)
      ∧ IsRmw w.log (isl79987_SW_reset d w st).2.log
        0x00 0x02 0x80 (fun r => r ||| 0x80) := by
  refine ⟨?_, ?_, ?_, ?_, ?_⟩
  · obtain ⟨r, hr, hlog⟩ := s_ctrl_sharpness_log d w st v hd hv
    exact ⟨r, hr, hlog, (sharpness_bits r hr v (by omega)).2.1⟩
  · obtain ⟨r, hr, hlog⟩ := s_ctrl_black_level_log d w st val hd
    refine ⟨r, hr, hlog, ?_⟩
    obtain ⟨-, h1, h2, -⟩ := rmw_bits r hr
    by_cases hval : val = 0
    · simpa [hval] using h2
    · simpa [hval] using h1
  · obtain ⟨r, hr, hlog⟩ := s_ctrl_awb_log d w st val hd
    refine ⟨r, hr, hlog, ?_⟩
    obtain ⟨-, -, -, h3, h4, -⟩ := rmw_bits r hr
    by_cases hval : val = 0
    · simpa [hval] using h4
    · simpa [hval] using h3
  · obtain ⟨r, hr, hlog⟩ := mipi_power_log d w st on_ hd
    refine ⟨r, hr, hlog, ?_⟩
    obtain ⟨-, -, -, -, -, h5, h6⟩ := rmw_bits r hr
    cases on_
    · simpa using h6
    · simpa using h5
  · obtain ⟨r, hr, hlog⟩ := SW_reset_log d w st hd
    exact ⟨r, hr, hlog, (rmw_bits r hr).2.2.2.2.2.2⟩

/-- Witness of C22: the register-file chip with 0xA5 in every register, sharpness 7,
black level and auto white balance on, power on. -/
theorem rmw_only_own_mask_witness :
    (realSession.is_dummy = 0 ∧ 7 ≤ 15)
      ∧ (isl79987_s_ctrl regFileBus (regWorld 0xA5) realSession
            ⟨V4L2_CID_SHARPNESS, 7⟩).2.log
          = [Txn.wr 0xFF 0x0F, Txn.rd 0x12 0xA5, Txn.wr 0x12 0xA7]
      ∧ (isl79987_mipi_power regFileBus (regWorld 0xA5) realSession true).2.log
          = [Txn.wr 0xFF 0x05, Txn.rd 0x00 0xA5, Txn.wr 0x00 0x25]
      ∧ (IsRmw (regWorld 0xA5).log
          (isl79987_s_ctrl regFileBus (regWorld 0xA5) realSession
            ⟨V4L2_CID_SHARPNESS, ((7 : Nat) : Int)⟩).2.log
          0x0F 0x12 0x0F (fun r => r &&& 0xF0 ||| 7)
        ∧ IsRmw (regWorld 0xA5).log
          (isl79987_s_ctrl regFileBus (regWorld 0xA5) realSession
            ⟨V4L2_CID_BLACK_LEVEL, 1⟩).2.log
          0x0F 0x0C 0x10 (fun r => if (1 : Int) ≠ 0 then r ||| 0x10 else r &&& 0xEF)
        ∧ IsRmw (regWorld 0xA5).log
          (isl79987_s_ctrl regFileBus (regWorld 0xA5) realSession
            ⟨V4L2_CID_AUTO_WHITE_BALANCE, 1⟩).2.log
          0x0F 0x80 0x81 (fun r => if (1 : Int) ≠ 0 then r ||| 0x81 else r &&& 0x7E)
        ∧ IsRmw (regWorld 0xA5).log
          (isl79987_mipi_power regFileBus (regWorld 0xA5) realSession true).2.log
          0x05 0x00 0x80 (fun r => if true = true then r &&& 0x7F else r ||| 0x80)
        ∧ IsRmw (regWorld 0xA5).log (isl79987_SW_reset regFileBus (regWorld 0xA5)
            realSession).2.log
          0x00 0x02 0x80 (fun r => r ||| 0x80)) :=
  ⟨by decide, by decide, by decide,
    rmw_only_own_mask regFileBus (regWorld 0xA5) realSession 7 1 true rfl (by decide)⟩

/-! ## Stream start and stop -/

/-- A loop of the field wait that ends has made one or more reads of status register
0x03 and nothing else; the byte it ends on is the last one read. -/
theorem wait_loop_log {σ : Type} (d : I2cBus σ) (want : Bool) :
    ∀ (fuel : Nat) (w : World σ) (tmp : Nat) (b : Bool) (t : Nat) (w1 : World σ),
      wait_loop d want fuel w tmp = some (b, t, w1) →
        ∃ vs : List Nat, w1.log = w.log ++ (vs ++ [t]).map (Txn.rd 0x03)
          ∧ (b = true → t &&& 0x80 ≠ 0)
          ∧ (b = false → decide (t &&& 0x10 ≠ 0) = want) := by
  intro fuel
  induction fuel with
  | zero =>
    intro w tmp b t w1 h
    simp [wait_loop] at h
  | succ n ih =>
    intro w tmp b t w1 h
    unfold wait_loop at h
    dsimp only at h
    split_ifs at h with h1 h2
    · simp only [Option.some.injEq, Prod.mk.injEq] at h
      obtain ⟨hb, ht, hw⟩ := h
      refine ⟨[], ?_, ?_, ?_⟩
      · rw [← hw, ← ht, ReadTW88_log]
        rfl
      · intro _
        rw [← ht]
        exact h1
      · intro hf
        rw [hf] at hb
        cases hb
    · simp only [Option.some.injEq, Prod.mk.injEq] at h
      obtain ⟨hb, ht, hw⟩ := h
      refine ⟨[], ?_, ?_, ?_⟩
      · rw [← hw, ← ht, ReadTW88_log]
        rfl
      · intro hf
        rw [hf] at hb
        cases hb
      · intro _
        rw [← ht]
        exact h2
    · obtain ⟨vs, hlog, hb1, hb2⟩ := ih _ _ b t w1 h
      refine ⟨(ReadTW88 d w ISL79987_AFE_STATUS_REG tmp).2.1 :: vs, ?_, hb1, hb2⟩
      rw [hlog, ReadTW88_log]
      simp [ISL79987_AFE_STATUS_REG]

set_option maxRecDepth 100000 in
theorem stream_bits : ∀ r < 256, (r ||| 0x10) &&& 0x10 = 0x10 ∧ (r &&& 0xEF) &&& 0x10 = 0 := by
  decide

theorem returning_poll_script : ReturningPoll true [0x00, 0x00, 0x10, 0x15, 0x10] 2 := by
  refine ⟨Or.inr ⟨0x10, rfl, by decide, 0, by decide, 0x00, rfl, by decide⟩, ?_⟩
  intro m hm
  have hm2 : m = 0 ∨ m = 1 := by omega
  rintro (⟨b, hb, hv⟩ | ⟨b, hb, hf, -⟩)
  · rcases hm2 with rfl | rfl <;>
      · simp only [List.getElem?_cons_zero, List.getElem?_cons_succ, Option.some.injEq] at hb
        subst hb
        revert hv
        decide
  · rcases hm2 with rfl | rfl <;>
      · simp only [List.getElem?_cons_zero, List.getElem?_cons_succ, Option.some.injEq] at hb
        subst hb
        revert hf
        decide

/-- A stream start whose field wait leaves the world `w2` returns 0 with `streaming`
true, after the MIPI reset in mode CLEAR and the status read for the debug message. -/
theorem s_stream_of_wait {σ : Type} (d : I2cBus σ) (fuel : Nat) (w w2 : World σ)
    (st : isl79987_state) (enable : Int) (he : enable ≠ 0)
    (h : isl79987_wait_field d fuel
        (isl79987_mipi_reset d w { st with streaming := true } MIPI_RESET_SET).2
        { st with streaming := true } 1 = some ((), w2)) :
    isl79987_s_stream d fuel w st enable
      = some (0, { st with streaming := true },
          (ReadTW88_uninit d (WriteTW88 d
            (isl79987_mipi_reset d w2 { st with streaming := true } MIPI_RESET_CLEAR).2
            0xFF 1).2 ISL79987_AFE_STATUS_REG).2.2) := by
  unfold isl79987_s_stream
  simp only [he, ne_eq, not_false_eq_true, if_true, and_self]
  rw [h]
  dsimp only
  congr 2
  unfold isl79987_mipi_reset
  split_ifs <;> rfl

theorem mipi_reset_set_poll (r1 : Nat) (polls : List Nat) (log : List Txn)
    (st : isl79987_state) (hd : st.is_dummy = 0) (hr1 : r1 < 256) :
    (isl79987_mipi_reset pollBus ⟨r1 :: polls, log⟩ st MIPI_RESET_SET).2
      = ⟨polls, log ++ [Txn.wr 0xFF 0x00, Txn.rd 0x02 r1, Txn.wr 0x02 (r1 ||| 0x10)]⟩ := by
  have hb : (r1 ||| 0x10) % 256 = r1 ||| 0x10 := Nat.mod_eq_of_lt (rmw_bits r1 hr1).1.1
  simp [isl79987_mipi_reset, hd, WriteTW88, ReadTW88_uninit, ReadTW88, pollBus,
    mipi_reset_bits, MIPI_RESET_SET, MIPI_RESET_CLEAR, Nat.mod_eq_of_lt hr1, hb]

/-- C25: over a scripted chip that answers `r1` to the read of the reset register and
then the status bytes `polls`, where poll `n` is the first that shows video loss or is
an edge towards field 1 and the rounds allowed exceed `n`, a stream start (`enable`
other than 0) on a session that is not simulated returns 0, leaves `streaming` true, and
has issued, in this order: the bank-0 select, the read of register 0x02 and the write of
`r1` with bit 4 set; the page-1 select and the `n + 1` polls of status register 0x03 up
to the returning one; the bank-0 select, the read of register 0x02 and the write of the
byte read with bit 4 cleared; and the page-1 select and status read made for the debug
message. Over any bus, a stream stop issues nothing, returns 0 and leaves `streaming`
false. -/
theorem s_stream_start_stop {σ : Type} (d : I2cBus σ) (w : World σ) (r1 : Nat)
    (polls : List Nat) (log : List Txn) (st : isl79987_state) (enable : Int)
    (fuel n : Nat) (hd : st.is_dummy = 0) (he : enable ≠ 0) (hr1 : r1 < 256)
    (hb : ∀ x ∈ polls, x < 256) (hret : ReturningPoll true polls n) (hfuel : n < fuel) :
    (∃ (w3 : World (List Nat)) (r2 s : Nat),
        isl79987_s_stream pollBus fuel ⟨r1 :: polls, log⟩ st enable
            = some (0, { st with streaming := true }, w3)
          ∧ w3.log = log
              ++ [Txn.wr 0xFF 0x00, Txn.rd 0x02 r1, Txn.wr 0x02 (r1 ||| 0x10)]
              ++ Txn.wr 0xFF 0x01 :: (polls.take (n + 1)).map (Txn.rd 0x03)
              ++ [Txn.wr 0xFF 0x00, Txn.rd 0x02 r2, Txn.wr 0x02 (r2 &&& 0xEF)]
              ++ [Txn.wr 0xFF 0x01, Txn.rd 0x03 s]
          ∧ ((polls.take (n + 1)).map (Txn.rd 0x03)).length = n + 1
          ∧ (r1 ||| 0x10) &&& 0x10 = 0x10 ∧ (r2 &&& 0xEF) &&& 0x10 = 0)
      ∧ isl79987_s_stream d fuel w st 0 = some (0, { st with streaming := false }, w) := by
  have hd1 : ({ st with streaming := true } : isl79987_state).is_dummy = 0 := hd
  constructor
  · have hret1 : ReturningPoll (decide ((1 : Int) ≠ 0)) polls n := by simpa using hret
    have hwait := wait_field_polls polls
      (log ++ [Txn.wr 0xFF 0x00, Txn.rd 0x02 r1, Txn.wr 0x02 (r1 ||| 0x10)])
      { st with streaming := true } 1 fuel n hd1 hb hret1 hfuel
    rw [← mipi_reset_set_poll r1 polls log { st with streaming := true } hd1 hr1] at hwait
    obtain ⟨w2, hw2⟩ : ∃ w2 : World (List Nat), w2 = ⟨polls.drop (n + 1),
        log ++ [Txn.wr 0xFF 0x00, Txn.rd 0x02 r1, Txn.wr 0x02 (r1 ||| 0x10)]
          ++ Txn.wr 0xFF 0x01 :: (polls.take (n + 1)).map (Txn.rd 0x03)⟩ := ⟨_, rfl⟩
    rw [← hw2] at hwait
    have hs := s_stream_of_wait pollBus fuel ⟨r1 :: polls, log⟩ w2 st enable he hwait
    obtain ⟨r2, hr2, hlog2⟩ := mipi_reset_log pollBus w2
      { st with streaming := true } MIPI_RESET_CLEAR hd1
    refine ⟨_, r2,
      (ReadTW88_uninit pollBus (WriteTW88 pollBus
        (isl79987_mipi_reset pollBus w2 { st with streaming := true } MIPI_RESET_CLEAR).2
        0xFF 1).2 ISL79987_AFE_STATUS_REG).2.1,
      hs, ?_, ?_, (stream_bits r1 hr1).1, (stream_bits r2 hr2).2⟩
    · rw [ReadTW88_uninit_log, WriteTW88_log, hlog2, hw2]
      simp [mipi_reset_txns, mipi_reset_bits, MIPI_RESET_SET, MIPI_RESET_CLEAR,
        ISL79987_AFE_STATUS_REG]
    · obtain ⟨b, hbn, -⟩ := returning_poll_getElem _ polls n hret
      have := getElem?_lt_length polls n b hbn
      simp
      omega
  · unfold isl79987_s_stream
    cases hs : st.streaming <;> simp [hs]
    cases st
    simp_all

/-- Witness of C25: the reset register reads 0x05, the status polls see field 0,
field 0, field 1 (the returning poll, number 2), the reset register then reads 0x15 and
the last status read 0x10. -/
theorem s_stream_start_stop_witness :
    (realSession.is_dummy = 0 ∧ (1 : Int) ≠ 0 ∧ 0x05 < 256
        ∧ (∀ x ∈ [0x00, 0x00, 0x10, 0x15, 0x10], x < 256)
        ∧ ReturningPoll true [0x00, 0x00, 0x10, 0x15, 0x10] 2 ∧ 2 < 5)
      ∧ (isl79987_s_stream pollBus 5 streamWorld realSession 1).map
          (fun r => (r.1, r.2.1.streaming, r.2.2.log))
        = some (0, true,
            [Txn.wr 0xFF 0x00, Txn.rd 0x02 0x05, Txn.wr 0x02 0x15,
             Txn.wr 0xFF 0x01, Txn.rd 0x03 0x00, Txn.rd 0x03 0x00, Txn.rd 0x03 0x10,
             Txn.wr 0xFF 0x00, Txn.rd 0x02 0x15, Txn.wr 0x02 0x05,
             Txn.wr 0xFF 0x01, Txn.rd 0x03 0x10])
      ∧ (∃ (w3 : World (List Nat)) (r2 s : Nat),
          isl79987_s_stream pollBus 5 ⟨0x05 :: [0x00, 0x00, 0x10, 0x15, 0x10], []⟩
              realSession 1
            = some (0, { realSession with streaming := true }, w3)
          ∧ w3.log = []
              ++ [Txn.wr 0xFF 0x00, Txn.rd 0x02 0x05, Txn.wr 0x02 (0x05 ||| 0x10)]
              ++ Txn.wr 0xFF 0x01
                  :: (([0x00, 0x00, 0x10, 0x15, 0x10] : List Nat).take (2 + 1)).map
                      (Txn.rd 0x03)
              ++ [Txn.wr 0xFF 0x00, Txn.rd 0x02 r2, Txn.wr 0x02 (r2 &&& 0xEF)]
              ++ [Txn.wr 0xFF 0x01, Txn.rd 0x03 s]
          ∧ ((([0x00, 0x00, 0x10, 0x15, 0x10] : List Nat).take (2 + 1)).map
                (Txn.rd 0x03)).length = 2 + 1
          ∧ (0x05 ||| 0x10) &&& 0x10 = 0x10 ∧ (r2 &&& 0xEF) &&& 0x10 = 0) :=
  ⟨⟨rfl, by decide, by decide, by decide, returning_poll_script, by decide⟩, by decide,
    (s_stream_start_stop pollBus streamWorld 0x05 [0x00, 0x00, 0x10, 0x15, 0x10] []
      realSession 1 5 2 rfl (by decide) (by decide) (by decide) returning_poll_script
      (by decide)).1⟩

/-! ## Register contents after a download

On the register-file chip every step of the download starts with a bank select, so
what a step leaves in the three watched places does not depend on the bank selected
before it. -/

theorem default_table_regs (w : World RegFile) :
    watched (WriteTW88S regFileBus w isl79987_regs_default).2.dev
      = (5, 0xE4, w.dev.mem 0 0x02) := rfl

theorem decoder_table_regs (w : World RegFile) :
    watched (WriteTW88S regFileBus w isl79987_decoder).2.dev
      = (0x0F, w.dev.mem 5 0x04, w.dev.mem 0 0x02) := rfl

theorem decoder_ntsc_regs (w : World RegFile) :
    watched (WriteTW88S regFileBus w isl79987_regs_decoder_ntsc).2.dev
      = (0x0F, w.dev.mem 5 0x04, w.dev.mem 0 0x02) := rfl

theorem decoder_pal_regs (w : World RegFile) :
    watched (WriteTW88S regFileBus w isl79987_regs_decoder_pal).2.dev
      = (0x0F, w.dev.mem 5 0x04, w.dev.mem 0 0x02) := rfl

theorem mipi_ntsc_regs (w : World RegFile) :
    watched (WriteTW88S regFileBus w isl79987_regs_mipi_ntsc).2.dev
      = (5, w.dev.mem 5 0x04, w.dev.mem 0 0x02) := rfl

theorem mipi_pal_regs (w : World RegFile) :
    watched (WriteTW88S regFileBus w isl79987_regs_mipi_pal).2.dev
      = (5, w.dev.mem 5 0x04, w.dev.mem 0 0x02) := rfl

theorem lane_4Ch2Lane_regs (w : World RegFile) :
    watched (WriteTW88S regFileBus w isl79987_4Ch2Lane).2.dev
      = (5, 0xE4, w.dev.mem 0 0x02) := rfl

theorem lane_4Ch1Lane_regs (w : World RegFile) :
    watched (WriteTW88S regFileBus w isl79987_4Ch1Lane).2.dev
      = (5, 0xE4, w.dev.mem 0 0x02) := rfl

theorem lane_2Ch2Lane_regs (w : World RegFile) :
    watched (WriteTW88S regFileBus w isl79987_2Ch2Lane).2.dev
      = (5, 0xE4, w.dev.mem 0 0x02) := rfl

theorem lane_2Ch1Lane_regs (w : World RegFile) :
    watched (WriteTW88S regFileBus w isl79987_2Ch1Lane).2.dev
      = (5, 0xE4, w.dev.mem 0 0x02) := rfl

theorem lane_1Ch1Lane_regs (w : World RegFile) :
    watched (WriteTW88S regFileBus w isl79987_1Ch1Lane).2.dev
      = (5, 0xE4, w.dev.mem 0 0x02) := rfl

theorem mipi_reset_regs (w : World RegFile) (st : isl79987_state) (flag_set : Int)
    (hd : st.is_dummy = 0) :
    watched (isl79987_mipi_reset regFileBus w st flag_set).2.dev
      = (0, w.dev.mem 5 0x04, mipi_reset_bits flag_set (w.dev.mem 0 0x02 % 256) % 256) := by
  unfold isl79987_mipi_reset
  rw [if_neg (by simp [hd])]
  rfl

theorem decoder_step_regs (w : World RegFile) (curr_norm : Nat) :
    watched (if curr_norm &&& V4L2_STD_525_60 ≠ 0 then
        (WriteTW88S regFileBus w isl79987_regs_decoder_ntsc).2
      else (WriteTW88S regFileBus w isl79987_regs_decoder_pal).2).dev
      = (0x0F, w.dev.mem 5 0x04, w.dev.mem 0 0x02) := by
  split_ifs <;> rfl

theorem mipi_step_regs (w : World RegFile) (curr_norm : Nat) :
    watched (if curr_norm &&& V4L2_STD_525_60 ≠ 0 then
        (WriteTW88S regFileBus w isl79987_regs_mipi_ntsc).2
      else (WriteTW88S regFileBus w isl79987_regs_mipi_pal).2).dev
      = (5, w.dev.mem 5 0x04, w.dev.mem 0 0x02) := by
  split_ifs <;> rfl

theorem lane_step_regs (w : World RegFile) (chs lanes : Int) :
    watched (if chs = 1 then (WriteTW88S regFileBus w isl79987_1Ch1Lane).2
      else if chs = 2 then
        if lanes = 1 then (WriteTW88S regFileBus w isl79987_2Ch1Lane).2
        else (WriteTW88S regFileBus w isl79987_2Ch2Lane).2
      else
        if lanes = 1 then (WriteTW88S regFileBus w isl79987_4Ch1Lane).2
        else (WriteTW88S regFileBus w isl79987_4Ch2Lane).2).dev
      = (5, 0xE4, w.dev.mem 0 0x02) := by
  split_ifs <;> rfl

theorem set_vc_regs (w : World RegFile) (st : isl79987_state) (vc : Nat)
    (hd : st.is_dummy = 0) :
    watched (isl79987_csi2_set_virtual_channel regFileBus w st vc).2.dev
      = (5, vc % 256, w.dev.mem 0 0x02) := by
  unfold isl79987_csi2_set_virtual_channel
  rw [if_neg (by simp [hd])]
  show (5, vc % 256 % 256, w.dev.mem 0 0x02) = _
  rw [Nat.mod_mod]

theorem vc_step_regs (w : World RegFile) (st : isl79987_state) (hd : st.is_dummy = 0)
    (h5 : w.dev.mem 5 0x04 = 0xE4) :
    (watched (if st.vc ≠ 0 then
        (isl79987_csi2_set_virtual_channel regFileBus w st st.vc).2 else w).dev).2
      = (if st.vc ≠ 0 then st.vc % 256 else 0xE4, w.dev.mem 0 0x02) := by
  split_ifs with h
  · rw [set_vc_regs w st st.vc hd]
  · simp [watched, h5]

theorem pseudo_frame_regs (w : World RegFile) (st : isl79987_state) :
    watched (download_pseudo_frame regFileBus w st).dev
      = (5, (st.vc &&& 0x03) * 0x55, w.dev.mem 0 0x02) := by
  have h3 : st.vc &&& 0x03 ≤ 3 := Nat.and_le_right
  have hv : st.vc &&& 0x03 = 0 ∨ st.vc &&& 0x03 = 1 ∨ st.vc &&& 0x03 = 2
      ∨ st.vc &&& 0x03 = 3 := by omega
  unfold download_pseudo_frame
  dsimp only
  rcases hv with h | h | h | h <;> simp only [h] <;> split_ifs <;>
    first | rfl | contradiction

theorem pseudo_step_regs (w : World RegFile) (st : isl79987_state) (x : Nat)
    (h5 : w.dev.mem 5 0x04 = x) :
    (watched (if st.pseudo ≠ 0 then download_pseudo_frame regFileBus w st else w).dev).2
      = (if st.pseudo ≠ 0 then (st.vc &&& 0x03) * 0x55 else x, w.dev.mem 0 0x02) := by
  split_ifs with h
  · rw [pseudo_frame_regs w st]
  · simp [watched, h5]

set_option maxRecDepth 100000 in
theorem download_reset_bits : ∀ m < 256,
    mipi_reset_bits MIPI_RESET_CLEAR
        (mipi_reset_bits MIPI_RESET_CH_CLEAR
          (mipi_reset_bits MIPI_RESET_ALL_SET m % 256 % 256) % 256 % 256) % 256
      = m &&& 0xE0 := by
  decide

set_option maxRecDepth 100000 in
theorem reset_released_bits : ∀ m < 256,
    (m &&& 0xE0) &&& 0x1F = 0 ∧ (m &&& 0xE0) &&& 0xE0 = m &&& 0xE0 := by
  decide

/-- On the register-file chip, a download on a session that is not simulated leaves
bank 0 selected, the virtual-channel map as the last of the lane table, the
virtual-channel write and the pseudo-frame sequence wrote it, and register 0x02 of bank
0 with bits 4..0 cleared. -/
theorem download_regs (w : World RegFile) (st : isl79987_state) (hd : st.is_dummy = 0) :
    watched (isl79987_download_chip_registers regFileBus w st).2.dev
      = (0,
          if st.pseudo ≠ 0 then (st.vc &&& 0x03) * 0x55
          else if st.vc ≠ 0 then st.vc % 256 else 0xE4,
          (w.dev.mem 0 0x02 % 256) &&& 0xE0) := by
  unfold isl79987_download_chip_registers
  rw [if_neg (by simp [hd])]
  dsimp only
  have h1 := mipi_reset_regs w st MIPI_RESET_ALL_SET hd
  generalize (isl79987_mipi_reset regFileBus w st MIPI_RESET_ALL_SET).2 = w1 at h1 ⊢
  have h2 := default_table_regs w1
  generalize (WriteTW88S regFileBus w1 isl79987_regs_default).2 = w2 at h2 ⊢
  have h3 := mipi_reset_regs w2 st MIPI_RESET_CH_CLEAR hd
  generalize (isl79987_mipi_reset regFileBus w2 st MIPI_RESET_CH_CLEAR).2 = w3 at h3 ⊢
  have h4 := decoder_table_regs w3
  generalize (WriteTW88S regFileBus w3 isl79987_decoder).2 = w4 at h4 ⊢
  have h5 := decoder_step_regs w4 st.curr_norm
  generalize (if st.curr_norm &&& V4L2_STD_525_60 ≠ 0 then
      (WriteTW88S regFileBus w4 isl79987_regs_decoder_ntsc).2
    else (WriteTW88S regFileBus w4 isl79987_regs_decoder_pal).2) = w5 at h5 ⊢
  have h6 := lane_step_regs w5 st.chs st.lanes
  generalize (if st.chs = 1 then (WriteTW88S regFileBus w5 isl79987_1Ch1Lane).2
    else if st.chs = 2 then
      if st.lanes = 1 then (WriteTW88S regFileBus w5 isl79987_2Ch1Lane).2
      else (WriteTW88S regFileBus w5 isl79987_2Ch2Lane).2
    else
      if st.lanes = 1 then (WriteTW88S regFileBus w5 isl79987_4Ch1Lane).2
      else (WriteTW88S regFileBus w5 isl79987_4Ch2Lane).2) = w6 at h6 ⊢
  simp only [watched, Prod.mk.injEq] at h1 h2 h3 h4 h5 h6
  have h7 := vc_step_regs w6 st hd h6.2.1
  generalize (if st.vc ≠ 0 then
      (isl79987_csi2_set_virtual_channel regFileBus w6 st st.vc).2 else w6) = w7 at h7 ⊢
  have h8 := mipi_step_regs w7 st.curr_norm
  generalize (if st.curr_norm &&& V4L2_STD_525_60 ≠ 0 then
      (WriteTW88S regFileBus w7 isl79987_regs_mipi_ntsc).2
    else (WriteTW88S regFileBus w7 isl79987_regs_mipi_pal).2) = w8 at h8 ⊢
  simp only [watched, Prod.mk.injEq] at h7 h8
  have h9 := pseudo_step_regs w8 st _ (h8.2.1.trans h7.1)
  generalize (if st.pseudo ≠ 0 then download_pseudo_frame regFileBus w8 st else w8)
    = w9 at h9 ⊢
  have h10 := mipi_reset_regs w9 st MIPI_RESET_CLEAR hd
  simp only [watched, Prod.mk.injEq] at h9
  rw [h10, h9.1, h9.2, h8.2.2, h7.2, h6.2.2, h5.2.2, h4.2.2, h3.2.2, h2.2.2, h1.2.2,
    download_reset_bits _ (Nat.mod_lt _ (by norm_num))]

/-- C24: on the register-file chip, a download on a session that is not simulated
returns 0 and leaves in register 0x04 of bank 5: with `pseudo` 0, `vc % 256` when `vc`
is not 0 and otherwise the 0xE4 of the channel/lane table; with `pseudo` not 0, the
product `(vc &&& 3) * 0x55`, one of 0x00, 0x55, 0xAA, 0xFF. Between the channel/lane
table and the MIPI table the log holds the bank-5 select and the write of `vc % 256`
to register 0x04 when `vc` is not 0, and nothing when it is 0. -/
theorem download_vc_map (w : World RegFile) (st : isl79987_state)
    (hd : st.is_dummy = 0) :
    (isl79987_download_chip_registers regFileBus w st).1 = 0
      ∧ (isl79987_download_chip_registers regFileBus w st).2.dev.mem 5 0x04
          = (if st.pseudo = 0 then (if st.vc ≠ 0 then st.vc % 256 else 0xE4)
              else (st.vc &&& 0x03) * 0x55)
      ∧ (st.vc &&& 0x03) * 0x55 ∈ [0x00, 0x55, 0xAA, 0xFF]
      ∧ ∃ pre post : List Txn,
          (isl79987_download_chip_registers regFileBus w st).2.log
            = w.log ++ pre
              ++ (lane_table st.chs st.lanes).map
                  (fun c => Txn.wr (c.reg % 256) (c.value % 256))
              ++ (if st.vc ≠ 0 then [Txn.wr 0xFF 0x05, Txn.wr 0x04 (st.vc % 256)] else [])
              ++ (if st.curr_norm &&& V4L2_STD_525_60 ≠ 0 then isl79987_regs_mipi_ntsc
                    else isl79987_regs_mipi_pal).map
                  (fun c => Txn.wr (c.reg % 256) (c.value % 256))
              ++ post := by
  refine ⟨download_ret _ _ _, ?_, ?_, ?_⟩
  · have h := download_regs w st hd
    simp only [watched, Prod.mk.injEq] at h
    rw [h.2.1]
    by_cases hp : st.pseudo = 0 <;> simp [hp]
  · have h3 : st.vc &&& 0x03 ≤ 3 := Nat.and_le_right
    have hv : st.vc &&& 0x03 = 0 ∨ st.vc &&& 0x03 = 1 ∨ st.vc &&& 0x03 = 2
        ∨ st.vc &&& 0x03 = 3 := by omega
    rcases hv with h | h | h | h <;> simp [h]
  · obtain ⟨r1, r2, rp, r3, -, h⟩ := download_log regFileBus regFileBus_writes w st hd
    refine ⟨mipi_reset_txns MIPI_RESET_ALL_SET r1 ++ table_txns isl79987_regs_default
        ++ mipi_reset_txns MIPI_RESET_CH_CLEAR r2 ++ table_txns isl79987_decoder
        ++ table_txns (decoder_table st.curr_norm),
      pseudo_txns st rp ++ mipi_reset_txns MIPI_RESET_CLEAR r3, ?_⟩
    rw [h]
    simp only [download_txns, table_txns, vc_txns, mipi_table, List.append_assoc]

/-- Witness of C24: code 0x39 without and with a pseudo frame, on the register-file
chip with 0 in every register. -/
theorem download_vc_map_witness :
    vcSession.is_dummy = 0
      ∧ (isl79987_download_chip_registers regFileBus (regWorld 0) realSession).2.dev.mem
          5 0x04 = 0xE4
      ∧ (isl79987_download_chip_registers regFileBus (regWorld 0) vcPseudoSession).2.dev.mem
          5 0x04 = 0x55
      ∧ (isl79987_download_chip_registers regFileBus (regWorld 0) vcSession).2.dev.mem
          5 0x04 = 0x39
      ∧ (isl79987_download_chip_registers regFileBus (regWorld 0) vcSession).2.dev.mem
          5 0x04
          = (if vcSession.pseudo = 0 then (if vcSession.vc ≠ 0 then vcSession.vc % 256
                else 0xE4)
              else (vcSession.vc &&& 0x03) * 0x55) :=
  ⟨rfl, rfl, rfl, rfl, (download_vc_map (regWorld 0) vcSession rfl).2.1⟩

/-- C27: on the register-file chip, a download on a session that is not simulated
leaves register 0x02 of bank 0 holding the byte it held before with bits 4..0 cleared:
bits 4..0 are zero and bits 7..5 are those of the byte held before, for every topology.
No static table, no virtual-channel write and no pseudo-frame sequence changes that
register, whatever the register file they start from, so only the three
`isl79987_mipi_reset` calls change it. -/
theorem download_reset_register (w : World RegFile) (st : isl79987_state)
    (hd : st.is_dummy = 0) :
    (isl79987_download_chip_registers regFileBus w st).2.dev.mem 0 0x02
        = (w.dev.mem 0 0x02 % 256) &&& 0xE0
      ∧ (isl79987_download_chip_registers regFileBus w st).2.dev.mem 0 0x02 &&& 0x1F = 0
      ∧ (isl79987_download_chip_registers regFileBus w st).2.dev.mem 0 0x02 &&& 0xE0
          = (w.dev.mem 0 0x02 % 256) &&& 0xE0
      ∧ (∀ t ∈ static_tables, ∀ w1 : World RegFile,
          (WriteTW88S regFileBus w1 t).2.dev.mem 0 0x02 = w1.dev.mem 0 0x02)
      ∧ (∀ (w1 : World RegFile) (vc : Nat),
          (isl79987_csi2_set_virtual_channel regFileBus w1 st vc).2.dev.mem 0 0x02
            = w1.dev.mem 0 0x02)
      ∧ (∀ w1 : World RegFile,
          (download_pseudo_frame regFileBus w1 st).dev.mem 0 0x02 = w1.dev.mem 0 0x02) := by
  have h := download_regs w st hd
  simp only [watched, Prod.mk.injEq] at h
  have hb := reset_released_bits _ (Nat.mod_lt (w.dev.mem 0 0x02) (by norm_num))
  refine ⟨h.2.2, ?_, ?_, ?_, ?_, ?_⟩
  · rw [h.2.2]
    exact hb.1
  · rw [h.2.2]
    exact hb.2
  · intro t ht w1
    simp only [static_tables, List.mem_cons, List.mem_singleton, List.not_mem_nil,
      or_false] at ht
    rcases ht with rfl | rfl | rfl | rfl | rfl | rfl | rfl | rfl | rfl | rfl | rfl <;> rfl
  · intro w1 vc
    exact congrArg (fun t => t.2.2) (set_vc_regs w1 st vc hd)
  · intro w1
    exact congrArg (fun t => t.2.2) (pseudo_frame_regs w1 st)

/-- Witness of C27: the four-channel session on the register-file chip with 0xFF in
every register. -/
theorem download_reset_register_witness :
    realSession.is_dummy = 0
      ∧ (isl79987_download_chip_registers regFileBus (regWorld 0xFF) realSession).2.dev.mem
          0 0x02 = 0xE0
      ∧ (isl79987_download_chip_registers regFileBus (regWorld 0xFF) realSession).2.dev.mem
          0 0x02 = ((regWorld 0xFF).dev.mem 0 0x02 % 256) &&& 0xE0 :=
  ⟨rfl, rfl, (download_reset_register (regWorld 0xFF) realSession rfl).1⟩

/-! ## Bank selection -/

theorem Extends.rfl_ (a : List Txn) : Extends a a := ⟨[], by simp⟩

theorem Extends.trans_ {a b c : List Txn} (h1 : Extends a b) (h2 : Extends b c) :
    Extends a c := by
  obtain ⟨r1, rfl⟩ := h1
  obtain ⟨r2, rfl⟩ := h2
  exact ⟨r1 ++ r2, by simp⟩

theorem WriteTW88_extends {σ : Type} (d : I2cBus σ) (w : World σ) (reg val : Nat) :
    Extends w.log (WriteTW88 d w reg val).2.log := ⟨_, WriteTW88_log d w reg val⟩

theorem ReadTW88_extends {σ : Type} (d : I2cBus σ) (w : World σ) (reg old : Nat) :
    Extends w.log (ReadTW88 d w reg old).2.2.log := ⟨_, ReadTW88_log d w reg old⟩

theorem ReadTW88_uninit_extends {σ : Type} (d : I2cBus σ) (w : World σ) (reg : Nat) :
    Extends w.log (ReadTW88_uninit d w reg).2.2.log := ⟨_, ReadTW88_uninit_log d w reg⟩

theorem TestPattern_extends {σ : Type} (d : I2cBus σ) (w : World σ) (pad : Nat)
    (fOn : Int) : Extends w.log (isl79987_csi2_enable_TestPattern d w pad fOn).log := by
  unfold isl79987_csi2_enable_TestPattern
  exact ((WriteTW88_extends _ _ _ _).trans_ (ReadTW88_uninit_extends _ _ _)).trans_
    (WriteTW88_extends _ _ _ _)

theorem TestPattern_extends_select {σ : Type} (d : I2cBus σ) (w : World σ) (pad : Nat)
    (fOn : Int) :
    Extends (WriteTW88 d w 0xFF 5).2.log (isl79987_csi2_enable_TestPattern d w pad fOn).log := by
  unfold isl79987_csi2_enable_TestPattern
  exact (ReadTW88_uninit_extends _ _ _).trans_ (WriteTW88_extends _ _ _ _)

theorem selects_of_extends {σ : Type} (d : I2cBus σ) (w : World σ) (v : Nat)
    (l : List Txn) (h : Extends (WriteTW88 d w 0xFF v).2.log l) : SelectsFirst w.log l := by
  obtain ⟨rest, rfl⟩ := h
  exact ⟨v % 256, rest, by rw [WriteTW88_log]; simp⟩

theorem SW_reset_selects {σ : Type} (d : I2cBus σ) (w : World σ) (st : isl79987_state)
    (hd : st.is_dummy = 0) : SelectsFirst w.log (isl79987_SW_reset d w st).2.log := by
  obtain ⟨r, -, h⟩ := SW_reset_log d w st hd
  exact ⟨_, _, h⟩

theorem mipi_reset_selects {σ : Type} (d : I2cBus σ) (w : World σ) (st : isl79987_state)
    (hd : st.is_dummy = 0) (flag_set : Int) :
    SelectsFirst w.log (isl79987_mipi_reset d w st flag_set).2.log := by
  obtain ⟨r, -, h⟩ := mipi_reset_log d w st flag_set hd
  exact ⟨_, _, h⟩

theorem mipi_power_selects {σ : Type} (d : I2cBus σ) (w : World σ) (st : isl79987_state)
    (hd : st.is_dummy = 0) (on_ : Bool) :
    SelectsFirst w.log (isl79987_mipi_power d w st on_).2.log := by
  obtain ⟨r, -, h⟩ := mipi_power_log d w st on_ hd
  exact ⟨_, _, h⟩

theorem set_vc_selects {σ : Type} (d : I2cBus σ) (w : World σ) (st : isl79987_state)
    (hd : st.is_dummy = 0) (vc : Nat) :
    SelectsFirst w.log (isl79987_csi2_set_virtual_channel d w st vc).2.log := by
  refine ⟨5, [Txn.wr 0x04 (vc % 256)], ?_⟩
  simp [isl79987_csi2_set_virtual_channel, hd, WriteTW88_log]

theorem afe_status_selects {σ : Type} (d : I2cBus σ) (w : World σ) (st : isl79987_state)
    (hd : st.is_dummy = 0) (pad : Int) (signal std : Option Nat) :
    SelectsFirst w.log (isl79987_afe_status d w st pad signal std).2.2.2.log := by
  have hpage : (if pad = 0 then 0x01 else if pad = 1 then 0x02 else if pad = 2 then 0x03
      else if pad = 3 then 0x04 else 0x0F : Nat) = afe_page pad := rfl
  have key : ∀ l : List Txn, Extends (WriteTW88 d w 0xFF (afe_page pad)).2.log l →
      SelectsFirst w.log l := fun l h => selects_of_extends d w _ l h
  unfold isl79987_afe_status
  rw [if_neg (by simp [hd])]
  dsimp only
  rw [hpage]
  generalize (WriteTW88 d w 0xFF (afe_page pad)).2 = w1 at key ⊢
  have e1 := ReadTW88_uninit_extends d w1 ISL79987_AFE_STATUS_REG
  generalize ReadTW88_uninit d w1 ISL79987_AFE_STATUS_REG = r at e1 ⊢
  have e2 := ReadTW88_extends d r.2.2 ISL79987_DEC_STD_REG r.2.1
  generalize ReadTW88 d r.2.2 ISL79987_DEC_STD_REG r.2.1 = r1 at e2 ⊢
  split_ifs <;> first | exact key _ e1 | exact key _ (e1.trans_ e2)

theorem wait_field_selects {σ : Type} (d : I2cBus σ) (fuel : Nat) (w w1 : World σ)
    (st : isl79987_state) (f : Int) (hd : st.is_dummy = 0)
    (h : isl79987_wait_field d fuel w st f = some ((), w1)) :
    SelectsFirst w.log w1.log := by
  unfold isl79987_wait_field at h
  rw [if_neg (by simp [hd])] at h
  dsimp only at h
  split at h
  · cases h
  · rename_i t w2 heq
    simp only [Option.some.injEq, Prod.mk.injEq, true_and] at h
    obtain ⟨vs, hlog, -, -⟩ := wait_loop_log d _ _ _ _ _ _ _ heq
    refine ⟨1, (vs ++ [t]).map (Txn.rd 0x03), ?_⟩
    rw [← h, hlog, WriteTW88_log]
    simp
  · rename_i t1 w2 heq
    split at h
    · cases h
    · rename_i b t w3 heq2
      simp only [Option.some.injEq, Prod.mk.injEq, true_and] at h
      obtain ⟨vs1, hlog1, -, -⟩ := wait_loop_log d _ _ _ _ _ _ _ heq
      obtain ⟨vs2, hlog2, -, -⟩ := wait_loop_log d _ _ _ _ _ _ _ heq2
      refine ⟨1, (vs1 ++ [t1]).map (Txn.rd 0x03) ++ (vs2 ++ [t]).map (Txn.rd 0x03), ?_⟩
      rw [← h, hlog2, hlog1, WriteTW88_log]
      simp

theorem TestPattern_selects {σ : Type} (d : I2cBus σ) (w : World σ) (pad : Nat)
    (fOn : Int) :
    SelectsFirst w.log (isl79987_csi2_enable_TestPattern d w pad fOn).log :=
  selects_of_extends d w 5 _ (TestPattern_extends_select d w pad fOn)

theorem pseudo_frame_selects {σ : Type} (d : I2cBus σ) (w : World σ)
    (st : isl79987_state) :
    SelectsFirst w.log (download_pseudo_frame d w st).log := by
  unfold download_pseudo_frame
  dsimp only
  split_ifs <;>
    simp only [ReadTW88_uninit_log, WriteTW88_log, List.append_assoc,
      List.singleton_append] <;>
    exact ⟨_, _, rfl⟩

theorem s_ctrl_selects {σ : Type} (d : I2cBus σ) (w : World σ) (st : isl79987_state)
    (ctrl : v4l2_ctrl) (hd : st.is_dummy = 0) (hid : ctrl.id ∈ bus_ctrl_ids) :
    SelectsFirst w.log (isl79987_s_ctrl d w st ctrl).2.log := by
  have h0 : ctrl.id ≠ V4L2_CID_PIXEL_RATE := by
    intro h
    rw [h] at hid
    revert hid
    decide
  unfold isl79987_s_ctrl
  rw [if_neg h0, if_neg (by simp [hd])]
  by_cases h1 : ctrl.id = V4L2_CID_BRIGHTNESS
  · rw [if_pos h1]
    exact selects_of_extends d w _ _ (WriteTW88_extends _ _ _ _)
  rw [if_neg h1]
  by_cases h2 : ctrl.id = V4L2_CID_CONTRAST
  · rw [if_pos h2]
    exact selects_of_extends d w _ _ (WriteTW88_extends _ _ _ _)
  rw [if_neg h2]
  by_cases h3 : ctrl.id = V4L2_CID_SATURATION
  · rw [if_pos h3]
    exact selects_of_extends d w _ _
      ((WriteTW88_extends _ _ _ _).trans_ (WriteTW88_extends _ _ _ _))
  rw [if_neg h3]
  by_cases h4 : ctrl.id = V4L2_CID_HUE
  · rw [if_pos h4]
    exact selects_of_extends d w _ _ (WriteTW88_extends _ _ _ _)
  rw [if_neg h4]
  by_cases h5 : ctrl.id = V4L2_CID_BLACK_LEVEL
  · rw [if_pos h5]
    exact selects_of_extends d w _ _
      ((ReadTW88_uninit_extends _ _ _).trans_ (WriteTW88_extends _ _ _ _))
  rw [if_neg h5]
  by_cases h6 : ctrl.id = V4L2_CID_AUTO_WHITE_BALANCE
  · rw [if_pos h6]
    exact selects_of_extends d w _ _
      ((ReadTW88_uninit_extends _ _ _).trans_ (WriteTW88_extends _ _ _ _))
  rw [if_neg h6]
  by_cases h7 : ctrl.id = V4L2_CID_SHARPNESS
  · rw [if_pos h7]
    exact selects_of_extends d w _ _
      ((ReadTW88_uninit_extends _ _ _).trans_ (WriteTW88_extends _ _ _ _))
  rw [if_neg h7]
  by_cases h8 : ctrl.id = V4L2_CID_TEST_PATTERN
  · rw [if_pos h8]
    exact selects_of_extends d w 5 _
      ((((TestPattern_extends_select d w 0 ctrl.val).trans_
        (TestPattern_extends _ _ _ _)).trans_ (TestPattern_extends _ _ _ _)).trans_
        (TestPattern_extends _ _ _ _))
  exfalso
  simp only [bus_ctrl_ids, List.mem_cons, List.mem_singleton, List.not_mem_nil,
    or_false] at hid
  rcases hid with h | h | h | h | h | h | h | h
  · exact h1 h
  · exact h2 h
  · exact h3 h
  · exact h4 h
  · exact h5 h
  · exact h6 h
  · exact h7 h
  · exact h8 h

theorem s_ctrl_other_id {σ : Type} (d : I2cBus σ) (w : World σ) (st : isl79987_state)
    (ctrl : v4l2_ctrl) (hid : ctrl.id ∉ bus_ctrl_ids) :
    (isl79987_s_ctrl d w st ctrl).2 = w := by
  simp only [bus_ctrl_ids, List.mem_cons, List.mem_singleton, List.not_mem_nil,
    or_false, not_or] at hid
  obtain ⟨h1, h2, h3, h4, h5, h6, h7, h8⟩ := hid
  unfold isl79987_s_ctrl
  rw [if_neg h1, if_neg h2, if_neg h3, if_neg h4, if_neg h5, if_neg h6, if_neg h7, if_neg h8]
  split_ifs <;> rfl

theorem static_tables_select : ∀ t ∈ static_tables,
    ∃ (v : Nat) (rest : List reg_value), t = ⟨0xFF, v⟩ :: rest := by
  intro t ht
  simp only [static_tables, List.mem_cons, List.mem_singleton, List.not_mem_nil,
    or_false] at ht
  rcases ht with rfl | rfl | rfl | rfl | rfl | rfl | rfl | rfl | rfl | rfl | rfl <;>
    exact ⟨_, _, rfl⟩

theorem WriteTW88S_extends {σ : Type} (d : I2cBus σ) (t : List reg_value) :
    ∀ w : World σ, Extends w.log (WriteTW88S d w t).2.log := by
  induction t with
  | nil => intro w; exact Extends.rfl_ _
  | cons c cs ih =>
    intro w
    unfold WriteTW88S
    dsimp only
    split_ifs
    · exact WriteTW88_extends _ _ _ _
    · exact (WriteTW88_extends _ _ _ _).trans_ (ih _)

theorem static_tables_write_select {σ : Type} (d : I2cBus σ) (w : World σ) :
    ∀ t ∈ static_tables, SelectsFirst w.log (WriteTW88S d w t).2.log := by
  intro t ht
  obtain ⟨v, rest, rfl⟩ := static_tables_select t ht
  apply selects_of_extends d w v
  unfold WriteTW88S
  dsimp only
  split_ifs
  · exact Extends.rfl_ _
  · exact WriteTW88S_extends d rest _

/-! ### The bank selected beforehand does not matter -/

theorem select_withBank (x : World RegFile) (p v : Nat) :
    WriteTW88 regFileBus (withBank x p) 0xFF v = WriteTW88 regFileBus x 0xFF v := rfl

theorem TestPattern_withBank (x : World RegFile) (p pad : Nat) (fOn : Int) :
    isl79987_csi2_enable_TestPattern regFileBus (withBank x p) pad fOn
      = isl79987_csi2_enable_TestPattern regFileBus x pad fOn := rfl

theorem pseudo_frame_withBank (x : World RegFile) (p : Nat) (st : isl79987_state) :
    download_pseudo_frame regFileBus (withBank x p) st
      = download_pseudo_frame regFileBus x st := rfl

theorem static_tables_withBank (x : World RegFile) (p : Nat) :
    ∀ t ∈ static_tables,
      WriteTW88S regFileBus (withBank x p) t = WriteTW88S regFileBus x t := by
  intro t ht
  obtain ⟨v, rest, rfl⟩ := static_tables_select t ht
  unfold WriteTW88S
  rw [select_withBank]

theorem SW_reset_withBank (x : World RegFile) (p : Nat) (st : isl79987_state) :
    (isl79987_SW_reset regFileBus (withBank x p) st).1
        = (isl79987_SW_reset regFileBus x st).1
      ∧ seen (isl79987_SW_reset regFileBus (withBank x p) st).2
        = seen (isl79987_SW_reset regFileBus x st).2 := by
  unfold isl79987_SW_reset
  split_ifs <;> exact ⟨rfl, rfl⟩

theorem mipi_reset_withBank (x : World RegFile) (p : Nat) (st : isl79987_state)
    (flag_set : Int) :
    (isl79987_mipi_reset regFileBus (withBank x p) st flag_set).1
        = (isl79987_mipi_reset regFileBus x st flag_set).1
      ∧ seen (isl79987_mipi_reset regFileBus (withBank x p) st flag_set).2
        = seen (isl79987_mipi_reset regFileBus x st flag_set).2 := by
  unfold isl79987_mipi_reset
  split_ifs <;> exact ⟨rfl, rfl⟩

theorem mipi_power_withBank (x : World RegFile) (p : Nat) (st : isl79987_state)
    (on_ : Bool) :
    (isl79987_mipi_power regFileBus (withBank x p) st on_).1
        = (isl79987_mipi_power regFileBus x st on_).1
      ∧ seen (isl79987_mipi_power regFileBus (withBank x p) st on_).2
        = seen (isl79987_mipi_power regFileBus x st on_).2 := by
  unfold isl79987_mipi_power
  split_ifs <;> exact ⟨rfl, rfl⟩

theorem set_vc_withBank (x : World RegFile) (p : Nat) (st : isl79987_state) (vc : Nat) :
    (isl79987_csi2_set_virtual_channel regFileBus (withBank x p) st vc).1
        = (isl79987_csi2_set_virtual_channel regFileBus x st vc).1
      ∧ seen (isl79987_csi2_set_virtual_channel regFileBus (withBank x p) st vc).2
        = seen (isl79987_csi2_set_virtual_channel regFileBus x st vc).2 := by
  unfold isl79987_csi2_set_virtual_channel
  split_ifs <;> exact ⟨rfl, rfl⟩

theorem afe_status_withBank (x : World RegFile) (p : Nat) (st : isl79987_state)
    (pad : Int) (signal std : Option Nat) :
    (isl79987_afe_status regFileBus (withBank x p) st pad signal std).1
        = (isl79987_afe_status regFileBus x st pad signal std).1
      ∧ (isl79987_afe_status regFileBus (withBank x p) st pad signal std).2.1
        = (isl79987_afe_status regFileBus x st pad signal std).2.1
      ∧ (isl79987_afe_status regFileBus (withBank x p) st pad signal std).2.2.1
        = (isl79987_afe_status regFileBus x st pad signal std).2.2.1
      ∧ seen (isl79987_afe_status regFileBus (withBank x p) st pad signal std).2.2.2
        = seen (isl79987_afe_status regFileBus x st pad signal std).2.2.2 := by
  unfold isl79987_afe_status
  by_cases hd : st.is_dummy ≠ 0
  · rw [if_pos hd, if_pos hd]
    exact ⟨rfl, rfl, rfl, rfl⟩
  · rw [if_neg hd, if_neg hd]
    dsimp only
    rw [select_withBank]
    exact ⟨rfl, rfl, rfl, rfl⟩

theorem wait_field_withBank (x : World RegFile) (p fuel : Nat) (st : isl79987_state)
    (f : Int) :
    (isl79987_wait_field regFileBus fuel (withBank x p) st f).map (fun r => seen r.2)
      = (isl79987_wait_field regFileBus fuel x st f).map (fun r => seen r.2) := by
  unfold isl79987_wait_field
  by_cases hd : st.is_dummy ≠ 0
  · rw [if_pos hd, if_pos hd]
    rfl
  · rw [if_neg hd, if_neg hd]
    dsimp only
    rw [select_withBank]

theorem s_ctrl_withBank (x : World RegFile) (p : Nat) (st : isl79987_state)
    (ctrl : v4l2_ctrl) :
    (isl79987_s_ctrl regFileBus (withBank x p) st ctrl).1
        = (isl79987_s_ctrl regFileBus x st ctrl).1
      ∧ seen (isl79987_s_ctrl regFileBus (withBank x p) st ctrl).2
        = seen (isl79987_s_ctrl regFileBus x st ctrl).2 := by
  unfold isl79987_s_ctrl
  by_cases h0 : ctrl.id = V4L2_CID_PIXEL_RATE
  · rw [if_pos h0, if_pos h0]
    exact ⟨rfl, rfl⟩
  rw [if_neg h0, if_neg h0]
  by_cases hd : st.is_dummy ≠ 0
  · rw [if_pos hd, if_pos hd]
    exact ⟨rfl, rfl⟩
  rw [if_neg hd, if_neg hd]
  by_cases h1 : ctrl.id = V4L2_CID_BRIGHTNESS
  · rw [if_pos h1, if_pos h1]
    exact ⟨rfl, rfl⟩
  rw [if_neg h1, if_neg h1]
  by_cases h2 : ctrl.id = V4L2_CID_CONTRAST
  · rw [if_pos h2, if_pos h2]
    exact ⟨rfl, rfl⟩
  rw [if_neg h2, if_neg h2]
  by_cases h3 : ctrl.id = V4L2_CID_SATURATION
  · rw [if_pos h3, if_pos h3]
    exact ⟨rfl, rfl⟩
  rw [if_neg h3, if_neg h3]
  by_cases h4 : ctrl.id = V4L2_CID_HUE
  · rw [if_pos h4, if_pos h4]
    exact ⟨rfl, rfl⟩
  rw [if_neg h4, if_neg h4]
  by_cases h5 : ctrl.id = V4L2_CID_BLACK_LEVEL
  · rw [if_pos h5, if_pos h5]
    exact ⟨rfl, rfl⟩
  rw [if_neg h5, if_neg h5]
  by_cases h6 : ctrl.id = V4L2_CID_AUTO_WHITE_BALANCE
  · rw [if_pos h6, if_pos h6]
    exact ⟨rfl, rfl⟩
  rw [if_neg h6, if_neg h6]
  by_cases h7 : ctrl.id = V4L2_CID_SHARPNESS
  · rw [if_pos h7, if_pos h7]
    exact ⟨rfl, rfl⟩
  rw [if_neg h7, if_neg h7]
  by_cases h8 : ctrl.id = V4L2_CID_TEST_PATTERN
  · rw [if_pos h8, if_pos h8]
    dsimp only
    rw [TestPattern_withBank]
    exact ⟨rfl, rfl⟩
  rw [if_neg h8, if_neg h8]
  exact ⟨rfl, rfl⟩

/-- C26: the first pair of each of the eleven static tables is a bank select, and over
any bus writing a static table, `isl79987_csi2_enable_TestPattern` and the pseudo-frame
sequence add a write of register 0xFF to the log before anything else. On a session
that is not simulated so do `isl79987_SW_reset`, `isl79987_mipi_reset`,
`isl79987_mipi_power`, `isl79987_csi2_set_virtual_channel`, `isl79987_afe_status`, a
field wait that returns (it does over a scripted chip whose polls show video loss or an
edge within the rounds allowed, and then its log starts with the page-1 select), and
`isl79987_s_ctrl` for each of the eight controls it makes accesses for; for any other
control identifier it leaves the world as it was. On the register-file chip, started
from the world `x` and from the same world with any other bank `p` selected, each of
these operations gives the same result, the same log and the same register contents. -/
theorem bank_selected_first {σ : Type} (d : I2cBus σ) (w : World σ) (x : World RegFile)
    (p : Nat) (st : isl79987_state) (hd : st.is_dummy = 0) :
    (∀ t ∈ static_tables, ∃ (v : Nat) (rest : List reg_value), t = ⟨0xFF, v⟩ :: rest)
      ∧ (∀ t ∈ static_tables, SelectsFirst w.log (WriteTW88S d w t).2.log)
      ∧ SelectsFirst w.log (isl79987_SW_reset d w st).2.log
      ∧ (∀ flag_set : Int, SelectsFirst w.log (isl79987_mipi_reset d w st flag_set).2.log)
      ∧ (∀ on_ : Bool, SelectsFirst w.log (isl79987_mipi_power d w st on_).2.log)
      ∧ (∀ vc : Nat,
          SelectsFirst w.log (isl79987_csi2_set_virtual_channel d w st vc).2.log)
      ∧ (∀ (pad : Int) (signal std : Option Nat),
          SelectsFirst w.log (isl79987_afe_status d w st pad signal std).2.2.2.log)
      ∧ (∀ (fuel : Nat) (f : Int) (w1 : World σ),
          isl79987_wait_field d fuel w st f = some ((), w1) → SelectsFirst w.log w1.log)
      ∧ (∀ (polls : List Nat) (log : List Txn) (f : Int) (fuel n : Nat),
          (∀ b ∈ polls, b < 256) → ReturningPoll (decide (f ≠ 0)) polls n → n < fuel →
          (isl79987_wait_field pollBus fuel ⟨polls, log⟩ st f).map (fun r => r.2.log)
            = some (log ++ Txn.wr 0xFF 0x01 :: (polls.take (n + 1)).map (Txn.rd 0x03)))
      ∧ (∀ (pad : Nat) (fOn : Int),
          SelectsFirst w.log (isl79987_csi2_enable_TestPattern d w pad fOn).log)
      ∧ (∀ ctrl : v4l2_ctrl, ctrl.id ∈ bus_ctrl_ids →
          SelectsFirst w.log (isl79987_s_ctrl d w st ctrl).2.log)
      ∧ (∀ ctrl : v4l2_ctrl, ctrl.id ∉ bus_ctrl_ids → (isl79987_s_ctrl d w st ctrl).2 = w)
      ∧ SelectsFirst w.log (download_pseudo_frame d w st).log
      ∧ (∀ t ∈ static_tables,
          (WriteTW88S regFileBus (withBank x p) t).1 = (WriteTW88S regFileBus x t).1
            ∧ seen (WriteTW88S regFileBus (withBank x p) t).2
              = seen (WriteTW88S regFileBus x t).2)
      ∧ ((isl79987_SW_reset regFileBus (withBank x p) st).1
            = (isl79987_SW_reset regFileBus x st).1
          ∧ seen (isl79987_SW_reset regFileBus (withBank x p) st).2
            = seen (isl79987_SW_reset regFileBus x st).2)
      ∧ (∀ flag_set : Int,
          (isl79987_mipi_reset regFileBus (withBank x p) st flag_set).1
              = (isl79987_mipi_reset regFileBus x st flag_set).1
            ∧ seen (isl79987_mipi_reset regFileBus (withBank x p) st flag_set).2
              = seen (isl79987_mipi_reset regFileBus x st flag_set).2)
      ∧ (∀ on_ : Bool,
          (isl79987_mipi_power regFileBus (withBank x p) st on_).1
              = (isl79987_mipi_power regFileBus x st on_).1
            ∧ seen (isl79987_mipi_power regFileBus (withBank x p) st on_).2
              = seen (isl79987_mipi_power regFileBus x st on_).2)
      ∧ (∀ vc : Nat,
          (isl79987_csi2_set_virtual_channel regFileBus (withBank x p) st vc).1
              = (isl79987_csi2_set_virtual_channel regFileBus x st vc).1
            ∧ seen (isl79987_csi2_set_virtual_channel regFileBus (withBank x p) st vc).2
              = seen (isl79987_csi2_set_virtual_channel regFileBus x st vc).2)
      ∧ (∀ (pad : Int) (signal std : Option Nat),
          (isl79987_afe_status regFileBus (withBank x p) st pad signal std).1
              = (isl79987_afe_status regFileBus x st pad signal std).1
            ∧ (isl79987_afe_status regFileBus (withBank x p) st pad signal std).2.1
              = (isl79987_afe_status regFileBus x st pad signal std).2.1
            ∧ (isl79987_afe_status regFileBus (withBank x p) st pad signal std).2.2.1
              = (isl79987_afe_status regFileBus x st pad signal std).2.2.1
            ∧ seen (isl79987_afe_status regFileBus (withBank x p) st pad signal std).2.2.2
              = seen (isl79987_afe_status regFileBus x st pad signal std).2.2.2)
      ∧ (∀ (fuel : Nat) (f : Int),
          (isl79987_wait_field regFileBus fuel (withBank x p) st f).map (fun r => seen r.2)
            = (isl79987_wait_field regFileBus fuel x st f).map (fun r => seen r.2))
      ∧ (∀ (pad : Nat) (fOn : Int),
          seen (isl79987_csi2_enable_TestPattern regFileBus (withBank x p) pad fOn)
            = seen (isl79987_csi2_enable_TestPattern regFileBus x pad fOn))
      ∧ (∀ ctrl : v4l2_ctrl,
          (isl79987_s_ctrl regFileBus (withBank x p) st ctrl).1
              = (isl79987_s_ctrl regFileBus x st ctrl).1
            ∧ seen (isl79987_s_ctrl regFileBus (withBank x p) st ctrl).2
              = seen (isl79987_s_ctrl regFileBus x st ctrl).2)
      ∧ seen (download_pseudo_frame regFileBus (withBank x p) st)
          = seen (download_pseudo_frame regFileBus x st) := by
  refine ⟨static_tables_select, static_tables_write_select d w, SW_reset_selects d w st hd,
    mipi_reset_selects d w st hd, mipi_power_selects d w st hd, set_vc_selects d w st hd,
    afe_status_selects d w st hd, ?_, ?_, TestPattern_selects d w, ?_, ?_,
    pseudo_frame_selects d w st,
    ?_, SW_reset_withBank x p st, mipi_reset_withBank x p st, mipi_power_withBank x p st,
    set_vc_withBank x p st, afe_status_withBank x p st, ?_, ?_, s_ctrl_withBank x p st, ?_⟩
  · intro fuel f w1 h
    exact wait_field_selects d fuel w w1 st f hd h
  · intro polls log f fuel n hb hret hfuel
    rw [wait_field_polls polls log st f fuel n hd hb hret hfuel]
    rfl
  · intro ctrl hid
    exact s_ctrl_selects d w st ctrl hd hid
  · intro ctrl hid
    exact s_ctrl_other_id d w st ctrl hid
  · intro t ht
    rw [static_tables_withBank x p t ht]
    exact ⟨rfl, rfl⟩
  · intro fuel f
    exact wait_field_withBank x p fuel st f
  · intro pad fOn
    rw [TestPattern_withBank]
  · rw [pseudo_frame_withBank]

/-- Witness of C26: the register-file chip with 0x80 in every register, where a field
wait returns after its first poll and the sharpness control starts with the select of
bank 0x0F; bank 7 against bank 0 for the default table. -/
theorem bank_selected_first_witness :
    (realSession.is_dummy = 0 ∧ isl79987_regs_default ∈ static_tables
        ∧ V4L2_CID_SHARPNESS ∈ bus_ctrl_ids)
      ∧ (isl79987_wait_field regFileBus 1 (regWorld 0x80) realSession 1).map
          (fun r => r.2.log) = some [Txn.wr 0xFF 0x01, Txn.rd 0x03 0x80]
      ∧ (isl79987_s_ctrl regFileBus (regWorld 0x80) realSession
            ⟨V4L2_CID_SHARPNESS, 7⟩).2.log
          = [Txn.wr 0xFF 0x0F, Txn.rd 0x12 0x80, Txn.wr 0x12 0x87]
      ∧ SelectsFirst (regWorld 0x80).log [Txn.wr 0xFF 0x01, Txn.rd 0x03 0x80]
      ∧ SelectsFirst (regWorld 0x80).log
          (isl79987_s_ctrl regFileBus (regWorld 0x80) realSession
            ⟨V4L2_CID_SHARPNESS, 7⟩).2.log
      ∧ seen (WriteTW88S regFileBus (withBank (regWorld 0x80) 7) isl79987_regs_default).2
          = seen (WriteTW88S regFileBus (regWorld 0x80) isl79987_regs_default).2 :=
  ⟨by decide, by decide, by decide,
    (bank_selected_first regFileBus (regWorld 0x80) (regWorld 0x80) 7
      realSession rfl).2.2.2.2.2.2.2.1 1 1
      ⟨⟨1, 3, fun _ _ => 0x80⟩, [Txn.wr 0xFF 0x01, Txn.rd 0x03 0x80]⟩ rfl,
    (bank_selected_first regFileBus (regWorld 0x80) (regWorld 0x80) 7
      realSession rfl).2.2.2.2.2.2.2.2.2.2.1 ⟨V4L2_CID_SHARPNESS, 7⟩ (by decide),
    ((bank_selected_first regFileBus (regWorld 0x80) (regWorld 0x80) 7
      realSession rfl).2.2.2.2.2.2.2.2.2.2.2.2.2.1 isl79987_regs_default (by decide)).2⟩
end Isl79987
